import Mathlib

/-!
# CQLite: a shallow embedding of `src/src/cqlite.c`

The database engine (sqlite3) is an external collaborator.  A prepared
statement is modelled by the sequence of outcomes its successive
`sqlite3_step` calls will report together with the number of calls made so
far; a row is modelled by what the engine's column accessors return for it.
C strings are byte lists that include their zero terminator; a `NULL`
pointer is `none`.  The raw-text entry points record the engine calls they
make on their statements.  The test model of `src/test/test_database.c` is
embedded with its doubles as IEEE-754 bit patterns.
-/

namespace CQLite

/-! ## Engine constants (sqlite3.h) -/

/-- Engine return code: successful result. -/
abbrev SQLITE_OK : Int := 0

/-- Engine return code: generic error. -/
abbrev SQLITE_ERROR : Int := 1

/-- Engine return code: `sqlite3_step` has another row ready. -/
abbrev SQLITE_ROW : Int := 100

/-- Engine return code: `sqlite3_step` has finished executing. -/
abbrev SQLITE_DONE : Int := 101

/-- Column type code of a text value. -/
abbrev SQLITE_TEXT : Int := 3

/-- Column type code of a NULL value. -/
abbrev SQLITE_NULL : Int := 5

/-- Largest value of a C `int` (32 bits). -/
abbrev INT_MAX : Int := 2147483647

/-! ## Data model -/

/-- Result code of every core operation (`cqlite_rcode_t`, cqlite.h). -/
inductive cqlite_rcode_t where
  | CQLITE_SUCCESS
  | CQLITE_ERROR
  deriving DecidableEq, Repr

open cqlite_rcode_t

/-- A result row, as seen through the engine's column accessors:
`column_type c` is the type code of column `c`, `column_int c` its value as
a C `int`, and `column_text c` the bytes of its text value (the engine
appends the zero terminator when it hands the text out). -/
structure Row where
  column_type : Int → Int
  column_int : Int → Int
  column_text : Int → List Nat

/-- A prepared statement (`sqlite3_stmt`): `script i` is the return code of
the `i`-th call of `sqlite3_step` (counted from 0) and the row the statement
is positioned on when that code is `SQLITE_ROW`; `steps` counts the calls of
`sqlite3_step` made so far. -/
structure sqlite3_stmt where
  script : Nat → Int × Row
  steps : Nat

/-- A database connection (`sqlite3`), reduced to what the core reads from
it: the row id of the most recent successful insert. -/
structure sqlite3 where
  last_insert_rowid : Int

/-- Advance a statement once: the return code and the advanced statement. -/
def sqlite3_step (q : sqlite3_stmt) : Int × sqlite3_stmt :=
  ((q.script q.steps).1, { script := q.script, steps := q.steps + 1 })

/-- The row a statement is positioned on: the row of its latest step when
that step reported `SQLITE_ROW`, and none otherwise. -/
def current_row (q : sqlite3_stmt) : Option Row :=
  match q.steps with
  | 0 => none
  | k + 1 => if (q.script k).1 = SQLITE_ROW then some (q.script k).2 else none

/-- Engine accessor: column as a C `int` (0 when there is no current row). -/
def sqlite3_column_int (q : sqlite3_stmt) (col : Int) : Int :=
  match current_row q with
  | some r => r.column_int col
  | none => 0

/-- Engine accessor: column type code (NULL when there is no current row). -/
def sqlite3_column_type (q : sqlite3_stmt) (col : Int) : Int :=
  match current_row q with
  | some r => r.column_type col
  | none => SQLITE_NULL

/-- Engine accessor: pointer to the zero-terminated text of a column. -/
def sqlite3_column_text (q : sqlite3_stmt) (col : Int) : List Nat :=
  match current_row q with
  | some r => r.column_text col ++ [0]
  | none => [0]

/-- Engine accessor: row id of the most recent successful insert. -/
def sqlite3_last_insert_rowid (db : sqlite3) : Int :=
  db.last_insert_rowid

/-! ## C library functions used by the core -/

/-- The bytes of the C string stored at the start of `mem`: everything
before the first zero byte. -/
def c_str (mem : List Nat) : List Nat :=
  mem.takeWhile (fun b => b != 0)

/-- C `strlen`. -/
def strlen (mem : List Nat) : Nat :=
  (c_str mem).length

/-- C `strdup`: a fresh zero-terminated copy of the C string at `src`, or
`NULL` when the allocation fails (`ok = false`). -/
def strdup (ok : Bool) (src : List Nat) : Option (List Nat) :=
  if ok then some (c_str src ++ [0]) else none

/-- C `snprintf( buf, size, "%s", src )`: writes at most `size - 1` bytes of
the C string at `src` followed by a zero terminator (nothing at all when
`size = 0`) and returns the length of the whole string, or a negative value
when that length does not fit a C `int`. -/
def snprintf_s (buf : List Nat) (size : Nat) (src : List Nat) : Int × List Nat :=
  let written := (c_str src).take (size - 1)
  let buf1 := if size = 0 then buf else written ++ [0] ++ buf.drop (written.length + 1)
  let ret : Int := if (strlen src : Int) ≤ INT_MAX then (strlen src : Int) else -1
  (ret, buf1)

/-- C `memset( buf, 0, size )`. -/
def memset_zero (buf : List Nat) (size : Nat) : List Nat :=
  List.replicate size 0 ++ buf.drop size

/-- C `calloc( nmemb, size )` for an array of model slots: `nmemb` slots,
each all-zero, or `NULL` when the allocation fails (`ok = false`). -/
def calloc {μ : Type} [Zero μ] (ok : Bool) (nmemb : Nat) (_size : Nat) : Option (List μ) :=
  if ok then some (List.replicate nmemb 0) else none

/-! ## Count (cqlite.c, lines 41-58) -/

/-- Outputs of `cqlite_count_query_execute_prepared`: the result code, the
value left in `*count_out`, and the statement after the call. -/
structure CountResult where
  rcode : cqlite_rcode_t
  count_out : Int
  count_query : sqlite3_stmt

/-- Execute prepared count query. -/
def cqlite_count_query_execute_prepared (count_query : sqlite3_stmt) : CountResult :=
  let rcode := CQLITE_ERROR
  let count_out : Int := 0
  let stepped := sqlite3_step count_query
  if SQLITE_ROW = stepped.1 then
    { rcode := CQLITE_SUCCESS
      count_out := sqlite3_column_int stepped.2 0
      count_query := stepped.2 }
  else
    { rcode := rcode, count_out := count_out, count_query := stepped.2 }

/-! ## Dynamic string read (cqlite.c, lines 62-90) -/

/-- Outputs of `cqlite_dynamic_string_read`: the result code and the value
left in `*string_out` (`none` is `NULL`). -/
structure StringReadResult where
  rcode : cqlite_rcode_t
  string_out : Option (List Nat)

/-- Read dynamically-allocated string from query.  `alloc_ok` tells whether
the allocation inside `strdup` succeeds. -/
def cqlite_dynamic_string_read (alloc_ok : Bool) (query : sqlite3_stmt) (column : Int) :
    StringReadResult :=
  let column_type := sqlite3_column_type query column
  let success0 : Bool := (SQLITE_TEXT == column_type) || (SQLITE_NULL == column_type)
  let string_out0 : Option (List Nat) := none
  let st : Bool × Option (List Nat) :=
    if SQLITE_TEXT = column_type then
      let s := strdup alloc_ok (sqlite3_column_text query column)
      (s.isSome, s)
    else (success0, string_out0)
  { rcode := if st.1 then CQLITE_SUCCESS else CQLITE_ERROR, string_out := st.2 }

/-! ## Find (cqlite.c, lines 94-123) -/

/-- Outputs of `cqlite_find`: the result code, `*found_out`, `*model_out`,
the statement after the call, and the statements the single-row callback was
invoked with (a record of the calls, not part of the C state). -/
structure FindResult (μ : Type) where
  rcode : cqlite_rcode_t
  found_out : Int
  model_out : μ
  query : sqlite3_stmt
  calls : List sqlite3_stmt

/-- Find model.  The callback `model_from_result_func` reads the current row
of the statement into the model and returns non-zero on success. -/
def cqlite_find {μ : Type} (query : sqlite3_stmt)
    (model_from_result_func : sqlite3_stmt → μ → Int × μ) (model_out : μ) : FindResult μ :=
  let found_out0 : Int := 0
  let stepped := sqlite3_step query
  let sqlite_rcode := stepped.1
  let success0 : Int := if SQLITE_ROW = sqlite_rcode ∨ SQLITE_DONE = sqlite_rcode then 1 else 0
  let st : Int × Int × μ × List sqlite3_stmt :=
    if SQLITE_ROW = sqlite_rcode then
      let r := model_from_result_func stepped.2 model_out
      (1, r.1, r.2, [stepped.2])
    else (found_out0, success0, model_out, [])
  { rcode := if st.2.1 ≠ 0 then CQLITE_SUCCESS else CQLITE_ERROR
    found_out := st.1
    model_out := st.2.2.1
    query := stepped.2
    calls := st.2.2.2 }

/-! ## Fixed-length string read (cqlite.c, lines 159-191) -/

/-- Outputs of `cqlite_fixed_length_string_read`: the result code and the
contents of the caller's buffer after the call. -/
structure FixedReadResult where
  rcode : cqlite_rcode_t
  string : List Nat

/-- Read fixed-length string from query.  `string` is the caller's buffer
and `string_size` its capacity.  The comparison `bytes_printed < string_size`
converts the `int` to `size_t`; it is only evaluated when
`0 <= bytes_printed`, where the conversion keeps the value. -/
def cqlite_fixed_length_string_read (query : sqlite3_stmt) (column : Int)
    (string : List Nat) (string_size : Nat) : FixedReadResult :=
  let column_type := sqlite3_column_type query column
  let success0 : Bool := (SQLITE_TEXT == column_type) || (SQLITE_NULL == column_type)
  let st : Bool × List Nat :=
    if SQLITE_TEXT = column_type then
      let p := snprintf_s string string_size (sqlite3_column_text query column)
      let bytes_printed := p.1
      (decide (0 ≤ bytes_printed) && decide (bytes_printed.toNat < string_size), p.2)
    else if SQLITE_NULL = column_type then
      (success0, memset_zero string string_size)
    else (success0, string)
  { rcode := if st.1 then CQLITE_SUCCESS else CQLITE_ERROR, string := st.2 }

/-! ## Insert (cqlite.c, lines 195-218) -/

/-- Outputs of `cqlite_insert_query_execute`: the result code, the location
`new_row_id_out` points to after the call (`none` when the pointer is
`NULL`), and the statement after the call. -/
structure InsertResult where
  rcode : cqlite_rcode_t
  new_row_id_out : Option Int
  insert_query : sqlite3_stmt

/-- Execute insert query.  `db` is the connection as `sqlite3_last_insert_rowid`
reads it after the step; `new_row_id_out` is `none` for a `NULL` pointer and
`some v` for a location currently holding `v`. -/
def cqlite_insert_query_execute (db : sqlite3) (insert_query : sqlite3_stmt)
    (new_row_id_out : Option Int) : InsertResult :=
  let stepped := sqlite3_step insert_query
  let success : Bool := SQLITE_DONE == stepped.1
  if success then
    { rcode := CQLITE_SUCCESS
      new_row_id_out :=
        match new_row_id_out with
        | some _ => some (sqlite3_last_insert_rowid db)
        | none => none
      insert_query := stepped.2 }
  else
    { rcode := CQLITE_ERROR, new_row_id_out := new_row_id_out, insert_query := stepped.2 }

/-! ## Select with materialization (cqlite.c, lines 258-324) -/

/-- Add-model-to-result-list callback (`cqlite_model_add_to_list_func_t`,
cqlite.h): given the statement positioned on a row, the model list and the
index to fill, it returns non-zero on success together with the model list
as it leaves it. -/
abbrev cqlite_model_add_to_list_func_t (μ : Type) :=
  sqlite3_stmt → Option (List μ) → Int → Int × Option (List μ)

/-- One recorded invocation of the add-to-list callback: the statement and
index it was given and the value it returned. -/
structure AddCall where
  query : sqlite3_stmt
  next_model_list_idx : Int
  returned : Int

/-- The local variables of `cqlite_select_query_execute_prepared` that the
row loop reads and writes, with the record of callback invocations (the
record is not part of the C state). -/
structure SelectLocals (μ : Type) where
  success : Int
  sqlite_rcode : Int
  model_idx : Int
  model_list : Option (List μ)
  select_query : sqlite3_stmt
  calls : List AddCall

/-- The `else` branch of the row loop (lines 300-304): convert the current
row into slot `model_idx`, then move to the next result. -/
def select_loop_body {μ : Type} (add_to_list_func : cqlite_model_add_to_list_func_t μ)
    (s : SelectLocals μ) : SelectLocals μ :=
  let r := add_to_list_func s.select_query s.model_list s.model_idx
  let stepped := sqlite3_step s.select_query
  { success := r.1
    sqlite_rcode := stepped.1
    model_idx := s.model_idx + 1
    model_list := r.2
    select_query := stepped.2
    calls := s.calls ++ [{ query := s.select_query, next_model_list_idx := s.model_idx,
                           returned := r.1 }] }

/-- The row loop (lines 291-306).  `fuel` bounds the number of iterations;
the result is `none` when the bound is reached with the loop condition still
true.  The C `int`s are unbounded integers here: `model_idx` is incremented
only while it is below `model_list_cnt`, so it cannot overflow. -/
def select_loop {μ : Type} (add_to_list_func : cqlite_model_add_to_list_func_t μ)
    (model_list_cnt : Int) : Nat → SelectLocals μ → Option (SelectLocals μ)
  | 0, s => if s.success ≠ 0 ∧ SQLITE_ROW = s.sqlite_rcode then none else some s
  | fuel + 1, s =>
    if s.success ≠ 0 ∧ SQLITE_ROW = s.sqlite_rcode then
      if s.model_idx ≥ model_list_cnt then
        select_loop add_to_list_func model_list_cnt fuel { s with success := 0 }
      else
        select_loop add_to_list_func model_list_cnt fuel (select_loop_body add_to_list_func s)
    else some s

/-- Outputs of `cqlite_select_query_execute_prepared`: the result code,
`*model_list_out`, `*model_list_cnt_out`, both statements after the call, and
two records that are not part of the C state: the callback invocations in
order, and the `calloc` requests `(nmemb, size)` made. -/
structure SelectResult (μ : Type) where
  rcode : cqlite_rcode_t
  model_list_out : Option (List μ)
  model_list_cnt_out : Int
  select_query : sqlite3_stmt
  count_query : sqlite3_stmt
  calls : List AddCall
  allocations : List (Nat × Nat)

/-- The tail of `cqlite_select_query_execute_prepared` (lines 308-323): the
final check that the cursor reported completion, the outputs, and the result
code, from the locals `s` the row loop leaves. -/
def select_outputs {μ : Type} (model_list_cnt : Int) (count_query : sqlite3_stmt)
    (allocations : List (Nat × Nat)) (s : SelectLocals μ) : SelectResult μ :=
  -- Ensure all results were successfully read
  let success : Int :=
    if s.success ≠ 0 then (if SQLITE_DONE = s.sqlite_rcode then 1 else 0) else s.success
  -- Set the output
  { rcode := if success ≠ 0 then CQLITE_SUCCESS else CQLITE_ERROR
    model_list_out := s.model_list
    model_list_cnt_out := model_list_cnt
    select_query := s.select_query
    count_query := count_query
    calls := s.calls
    allocations := allocations }

/-- The head of `cqlite_select_query_execute_prepared` (lines 268-288), after
the count query has run with outputs `counted`: allocate the output list when
a positive number of results is expected, then make the first step of the
select query.  The result is the locals on entry to the row loop, and the
`calloc` requests made.  `alloc_ok` tells whether the `calloc` succeeds. -/
def select_entry {μ : Type} [Zero μ] (alloc_ok : Bool) (select_query : sqlite3_stmt)
    (counted : CountResult) (model_size : Nat) : SelectLocals μ × List (Nat × Nat) :=
  let model_list_cnt := counted.count_out
  let success0 : Int := if CQLITE_SUCCESS = counted.rcode then 1 else 0
  -- Allocate the output list to hold all expected results.
  let allocate : Bool := decide (success0 ≠ 0 ∧ model_list_cnt > 0)
  let model_list : Option (List μ) :=
    if allocate then calloc alloc_ok model_list_cnt.toNat model_size else none
  let success1 : Int := if allocate then (if model_list.isSome then 1 else 0) else success0
  let stepped : Int × sqlite3_stmt :=
    if success1 ≠ 0 then sqlite3_step select_query else (SQLITE_ERROR, select_query)
  ({ success := success1
     sqlite_rcode := stepped.1
     model_idx := 0
     model_list := model_list
     select_query := stepped.2
     calls := [] },
   if allocate then [(model_list_cnt.toNat, model_size)] else [])

/-- Execute prepared select query: get the number of expected results, then
`select_entry`, the row loop and `select_outputs`.  The loop is run with
`model_list_cnt + 1` iterations allowed: each iteration but the last
increments `model_idx`, which stays below `model_list_cnt`. -/
def cqlite_select_query_execute_prepared {μ : Type} [Zero μ] (alloc_ok : Bool)
    (select_query count_query : sqlite3_stmt)
    (add_to_list_func : cqlite_model_add_to_list_func_t μ) (model_size : Nat) :
    Option (SelectResult μ) :=
  -- Get the number of expected results
  let counted := cqlite_count_query_execute_prepared count_query
  let entry : SelectLocals μ × List (Nat × Nat) :=
    select_entry alloc_ok select_query counted model_size
  -- Read each result into the output list
  (select_loop add_to_list_func counted.count_out (counted.count_out.toNat + 1) entry.1).map
    (select_outputs counted.count_out counted.count_query entry.2)

/-! ## Helpers for stating properties -/

/-- A statement whose successive steps report the entries of `outcomes` and
then `last` forever, not yet stepped. -/
def stmt_of_list (outcomes : List (Int × Row)) (last : Int × Row) : sqlite3_stmt :=
  { script := fun i => outcomes.getD i last, steps := 0 }

/-- The statement `q` after `n` more calls of `sqlite3_step`. -/
def after_steps (q : sqlite3_stmt) (n : Nat) : sqlite3_stmt :=
  { script := q.script, steps := q.steps + n }

/-- A row with a single integer column holding `v` (as a COUNT query
yields): every column reads as the integer `v`, with no text. -/
def int_row (v : Int) : Row :=
  { column_type := fun _ => 1, column_int := fun _ => v, column_text := fun _ => [] }

/-- A row whose every column is the text `t`; `v` is what the engine
reports for its conversion to an integer. -/
def text_row (t : List Nat) (v : Int) : Row :=
  { column_type := fun _ => SQLITE_TEXT, column_int := fun _ => v, column_text := fun _ => t }

/-- A row whose every column is NULL. -/
def null_row : Row :=
  { column_type := fun _ => SQLITE_NULL, column_int := fun _ => 0, column_text := fun _ => [] }

/-- The callback converts the current row of the statement into the slot it
is told to fill: on a list with a slot at `idx` it stores `conv query` there
and leaves every other slot as it was. -/
def fills_slot_with {μ : Type} (add_to_list_func : cqlite_model_add_to_list_func_t μ)
    (conv : sqlite3_stmt → μ) : Prop :=
  ∀ (query : sqlite3_stmt) (l : List μ) (idx : Nat), idx < l.length →
    (add_to_list_func query (some l) (idx : Int)).2 = some (l.set idx (conv query))

/-- The callback writes only the slot whose index it is given: it hands
back a list of the same length that differs from the one it received at
most at `idx`. -/
def writes_only_given_slot {μ : Type} (add_to_list_func : cqlite_model_add_to_list_func_t μ) :
    Prop :=
  ∀ (query : sqlite3_stmt) (l : List μ) (idx : Int),
    ∃ l1, (add_to_list_func query (some l) idx).2 = some l1 ∧ l1.length = l.length ∧
      ∀ j : Nat, (j : Int) ≠ idx → l1[j]? = l[j]?

/-- The number of slots the callback reported as successfully populated:
the invocations that returned non-zero. -/
def populated_count (calls : List AddCall) : Nat :=
  (calls.filter (fun c => c.returned != 0)).length

/-- The statements and indices the callback was invoked with, in order. -/
def call_args (calls : List AddCall) : List (sqlite3_stmt × Int) :=
  calls.map (fun c => (c.query, c.next_model_list_idx))

/-- The model list after the row loop has invoked the callback `m` times on
a select statement that was `select_query` on entry to the function, starting
from the list `model_list`: invocation `i` (from 0) is made on the statement
after `i + 1` steps, with the list as the invocations before it left it and
with index `i`. -/
def buffer_after {μ : Type} (add_to_list_func : cqlite_model_add_to_list_func_t μ)
    (select_query : sqlite3_stmt) : Nat → Option (List μ) → Option (List μ)
  | 0, model_list => model_list
  | m + 1, model_list =>
    (add_to_list_func (after_steps select_query (m + 1))
      (buffer_after add_to_list_func select_query m model_list) (m : Int)).2

/-- The invocation of the callback the row loop makes as its invocation `i`
(from 0) when it started from the list `model_list`: the statement, the index
and the value the callback returns on the list it is then given. -/
def nth_add_call {μ : Type} (add_to_list_func : cqlite_model_add_to_list_func_t μ)
    (select_query : sqlite3_stmt) (model_list : Option (List μ)) (i : Nat) : AddCall :=
  { query := after_steps select_query (i + 1)
    next_model_list_idx := (i : Int)
    returned := (add_to_list_func (after_steps select_query (i + 1))
      (buffer_after add_to_list_func select_query i model_list) (i : Int)).1 }

/-! ## Raw-text entry points (cqlite.c, lines 13-37, 127-155, 222-254)

The raw-text entry points prepare their statements on a connection and
release them before returning.  A statement pointer is `none` when it is
`NULL`; the calls made to the engine are recorded in order, each statement
named by a number fixed by the local variable that holds it. -/

/-- Engine return code: the library was used incorrectly (what a call on a
`NULL` statement reports). -/
abbrev SQLITE_MISUSE : Int := 21

/-- A value handed to one of the engine's `sqlite3_bind_*` calls: a 64-bit
integer, a C `int`, a double (its IEEE-754 binary64 bit pattern) or a text
(`none` for a `NULL` pointer, which binds NULL). -/
inductive BindValue where
  | int64 (v : Int)
  | int (v : Int)
  | double (bits : Nat)
  | text (s : Option (List Nat))
  deriving DecidableEq

/-- A connection with the engine behaviour the raw-text entry points rely
on: `prepare sql` is the return code of preparing `sql` and the statement
obtained, `bind q index value` the return code of binding a parameter of `q`
and the statement as it then is. -/
structure sqlite3_conn extends sqlite3 where
  prepare : String → Int × Option sqlite3_stmt
  bind : sqlite3_stmt → Int → BindValue → Int × sqlite3_stmt

/-- One call to the engine on a statement, as recorded by the raw-text entry
points; `stmt` names the statement (`none` for a `NULL` pointer). -/
inductive EngineCall where
  | prepare (sql : String) (rc : Int) (stmt : Option Nat)
  | bind (stmt : Option Nat) (index : Int) (value : BindValue) (rc : Int)
  | step (stmt : Option Nat)
  | finalize (stmt : Option Nat)
  deriving DecidableEq

/-- Engine call `sqlite3_prepare_v2( db, sql, -1, &stmt, NULL )`: the return
code and the statement; the statement is `NULL` whenever the code is not
`SQLITE_OK`. -/
def sqlite3_prepare_v2 (db : sqlite3_conn) (sql : String) : Int × Option sqlite3_stmt :=
  let r := db.prepare sql
  if r.1 = SQLITE_OK then r else (r.1, none)

/-- Engine call `sqlite3_bind_int64( stmt, index, value )`; on a `NULL`
statement it reports misuse. -/
def sqlite3_bind_int64 (db : sqlite3_conn) (stmt : Option sqlite3_stmt) (index : Int)
    (value : Int) : Int × Option sqlite3_stmt :=
  match stmt with
  | some q => ((db.bind q index (BindValue.int64 value)).1,
      some (db.bind q index (BindValue.int64 value)).2)
  | none => (SQLITE_MISUSE, none)

/-- A `NULL` statement seen as a statement: every step reports misuse and
there is never a row. -/
def null_stmt : sqlite3_stmt :=
  { script := fun _ => (SQLITE_MISUSE, null_row), steps := 0 }

/-- The statement behind a statement pointer. -/
def stmt_or_null (stmt : Option sqlite3_stmt) : sqlite3_stmt :=
  stmt.getD null_stmt

/-- The `sqlite3_step` calls that took the statement named `stmt` from
`before` to `after`. -/
def step_calls (stmt : Option Nat) (before after : sqlite3_stmt) : List EngineCall :=
  List.replicate (after.steps - before.steps) (EngineCall.step stmt)

/-- The engine calls `cqlite_count_query_execute_prepared` makes on the
statement it is given: its steps. -/
def count_prepared_engine_calls (stmt : Option Nat) (count_query : sqlite3_stmt) :
    List EngineCall :=
  step_calls stmt count_query (cqlite_count_query_execute_prepared count_query).count_query

/-- The engine calls `cqlite_insert_query_execute` makes on the statement it
is given: its steps. -/
def insert_engine_calls (stmt : Option Nat) (db : sqlite3) (insert_query : sqlite3_stmt)
    (new_row_id_out : Option Int) : List EngineCall :=
  step_calls stmt insert_query
    (cqlite_insert_query_execute db insert_query new_row_id_out).insert_query

/-- The engine calls `cqlite_find` makes on the statement it is given: its
steps. -/
def find_engine_calls {μ : Type} (stmt : Option Nat) (query : sqlite3_stmt)
    (model_from_result_func : sqlite3_stmt → μ → Int × μ) (model_out : μ) : List EngineCall :=
  step_calls stmt query (cqlite_find query model_from_result_func model_out).query

/-- The engine calls `cqlite_select_query_execute_prepared` makes on the two
statements it is given, from its outputs `r`: the step of the count query,
then the steps of the select query. -/
def select_prepared_engine_calls {μ : Type} (select_stmt count_stmt_name : Option Nat)
    (select_query count_query : sqlite3_stmt) (r : SelectResult μ) : List EngineCall :=
  step_calls count_stmt_name count_query r.count_query ++
    step_calls select_stmt select_query r.select_query

/-- Outputs of `cqlite_count_query_execute`: the result code, `*count_out`
and the engine calls made. -/
structure CountTextResult where
  rcode : cqlite_rcode_t
  count_out : Int
  engine_calls : List EngineCall

/-- Execute count query (raw text). -/
def cqlite_count_query_execute (db : sqlite3_conn) (count_query_str : String) :
    CountTextResult :=
  let count_out0 : Int := 0
  let prepared := sqlite3_prepare_v2 db count_query_str
  let count_query := prepared.2
  let name : Option Nat := count_query.map (fun _ => 0)
  if SQLITE_OK = prepared.1 then
    let r := cqlite_count_query_execute_prepared (stmt_or_null count_query)
    { rcode := r.rcode
      count_out := r.count_out
      engine_calls :=
        [EngineCall.prepare count_query_str prepared.1 name] ++
        count_prepared_engine_calls name (stmt_or_null count_query) ++
        -- Clean up
        [EngineCall.finalize name] }
  else
    { rcode := CQLITE_ERROR
      count_out := count_out0
      engine_calls :=
        [EngineCall.prepare count_query_str prepared.1 name, EngineCall.finalize name] }

/-- Outputs of `cqlite_find_by_id`: the result code, `*found_out`,
`*model_out`, the statements the single-row callback was invoked with, and
the engine calls made. -/
structure FindByIdResult (μ : Type) where
  rcode : cqlite_rcode_t
  found_out : Int
  model_out : μ
  calls : List sqlite3_stmt
  engine_calls : List EngineCall

/-- Find model by id. -/
def cqlite_find_by_id {μ : Type} (db : sqlite3_conn) (find_by_id_query : String) (id : Int)
    (model_from_result_func : sqlite3_stmt → μ → Int × μ) (model_out : μ) :
    FindByIdResult μ :=
  let found_out0 : Int := 0
  let prepared := sqlite3_prepare_v2 db find_by_id_query
  let name : Option Nat := prepared.2.map (fun _ => 0)
  if SQLITE_OK = prepared.1 then
    let bound := sqlite3_bind_int64 db prepared.2 1 id
    if SQLITE_OK = bound.1 then
      let r := cqlite_find (stmt_or_null bound.2) model_from_result_func model_out
      { rcode := r.rcode
        found_out := r.found_out
        model_out := r.model_out
        calls := r.calls
        engine_calls :=
          [EngineCall.prepare find_by_id_query prepared.1 name,
           EngineCall.bind name 1 (BindValue.int64 id) bound.1] ++
          find_engine_calls name (stmt_or_null bound.2) model_from_result_func model_out ++
          -- Clean up
          [EngineCall.finalize name] }
    else
      { rcode := CQLITE_ERROR
        found_out := found_out0
        model_out := model_out
        calls := []
        engine_calls :=
          [EngineCall.prepare find_by_id_query prepared.1 name,
           EngineCall.bind name 1 (BindValue.int64 id) bound.1, EngineCall.finalize name] }
  else
    { rcode := CQLITE_ERROR
      found_out := found_out0
      model_out := model_out
      calls := []
      engine_calls :=
        [EngineCall.prepare find_by_id_query prepared.1 name, EngineCall.finalize name] }

/-- Outputs of `cqlite_select_query_execute`: the result code,
`*model_list_out`, `*model_list_cnt_out`, the callback invocations, the
`calloc` requests and the engine calls made. -/
structure SelectTextResult (μ : Type) where
  rcode : cqlite_rcode_t
  model_list_out : Option (List μ)
  model_list_cnt_out : Int
  calls : List AddCall
  allocations : List (Nat × Nat)
  engine_calls : List EngineCall

/-- Execute select query (raw text).  The second statement is prepared only
when the first preparation succeeded; both pointers are released at the end,
whatever they hold. -/
def cqlite_select_query_execute {μ : Type} [Zero μ] (alloc_ok : Bool) (db : sqlite3_conn)
    (select_query_str count_query_str : String)
    (add_to_list_func : cqlite_model_add_to_list_func_t μ) (model_size : Nat) :
    Option (SelectTextResult μ) :=
  let prepared_select := sqlite3_prepare_v2 db select_query_str
  let select_name : Option Nat := prepared_select.2.map (fun _ => 0)
  if SQLITE_OK = prepared_select.1 then
    let prepared_count := sqlite3_prepare_v2 db count_query_str
    let count_name : Option Nat := prepared_count.2.map (fun _ => 1)
    if SQLITE_OK = prepared_count.1 then
      (cqlite_select_query_execute_prepared alloc_ok (stmt_or_null prepared_select.2)
        (stmt_or_null prepared_count.2) add_to_list_func model_size).map fun r =>
        { rcode := r.rcode
          model_list_out := r.model_list_out
          model_list_cnt_out := r.model_list_cnt_out
          calls := r.calls
          allocations := r.allocations
          engine_calls :=
            [EngineCall.prepare select_query_str prepared_select.1 select_name,
             EngineCall.prepare count_query_str prepared_count.1 count_name] ++
            select_prepared_engine_calls select_name count_name
              (stmt_or_null prepared_select.2) (stmt_or_null prepared_count.2) r ++
            -- Clean up
            [EngineCall.finalize select_name, EngineCall.finalize count_name] }
    else
      some
        { rcode := CQLITE_ERROR
          model_list_out := none
          model_list_cnt_out := 0
          calls := []
          allocations := []
          engine_calls :=
            [EngineCall.prepare select_query_str prepared_select.1 select_name,
             EngineCall.prepare count_query_str prepared_count.1 count_name,
             EngineCall.finalize select_name, EngineCall.finalize count_name] }
  else
    some
      { rcode := CQLITE_ERROR
        model_list_out := none
        model_list_cnt_out := 0
        calls := []
        allocations := []
        engine_calls :=
          [EngineCall.prepare select_query_str prepared_select.1 select_name,
           EngineCall.finalize select_name, EngineCall.finalize none] }

/-- The statements a trace of engine calls prepared, in order. -/
def prepared_stmts (trace : List EngineCall) : List Nat :=
  trace.filterMap fun c =>
    match c with
    | EngineCall.prepare _ _ (some h) => some h
    | _ => none

/-- The statements a trace of engine calls released, in order. -/
def released_stmts (trace : List EngineCall) : List Nat :=
  trace.filterMap fun c =>
    match c with
    | EngineCall.finalize (some h) => some h
    | _ => none

/-- The call is a `sqlite3_step`. -/
def is_step (c : EngineCall) : Bool :=
  match c with
  | EngineCall.step _ => true
  | _ => false

/-! ## The test model (test/test_database.h, test/test_database.c) -/

/-- Engine accessors for 64-bit integers and doubles, which `Row` does not
carry: what `sqlite3_column_int64` and `sqlite3_column_double` return for a
column of a row, a double being its IEEE-754 binary64 bit pattern. -/
structure sqlite3_wide_columns where
  column_int64 : Row → Int → Int
  column_double : Row → Int → Nat

/-- Engine accessor: column as a 64-bit integer (0 when there is no current
row). -/
def sqlite3_column_int64 (acc : sqlite3_wide_columns) (q : sqlite3_stmt) (col : Int) : Int :=
  match current_row q with
  | some r => acc.column_int64 r col
  | none => 0

/-- Engine accessor: column as a double (0.0 when there is no current row). -/
def sqlite3_column_double (acc : sqlite3_wide_columns) (q : sqlite3_stmt) (col : Int) : Nat :=
  match current_row q with
  | some r => acc.column_double r col
  | none => 0

/-- Engine call `sqlite3_bind_double`, `sqlite3_bind_int`,
`sqlite3_bind_int64` or `sqlite3_bind_text` with the value `value`; on a
`NULL` statement it reports misuse. -/
def sqlite3_bind_value (db : sqlite3_conn) (stmt : Option sqlite3_stmt) (index : Int)
    (value : BindValue) : Int × Option sqlite3_stmt :=
  match stmt with
  | some q => ((db.bind q index value).1, some (db.bind q index value).2)
  | none => (SQLITE_MISUSE, none)

/-- Column of the test table: `id`. -/
abbrev TEST_TABLE_ID_COL : Int := 0

/-- Column of the test table: `real_field`. -/
abbrev TEST_TABLE_REAL_FIELD_COL : Int := 1

/-- Column of the test table: `int_field`. -/
abbrev TEST_TABLE_INT_FIELD_COL : Int := 2

/-- Column of the test table: `dynamic_string_field`. -/
abbrev TEST_TABLE_DYNAMIC_STRING_FIELD_COL : Int := 3

/-- Column of the test table: `fixed_string_field`. -/
abbrev TEST_TABLE_FIXED_STRING_FIELD_COL : Int := 4

/-- Insert statement of the test table. -/
def TEST_TABLE_INSERT : String := "INSERT OR REPLACE INTO test VALUES (?, ?, ?, ?, ?);"

/-- Select-by-id statement of the test table. -/
def TEST_TABLE_SELECT_BY_ID : String := "SELECT * FROM test WHERE id = ?;"

/-- The test model (`test_model_t`): `real_field` is the IEEE-754 binary64
bit pattern of the double, `dynamic_string_field` a pointer to a C string
(`none` for `NULL`), `fixed_string_field` the 4 bytes of the array. -/
structure test_model_t where
  id : Int
  real_field : Nat
  int_field : Int
  dynamic_string_field : Option (List Nat)
  fixed_string_field : List Nat
  deriving DecidableEq

/-- Initialize test model: all bytes zero. -/
def test_model_init : test_model_t :=
  { id := 0, real_field := 0, int_field := 0, dynamic_string_field := none,
    fixed_string_field := List.replicate 4 0 }

/-- The bit pattern is a NaN: exponent all ones and a non-zero fraction. -/
def double_is_nan (bits : Nat) : Bool :=
  (bits / 2 ^ 52) % 2 ^ 11 == 2047 && bits % 2 ^ 52 != 0

/-- C `==` on two doubles given by their bit patterns: false when either is
a NaN, true on equal patterns and on two zeros of either sign. -/
def double_eq (a b : Nat) : Bool :=
  !double_is_nan a && !double_is_nan b && (a == b || (a % 2 ^ 63 == 0 && b % 2 ^ 63 == 0))

/-- Are models equal?  Returns 1 if the two models are equal, 0 otherwise. -/
def test_models_are_equal (expected actual : test_model_t) : Int :=
  let are_strings_equal : Bool :=
    match expected.dynamic_string_field, actual.dynamic_string_field with
    | some a, some b => c_str a == c_str b
    | none, none => true
    | _, _ => false
  let are_equal : Bool :=
    are_strings_equal &&
    (expected.id == actual.id) &&
    double_eq expected.real_field actual.real_field &&
    (expected.int_field == actual.int_field) &&
    (c_str expected.fixed_string_field == c_str actual.fixed_string_field)
  if are_equal then 1 else 0

/-- Read test model from query row result.  `alloc_ok` tells whether the
allocation inside the dynamic string read succeeds. -/
def test_model_from_row_result (acc : sqlite3_wide_columns) (alloc_ok : Bool)
    (query : sqlite3_stmt) (_model_out : test_model_t) : Int × test_model_t :=
  let m0 := test_model_init
  let m1 : test_model_t :=
    { m0 with
      id := sqlite3_column_int64 acc query TEST_TABLE_ID_COL
      real_field := sqlite3_column_double acc query TEST_TABLE_REAL_FIELD_COL
      int_field := sqlite3_column_int query TEST_TABLE_INT_FIELD_COL }
  let d := cqlite_dynamic_string_read alloc_ok query TEST_TABLE_DYNAMIC_STRING_FIELD_COL
  let m2 : test_model_t := { m1 with dynamic_string_field := d.string_out }
  if CQLITE_SUCCESS = d.rcode then
    let f := cqlite_fixed_length_string_read query TEST_TABLE_FIXED_STRING_FIELD_COL
      m2.fixed_string_field 4
    (if CQLITE_SUCCESS = f.rcode then 1 else 0, { m2 with fixed_string_field := f.string })
  else (0, m2)

/-- Outputs of `test_model_find_by_id`: the returned flag, `*found_out` and
`*model_out`. -/
structure TestFindResult where
  success : Int
  found_out : Int
  model_out : test_model_t

/-- Find model by id. -/
def test_model_find_by_id (acc : sqlite3_wide_columns) (alloc_ok : Bool) (db : sqlite3_conn)
    (id : Int) : TestFindResult :=
  let r := cqlite_find_by_id db TEST_TABLE_SELECT_BY_ID id
    (test_model_from_row_result acc alloc_ok) test_model_init
  { success := if CQLITE_SUCCESS = r.rcode then 1 else 0
    found_out := r.found_out
    model_out := r.model_out }

/-- Insert mode of `test_model_insert_query_prepare`. -/
inductive insert_mode_t where
  | INSERT_MODE_NEW_RECORD
  | INSERT_MODE_EXISTING_RECORD
  deriving DecidableEq

/-- Outputs of `test_model_insert_query_prepare`: the returned flag,
`*query_out` and the engine calls made. -/
structure TestPrepareResult where
  success : Int
  query_out : Option sqlite3_stmt
  engine_calls : List EngineCall

/-- One operand `( SQLITE_OK == sqlite3_bind_*( query, index, value ) )` of a
chain of `&&`: evaluated only when the chain is still true.  The state is the
value of the chain so far, the statement, and the engine calls made so far,
to which the call is added with the value it was given and its return code. -/
def bind_when_ok (db : sqlite3_conn) (name : Option Nat)
    (st : Bool × Option sqlite3_stmt × List EngineCall) (index : Int) (value : BindValue) :
    Bool × Option sqlite3_stmt × List EngineCall :=
  if st.1 then
    let b := sqlite3_bind_value db st.2.1 index value
    (SQLITE_OK == b.1, b.2, st.2.2 ++ [EngineCall.bind name index value b.1])
  else st

/-- Prepare insert query for test model.  The parameters are bound one after
the other, each only when the calls before it succeeded; the texts are bound
as the C strings the fields hold.  Every engine call is recorded with the
value it was given. -/
def test_model_insert_query_prepare (db : sqlite3_conn) (model : test_model_t)
    (insert_mode : insert_mode_t) : TestPrepareResult :=
  let prepared := sqlite3_prepare_v2 db TEST_TABLE_INSERT
  let name : Option Nat := prepared.2.map (fun _ => 0)
  let s0 : Bool × Option sqlite3_stmt × List EngineCall :=
    (SQLITE_OK == prepared.1, prepared.2,
      [EngineCall.prepare TEST_TABLE_INSERT prepared.1 name])
  let s1 := bind_when_ok db name s0 (TEST_TABLE_REAL_FIELD_COL + 1)
    (BindValue.double model.real_field)
  let s2 := bind_when_ok db name s1 (TEST_TABLE_INT_FIELD_COL + 1)
    (BindValue.int model.int_field)
  let s3 := bind_when_ok db name s2 (TEST_TABLE_DYNAMIC_STRING_FIELD_COL + 1)
    (BindValue.text (model.dynamic_string_field.map c_str))
  let s4 := bind_when_ok db name s3 (TEST_TABLE_FIXED_STRING_FIELD_COL + 1)
    (BindValue.text (some (c_str model.fixed_string_field)))
  let s5 :=
    if insert_mode = insert_mode_t.INSERT_MODE_EXISTING_RECORD then
      bind_when_ok db name s4 (TEST_TABLE_ID_COL + 1) (BindValue.int64 model.id)
    else s4
  -- Set the output or clean up on error
  if s5.1 then { success := 1, query_out := s5.2.1, engine_calls := s5.2.2 }
  else { success := 0, query_out := none,
         engine_calls := s5.2.2 ++ [EngineCall.finalize name] }

/-- Outputs of `test_model_insert_new`: the returned flag, the model, whose
id the insert may have set, and the engine calls made. -/
structure TestInsertResult where
  success : Int
  model : test_model_t
  engine_calls : List EngineCall

/-- Insert new model.  The connection is read for the generated row id as it
is after the insert statement has been stepped. -/
def test_model_insert_new (db : sqlite3_conn) (model : test_model_t) : TestInsertResult :=
  let prepared := test_model_insert_query_prepare db model insert_mode_t.INSERT_MODE_NEW_RECORD
  let name : Option Nat := prepared.query_out.map (fun _ => 0)
  if prepared.success ≠ 0 then
    let r := cqlite_insert_query_execute db.tosqlite3 (stmt_or_null prepared.query_out)
      (some model.id)
    { success := if CQLITE_SUCCESS = r.rcode then 1 else 0
      model := { model with id := r.new_row_id_out.getD model.id }
      engine_calls :=
        prepared.engine_calls ++
        insert_engine_calls name db.tosqlite3 (stmt_or_null prepared.query_out)
          (some model.id) ++
        -- Clean up.
        [EngineCall.finalize name] }
  else
    { success := 0, model := model
      engine_calls := prepared.engine_calls ++ [EngineCall.finalize name] }

/-- The value a trace of engine calls left bound to the parameter `index` of
the statement: the value of the last bind call on that parameter that the
engine accepted, if any. -/
def bound_value (trace : List EngineCall) (index : Int) : Option BindValue :=
  (trace.filterMap fun c =>
    match c with
    | EngineCall.bind _ i v rc => if i = index ∧ rc = SQLITE_OK then some v else none
    | _ => none).getLast?

/-- Column `col` of the row `r` holds the bound value `v`, as the column
accessors show it; a parameter left unbound (`none`) and a `NULL` text
pointer store NULL. -/
def column_holds (acc : sqlite3_wide_columns) (r : Row) (col : Int) (v : Option BindValue) :
    Prop :=
  match v with
  | some (BindValue.int64 i) => acc.column_int64 r col = i
  | some (BindValue.int i) => r.column_int col = i
  | some (BindValue.double bits) => acc.column_double r col = bits
  | some (BindValue.text (some t)) => r.column_type col = SQLITE_TEXT ∧ r.column_text col = t
  | some (BindValue.text none) => r.column_type col = SQLITE_NULL
  | none => r.column_type col = SQLITE_NULL

/-- The row `r` is the row of the test table an insert statement stores
after the engine calls `trace` were made on it, `rowid` being the row id the
engine generated: parameter `c + 1` of `TEST_TABLE_INSERT` is the value of
column `c`; the id column holds the bound id, or the generated row id when no
id was bound. -/
def row_stores_bound (acc : sqlite3_wide_columns) (r : Row) (rowid : Int)
    (trace : List EngineCall) : Prop :=
  (match bound_value trace (TEST_TABLE_ID_COL + 1) with
    | some v => column_holds acc r TEST_TABLE_ID_COL (some v)
    | none => acc.column_int64 r TEST_TABLE_ID_COL = rowid) ∧
  column_holds acc r TEST_TABLE_REAL_FIELD_COL
    (bound_value trace (TEST_TABLE_REAL_FIELD_COL + 1)) ∧
  column_holds acc r TEST_TABLE_INT_FIELD_COL
    (bound_value trace (TEST_TABLE_INT_FIELD_COL + 1)) ∧
  column_holds acc r TEST_TABLE_DYNAMIC_STRING_FIELD_COL
    (bound_value trace (TEST_TABLE_DYNAMIC_STRING_FIELD_COL + 1)) ∧
  column_holds acc r TEST_TABLE_FIXED_STRING_FIELD_COL
    (bound_value trace (TEST_TABLE_FIXED_STRING_FIELD_COL + 1))

/-- The row the engine holds for a stored test model, as the column
accessors show it: the id, the double and the integer as bound, the dynamic
string as a text (NULL for a `NULL` pointer) and the fixed string as a
text. -/
def stored_row (acc : sqlite3_wide_columns) (r : Row) (m : test_model_t) : Prop :=
  acc.column_int64 r TEST_TABLE_ID_COL = m.id ∧
  acc.column_double r TEST_TABLE_REAL_FIELD_COL = m.real_field ∧
  r.column_int TEST_TABLE_INT_FIELD_COL = m.int_field ∧
  (match m.dynamic_string_field with
    | some s => r.column_type TEST_TABLE_DYNAMIC_STRING_FIELD_COL = SQLITE_TEXT ∧
        r.column_text TEST_TABLE_DYNAMIC_STRING_FIELD_COL = c_str s
    | none => r.column_type TEST_TABLE_DYNAMIC_STRING_FIELD_COL = SQLITE_NULL) ∧
  r.column_type TEST_TABLE_FIXED_STRING_FIELD_COL = SQLITE_TEXT ∧
  r.column_text TEST_TABLE_FIXED_STRING_FIELD_COL = c_str m.fixed_string_field

/-! ## Concrete inputs used to exercise the properties -/

/-- A COUNT statement: one row holding `n`, then completion. -/
def count_stmt (n : Int) : sqlite3_stmt :=
  stmt_of_list [(SQLITE_ROW, int_row n)] (SQLITE_DONE, null_row)

/-- A SELECT statement yielding one single-integer row per entry of `vals`,
then completion. -/
def rows_stmt (vals : List Int) : sqlite3_stmt :=
  stmt_of_list (vals.map (fun v => (SQLITE_ROW, int_row v))) (SQLITE_DONE, null_row)

/-- A statement whose first step reports the return code `rc`, with no row. -/
def stmt_reporting (rc : Int) : sqlite3_stmt :=
  stmt_of_list [(rc, null_row)] (SQLITE_DONE, null_row)

/-- A statement positioned on the row `r` (one step already made). -/
def stmt_on_row (r : Row) : sqlite3_stmt :=
  (sqlite3_step (stmt_of_list [(SQLITE_ROW, r)] (SQLITE_DONE, null_row))).2

/-- Row conversion of the example model (a natural number): column 0 as an
integer. -/
def example_conv (query : sqlite3_stmt) : Nat :=
  (sqlite3_column_int query 0).toNat

/-- An add-to-list callback for the example model, in the shape cqlite.h
documents: it reads the row into slot `next_model_list_idx` and succeeds
(a negative index, which the C code could not use, is refused). -/
def example_add_to_list : cqlite_model_add_to_list_func_t Nat :=
  fun query model_list next_model_list_idx =>
    if 0 ≤ next_model_list_idx then
      (1, model_list.map (fun l => l.set next_model_list_idx.toNat (example_conv query)))
    else (0, model_list)

/-- An add-to-list callback that fails, writing nothing, on the row it is
to store at index `k`, and behaves as `example_add_to_list` on the others. -/
def add_to_list_failing_at (k : Int) : cqlite_model_add_to_list_func_t Nat :=
  fun query model_list next_model_list_idx =>
    if next_model_list_idx = k then (0, model_list)
    else example_add_to_list query model_list next_model_list_idx

/-- A single-row callback for the example model (`cqlite_model_from_row_result_func_t`). -/
def example_from_row_result : sqlite3_stmt → Nat → Int × Nat :=
  fun query _ => (1, example_conv query)

/-- The row of the test table holding the model `m`, as the accessors of
`Row` show it. -/
def test_row (m : test_model_t) : Row :=
  { column_type := fun c =>
      if c = TEST_TABLE_DYNAMIC_STRING_FIELD_COL then
        (if m.dynamic_string_field.isSome then SQLITE_TEXT else SQLITE_NULL)
      else if c = TEST_TABLE_FIXED_STRING_FIELD_COL then SQLITE_TEXT
      else if c = TEST_TABLE_REAL_FIELD_COL then 2
      else 1
    column_int := fun c => if c = TEST_TABLE_INT_FIELD_COL then m.int_field else 0
    column_text := fun c =>
      if c = TEST_TABLE_DYNAMIC_STRING_FIELD_COL then (m.dynamic_string_field.map c_str).getD []
      else if c = TEST_TABLE_FIXED_STRING_FIELD_COL then c_str m.fixed_string_field
      else [] }

/-- The 64-bit integer and double accessors for a table holding the model
`m`. -/
def test_columns (m : test_model_t) : sqlite3_wide_columns :=
  { column_int64 := fun _ c => if c = TEST_TABLE_ID_COL then m.id else 0
    column_double := fun _ c => if c = TEST_TABLE_REAL_FIELD_COL then m.real_field else 0 }

/-- A connection to a test table in which an insert completes and leaves the
row `stored`, whose id is the generated row id: the insert statement
completes at its first step, the select-by-id statement bound to the id of
`stored` yields its row, bound to another id it yields no row, and no other
text can be prepared. -/
def test_db (stored : test_model_t) : sqlite3_conn :=
  { last_insert_rowid := stored.id
    prepare := fun sql =>
      if sql = TEST_TABLE_INSERT then (SQLITE_OK, some (stmt_reporting SQLITE_DONE))
      else if sql = TEST_TABLE_SELECT_BY_ID then
        (SQLITE_OK, some (stmt_of_list [(SQLITE_ROW, test_row stored)] (SQLITE_DONE, null_row)))
      else (SQLITE_ERROR, none)
    bind := fun q _ v =>
      match v with
      | BindValue.int64 i => if i = stored.id then (SQLITE_OK, q)
          else (SQLITE_OK, stmt_reporting SQLITE_DONE)
      | _ => (SQLITE_OK, q) }

/-- The model of the insert test (test/cqlite_tests.c): id
`CQLITE_INVALID_ROW_ID`, real 1.0, int 1, "Hello", "ABC". -/
def hello_model : test_model_t :=
  { id := -1
    real_field := 4607182418800017408
    int_field := 1
    dynamic_string_field := some [72, 101, 108, 108, 111, 0]
    fixed_string_field := [65, 66, 67, 0] }

/-- The model of the insert test with a NaN (bit pattern 0x7FF8000000000000)
as its real field. -/
def nan_model : test_model_t :=
  { hello_model with real_field := 9221120237041090560 }

/-- A SELECT statement that reports a row on every step, for ever. -/
def endless_rows_stmt : sqlite3_stmt :=
  { script := fun _ => (SQLITE_ROW, int_row 1), steps := 0 }

/-! ## Auxiliary lemmas -/

/-- A byte list without a zero byte is the C string of itself followed by a
terminator. -/
theorem c_str_append_zero (t : List Nat) (h : ∀ b ∈ t, b ≠ 0) : c_str (t ++ [0]) = t := by
  unfold c_str
  induction t with
  | nil => simp
  | cons a t ih =>
    have ha : a ≠ 0 := h a (by simp)
    have ht : ∀ b ∈ t, b ≠ 0 := fun b hb => h b (by simp [hb])
    simp [List.takeWhile_cons, ha, ih ht]

/-- A C string has no zero byte. -/
theorem c_str_no_zero (mem : List Nat) : ∀ b ∈ c_str mem, b ≠ 0 := by
  intro b hb
  have := List.mem_takeWhile_imp hb
  simpa using this

/-- The count operation when the step reports a row. -/
theorem count_prepared_row (q : sqlite3_stmt) (h : (sqlite3_step q).1 = SQLITE_ROW) :
    cqlite_count_query_execute_prepared q =
      { rcode := CQLITE_SUCCESS, count_out := (q.script q.steps).2.column_int 0,
        count_query := after_steps q 1 } := by
  have h3 : (q.script q.steps).1 = 100 := h
  unfold cqlite_count_query_execute_prepared
  rw [if_pos h.symm]
  simp [sqlite3_column_int, current_row, sqlite3_step, h3, after_steps]

/-- The count operation when the step reports anything but a row. -/
theorem count_prepared_no_row (q : sqlite3_stmt) (h : (sqlite3_step q).1 ≠ SQLITE_ROW) :
    cqlite_count_query_execute_prepared q =
      { rcode := CQLITE_ERROR, count_out := 0, count_query := after_steps q 1 } := by
  unfold cqlite_count_query_execute_prepared
  rw [if_neg (fun e => h e.symm)]
  rfl

/-- Locals for which the loop condition is false are returned as they are. -/
theorem select_loop_exit {μ : Type} (cb : cqlite_model_add_to_list_func_t μ) (N : Int)
    (fuel : Nat) (s : SelectLocals μ)
    (h : ¬ (s.success ≠ 0 ∧ SQLITE_ROW = s.sqlite_rcode)) :
    select_loop cb N fuel s = some s := by
  cases fuel with
  | zero => simp only [select_loop, if_neg h]
  | succ k => simp only [select_loop, if_neg h]

/-- Loop rule: a property kept by both branches of the loop body holds of the
locals the loop ends with; the loop ends within `model_list_cnt - model_idx +
1` iterations, with its condition false. -/
theorem select_loop_invariant {μ : Type} (cb : cqlite_model_add_to_list_func_t μ) (N : Int)
    (P : SelectLocals μ → Prop)
    (hbody : ∀ s, P s → s.success ≠ 0 → s.sqlite_rcode = SQLITE_ROW → s.model_idx < N →
      P (select_loop_body cb s))
    (hfail : ∀ s, P s → s.success ≠ 0 → s.sqlite_rcode = SQLITE_ROW → N ≤ s.model_idx →
      P { s with success := 0 }) :
    ∀ (fuel : Nat) (s : SelectLocals μ), P s → (N - s.model_idx).toNat < fuel →
      ∃ s1, select_loop cb N fuel s = some s1 ∧ P s1 ∧
        ¬ (s1.success ≠ 0 ∧ SQLITE_ROW = s1.sqlite_rcode) := by
  intro fuel
  induction fuel with
  | zero => intro s _ hf; omega
  | succ k ih =>
    intro s hP hf
    by_cases hg : s.success ≠ 0 ∧ SQLITE_ROW = s.sqlite_rcode
    · by_cases hi : s.model_idx ≥ N
      · have hx : ¬ (({ s with success := 0 } : SelectLocals μ).success ≠ 0 ∧
            SQLITE_ROW = ({ s with success := 0 } : SelectLocals μ).sqlite_rcode) := by
          simp
        refine ⟨{ s with success := 0 }, ?_, hfail s hP hg.1 hg.2.symm hi, hx⟩
        simp only [select_loop, if_pos hg, if_pos hi]
        exact select_loop_exit cb N k _ hx
      · have hlt : s.model_idx < N := by omega
        have hf2 : (N - (select_loop_body cb s).model_idx).toNat < k := by
          have : (select_loop_body cb s).model_idx = s.model_idx + 1 := rfl
          rw [this]; omega
        obtain ⟨s1, h1, h2, h3⟩ := ih (select_loop_body cb s) (hbody s hP hg.1 hg.2.symm hlt) hf2
        refine ⟨s1, ?_, h2, h3⟩
        simp only [select_loop, if_pos hg, if_neg hi]
        exact h1
    · exact ⟨s, select_loop_exit cb N (k + 1) s hg, hP, hg⟩

/-- The insert operation when the step reports completion. -/
theorem insert_done (db : sqlite3) (q : sqlite3_stmt) (out : Option Int)
    (h : (sqlite3_step q).1 = SQLITE_DONE) :
    cqlite_insert_query_execute db q out =
      { rcode := CQLITE_SUCCESS
        new_row_id_out := out.map (fun _ => sqlite3_last_insert_rowid db)
        insert_query := after_steps q 1 } := by
  have h2 : (SQLITE_DONE == (sqlite3_step q).1) = true := by rw [h]; rfl
  unfold cqlite_insert_query_execute
  simp only [h2, if_true]
  cases out <;> rfl

/-- The insert operation when the step reports anything but completion. -/
theorem insert_not_done (db : sqlite3) (q : sqlite3_stmt) (out : Option Int)
    (h : (sqlite3_step q).1 ≠ SQLITE_DONE) :
    cqlite_insert_query_execute db q out =
      { rcode := CQLITE_ERROR, new_row_id_out := out, insert_query := after_steps q 1 } := by
  have h2 : (SQLITE_DONE == (sqlite3_step q).1) = false := by
    simp only [beq_eq_false_iff_ne, ne_eq]
    exact fun e => h e.symm
  unfold cqlite_insert_query_execute
  simp only [h2]
  rfl

/-- The find operation when the step reports a row. -/
theorem find_row {μ : Type} (q : sqlite3_stmt) (f : sqlite3_stmt → μ → Int × μ) (m : μ)
    (h : (sqlite3_step q).1 = SQLITE_ROW) :
    cqlite_find q f m =
      { rcode := if (f (after_steps q 1) m).1 ≠ 0 then CQLITE_SUCCESS else CQLITE_ERROR
        found_out := 1
        model_out := (f (after_steps q 1) m).2
        query := after_steps q 1
        calls := [after_steps q 1] } := by
  unfold cqlite_find
  simp only [if_pos h.symm]
  rfl

/-- The find operation when the step reports completion. -/
theorem find_done {μ : Type} (q : sqlite3_stmt) (f : sqlite3_stmt → μ → Int × μ) (m : μ)
    (h : (sqlite3_step q).1 = SQLITE_DONE) :
    cqlite_find q f m =
      { rcode := CQLITE_SUCCESS, found_out := 0, model_out := m, query := after_steps q 1,
        calls := [] } := by
  have h1 : ¬ (SQLITE_ROW = (sqlite3_step q).1) := by rw [h]; decide
  unfold cqlite_find
  simp only [if_neg h1, h]
  rfl

/-- The find operation when the step reports neither a row nor completion. -/
theorem find_failed {μ : Type} (q : sqlite3_stmt) (f : sqlite3_stmt → μ → Int × μ) (m : μ)
    (h1 : (sqlite3_step q).1 ≠ SQLITE_ROW) (h2 : (sqlite3_step q).1 ≠ SQLITE_DONE) :
    cqlite_find q f m =
      { rcode := CQLITE_ERROR, found_out := 0, model_out := m, query := after_steps q 1,
        calls := [] } := by
  have h3 : ¬ (SQLITE_ROW = (sqlite3_step q).1) := fun e => h1 e.symm
  have h4 : ¬ (SQLITE_ROW = (sqlite3_step q).1 ∨ SQLITE_DONE = (sqlite3_step q).1) := by
    rintro (e | e)
    · exact h1 e.symm
    · exact h2 e.symm
  unfold cqlite_find
  simp only [if_neg h3, if_neg h4]
  rfl

/-- The dynamic string read on a text column. -/
theorem dynamic_read_text (ok : Bool) (q : sqlite3_stmt) (col : Int)
    (h : sqlite3_column_type q col = SQLITE_TEXT) :
    cqlite_dynamic_string_read ok q col =
      { rcode := if ok then CQLITE_SUCCESS else CQLITE_ERROR
        string_out := if ok then some (c_str (sqlite3_column_text q col) ++ [0]) else none } := by
  unfold cqlite_dynamic_string_read
  simp only [if_pos h.symm, strdup]
  cases ok <;> rfl

/-- The dynamic string read on a column that is not text. -/
theorem dynamic_read_other (ok : Bool) (q : sqlite3_stmt) (col : Int)
    (h : sqlite3_column_type q col ≠ SQLITE_TEXT) :
    cqlite_dynamic_string_read ok q col =
      { rcode := if sqlite3_column_type q col = SQLITE_NULL then CQLITE_SUCCESS else CQLITE_ERROR
        string_out := none } := by
  have h1 : ¬ (SQLITE_TEXT = sqlite3_column_type q col) := fun e => h e.symm
  have h2 : (SQLITE_TEXT == sqlite3_column_type q col) = false := by
    simp only [beq_eq_false_iff_ne, ne_eq]; exact h1
  unfold cqlite_dynamic_string_read
  simp only [if_neg h1, h2, Bool.false_or]
  by_cases hn : sqlite3_column_type q col = SQLITE_NULL
  · rw [hn]; rfl
  · have h3 : (SQLITE_NULL == sqlite3_column_type q col) = false := by
      simp only [beq_eq_false_iff_ne, ne_eq]; exact fun e => hn e.symm
    simp [h3, hn]

/-- The fixed-length string read on a text column whose length fits a C `int`. -/
theorem fixed_read_text (q : sqlite3_stmt) (col : Int) (buf : List Nat) (c : Nat)
    (h : sqlite3_column_type q col = SQLITE_TEXT)
    (hL : (strlen (sqlite3_column_text q col) : Int) ≤ INT_MAX) :
    cqlite_fixed_length_string_read q col buf c =
      { rcode := if strlen (sqlite3_column_text q col) < c then CQLITE_SUCCESS else CQLITE_ERROR
        string := (snprintf_s buf c (sqlite3_column_text q col)).2 } := by
  unfold cqlite_fixed_length_string_read
  simp only [if_pos h.symm]
  have h1 : (snprintf_s buf c (sqlite3_column_text q col)).1 = strlen (sqlite3_column_text q col) := by
    simp only [snprintf_s, if_pos hL]
  rw [h1]
  by_cases hc : strlen (sqlite3_column_text q col) < c
  · simp [hc]
  · simp [hc]

/-- The fixed-length string read on a column that is not text. -/
theorem fixed_read_other (q : sqlite3_stmt) (col : Int) (buf : List Nat) (c : Nat)
    (h : sqlite3_column_type q col ≠ SQLITE_TEXT) :
    cqlite_fixed_length_string_read q col buf c =
      { rcode := if sqlite3_column_type q col = SQLITE_NULL then CQLITE_SUCCESS else CQLITE_ERROR
        string := if sqlite3_column_type q col = SQLITE_NULL then memset_zero buf c else buf } := by
  have h1 : ¬ (SQLITE_TEXT = sqlite3_column_type q col) := fun e => h e.symm
  have h2 : (SQLITE_TEXT == sqlite3_column_type q col) = false := by
    simp only [beq_eq_false_iff_ne, ne_eq]; exact h1
  unfold cqlite_fixed_length_string_read
  simp only [if_neg h1, h2, Bool.false_or]
  by_cases hn : sqlite3_column_type q col = SQLITE_NULL
  · rw [hn]; rfl
  · have h3 : (SQLITE_NULL == sqlite3_column_type q col) = false := by
      simp only [beq_eq_false_iff_ne, ne_eq]; exact fun e => hn e.symm
    have h4 : ¬ (SQLITE_NULL = sqlite3_column_type q col) := fun e => hn e.symm
    simp [h3, hn, h4]

/-- A string shorter than the capacity is written whole, with its terminator. -/
theorem snprintf_s_fits (buf : List Nat) (c : Nat) (src : List Nat) (h : strlen src < c) :
    (snprintf_s buf c src).2.take (strlen src + 1) = c_str src ++ [0] := by
  have hc : c ≠ 0 := by omega
  have ht : (c_str src).take (c - 1) = c_str src := by
    apply List.take_of_length_le
    unfold strlen at h
    omega
  simp only [snprintf_s, if_neg hc, ht]
  unfold strlen
  rw [List.append_assoc, List.take_append_eq_append_take]
  simp

/-- After `memset`, the first `c` bytes are zero. -/
theorem memset_zero_take (buf : List Nat) (c : Nat) :
    (memset_zero buf c).take c = List.replicate c 0 := by
  unfold memset_zero
  rw [List.take_append_eq_append_take]
  simp

/-- Rule for the whole function: a property that holds of the locals on
entry to the row loop and is kept by both branches of the loop body holds of
the locals the outputs are computed from, and the function returns. -/
theorem select_prepared_rule {μ : Type} [Zero μ] (alloc_ok : Bool)
    (select_query count_query : sqlite3_stmt) (cb : cqlite_model_add_to_list_func_t μ)
    (model_size : Nat) (P : SelectLocals μ → Prop)
    (hentry : P (select_entry alloc_ok select_query
      (cqlite_count_query_execute_prepared count_query) model_size).1)
    (hbody : ∀ s, P s → s.success ≠ 0 → s.sqlite_rcode = SQLITE_ROW →
      s.model_idx < (cqlite_count_query_execute_prepared count_query).count_out →
      P (select_loop_body cb s))
    (hfail : ∀ s, P s → s.success ≠ 0 → s.sqlite_rcode = SQLITE_ROW →
      (cqlite_count_query_execute_prepared count_query).count_out ≤ s.model_idx →
      P { s with success := 0 }) :
    ∃ s1, cqlite_select_query_execute_prepared alloc_ok select_query count_query cb model_size =
        some (select_outputs (cqlite_count_query_execute_prepared count_query).count_out
          (cqlite_count_query_execute_prepared count_query).count_query
          (select_entry alloc_ok select_query
            (cqlite_count_query_execute_prepared count_query) model_size :
              SelectLocals μ × List (Nat × Nat)).2 s1) ∧
      P s1 ∧ ¬ (s1.success ≠ 0 ∧ SQLITE_ROW = s1.sqlite_rcode) := by
  have hidx : (select_entry alloc_ok select_query
      (cqlite_count_query_execute_prepared count_query) model_size :
        SelectLocals μ × List (Nat × Nat)).1.model_idx = 0 := rfl
  obtain ⟨s1, h1, h2, h3⟩ := select_loop_invariant cb
    (cqlite_count_query_execute_prepared count_query).count_out P hbody hfail
    ((cqlite_count_query_execute_prepared count_query).count_out.toNat + 1)
    (select_entry alloc_ok select_query
      (cqlite_count_query_execute_prepared count_query) model_size).1 hentry
    (by rw [hidx]; omega)
  refine ⟨s1, ?_, h2, h3⟩
  unfold cqlite_select_query_execute_prepared
  simp only [h1, Option.map_some']

/-- Entry to the row loop: a positive count and a successful allocation. -/
theorem select_entry_counted_alloc {μ : Type} [Zero μ] (sq cq : sqlite3_stmt) (size : Nat)
    (N : Int) (hN : 0 < N) :
    (select_entry true sq { rcode := CQLITE_SUCCESS, count_out := N, count_query := cq } size :
        SelectLocals μ × List (Nat × Nat)) =
      ({ success := 1, sqlite_rcode := (sqlite3_step sq).1, model_idx := 0,
         model_list := some (List.replicate N.toNat 0), select_query := (sqlite3_step sq).2,
         calls := [] }, [(N.toNat, size)]) := by
  simp [select_entry, calloc, hN]

/-- Entry to the row loop: a positive count and a failed allocation. -/
theorem select_entry_counted_alloc_failed {μ : Type} [Zero μ] (sq cq : sqlite3_stmt)
    (size : Nat) (N : Int) (hN : 0 < N) :
    (select_entry false sq { rcode := CQLITE_SUCCESS, count_out := N, count_query := cq } size :
        SelectLocals μ × List (Nat × Nat)) =
      ({ success := 0, sqlite_rcode := SQLITE_ERROR, model_idx := 0,
         model_list := none, select_query := sq, calls := [] }, [(N.toNat, size)]) := by
  simp [select_entry, calloc, hN]

/-- Entry to the row loop: a count that is not positive, nothing allocated. -/
theorem select_entry_counted_none {μ : Type} [Zero μ] (ok : Bool) (sq cq : sqlite3_stmt)
    (size : Nat) (N : Int) (hN : N ≤ 0) :
    (select_entry ok sq { rcode := CQLITE_SUCCESS, count_out := N, count_query := cq } size :
        SelectLocals μ × List (Nat × Nat)) =
      ({ success := 1, sqlite_rcode := (sqlite3_step sq).1, model_idx := 0,
         model_list := none, select_query := (sqlite3_step sq).2, calls := [] }, []) := by
  have h : ¬ (0 < N) := by omega
  simp [select_entry, h]

/-- Entry to the row loop: the count query failed. -/
theorem select_entry_not_counted {μ : Type} [Zero μ] (ok : Bool) (sq cq : sqlite3_stmt)
    (size : Nat) (N : Int) :
    (select_entry ok sq { rcode := CQLITE_ERROR, count_out := N, count_query := cq } size :
        SelectLocals μ × List (Nat × Nat)) =
      ({ success := 0, sqlite_rcode := SQLITE_ERROR, model_idx := 0,
         model_list := none, select_query := sq, calls := [] }, []) := by
  simp [select_entry]

/-- Filling the first zero slot extends the filled part of the list by one. -/
theorem set_next_filled {μ : Type} (f : Nat → μ) (z : μ) (i n : Nat) (h : i < n) :
    ((List.range i).map f ++ List.replicate (n - i) z).set i (f i) =
      (List.range (i + 1)).map f ++ List.replicate (n - (i + 1)) z := by
  obtain ⟨m, rfl⟩ : ∃ m, n = i + 1 + m := ⟨n - (i + 1), by omega⟩
  have h1 : i + 1 + m - i = m + 1 := by omega
  have h2 : i + 1 + m - (i + 1) = m := by omega
  rw [h1, h2, List.replicate_succ, List.range_succ, List.map_append, List.append_assoc]
  rw [List.set_append_right _ _ (by simp)]
  simp

/-- The arguments of the calls after one more call. -/
theorem call_args_append (calls : List AddCall) (c : AddCall) :
    call_args (calls ++ [c]) = call_args calls ++ [(c.query, c.next_model_list_idx)] := by
  simp [call_args]

/-- The populated count after one more call. -/
theorem populated_count_append (calls : List AddCall) (c : AddCall) :
    populated_count (calls ++ [c]) =
      populated_count calls + (if c.returned ≠ 0 then 1 else 0) := by
  by_cases h : c.returned = 0
  · simp [populated_count, List.filter_append, List.filter_cons, h]
  · simp [populated_count, List.filter_append, List.filter_cons, h]

/-- When the COUNT query reports `n`, the allocation succeeds and the SELECT
cursor yields `k ≤ n` rows, each converted successfully, and then reports
completion: the outputs of the function. -/
theorem select_rows_then_done {μ : Type} [Zero μ] (n k : Nat) (hk : k ≤ n)
    (sq cq : sqlite3_stmt) (cb : cqlite_model_add_to_list_func_t μ) (size : Nat)
    (conv : sqlite3_stmt → μ)
    (hcount : (sqlite3_step cq).1 = SQLITE_ROW)
    (hN : (cq.script cq.steps).2.column_int 0 = (n : Int))
    (hrows : ∀ i, i < k → (sq.script (sq.steps + i)).1 = SQLITE_ROW)
    (hdone : (sq.script (sq.steps + k)).1 = SQLITE_DONE)
    (hfill : fills_slot_with cb conv)
    (hok : ∀ i, i < k → ∀ l, (cb (after_steps sq (i + 1)) l (i : Int)).1 ≠ 0) :
    ∃ r, cqlite_select_query_execute_prepared true sq cq cb size = some r ∧
      r.rcode = CQLITE_SUCCESS ∧ r.model_list_cnt_out = (n : Int) ∧
      r.model_list_out = (if n = 0 then none else
        some ((List.range k).map (fun i => conv (after_steps sq (i + 1))) ++
          List.replicate (n - k) 0)) ∧
      call_args r.calls = (List.range k).map (fun i => (after_steps sq (i + 1), (i : Int))) ∧
      populated_count r.calls = k ∧
      r.select_query = after_steps sq (k + 1) ∧ r.count_query = after_steps cq 1 := by
  have hc : cqlite_count_query_execute_prepared cq =
      { rcode := CQLITE_SUCCESS, count_out := (n : Int), count_query := after_steps cq 1 } := by
    rw [count_prepared_row cq hcount, hN]
  have hrc : ∀ i, i ≤ k → (sq.script (sq.steps + i)).1 = SQLITE_ROW → i < k := by
    intro i hi hr
    rcases Nat.lt_or_ge i k with h | h
    · exact h
    · have : i = k := by omega
      rw [this, hdone] at hr
      exact absurd hr (by decide)
  obtain ⟨s1, hrun, ⟨i, hik, hidx, hsucc, hcode, hq, hlist, hargs, hpop⟩, hexit⟩ :=
    select_prepared_rule true sq cq cb size
      (fun s => ∃ i : Nat, i ≤ k ∧ s.model_idx = (i : Int) ∧ s.success ≠ 0 ∧
        s.sqlite_rcode = (sq.script (sq.steps + i)).1 ∧ s.select_query = after_steps sq (i + 1) ∧
        s.model_list = (if n = 0 then none else
          some ((List.range i).map (fun i => conv (after_steps sq (i + 1))) ++
            List.replicate (n - i) 0)) ∧
        call_args s.calls = (List.range i).map (fun i => (after_steps sq (i + 1), (i : Int))) ∧
        populated_count s.calls = i)
      (by
        rw [hc]
        rcases Nat.eq_zero_or_pos n with h0 | hpos
        · subst h0
          rw [select_entry_counted_none true sq _ size ((0 : Nat) : Int) (by simp)]
          exact ⟨0, Nat.zero_le _, rfl, by simp, rfl, rfl, by simp, rfl, rfl⟩
        · rw [select_entry_counted_alloc sq _ size _ (by exact_mod_cast hpos)]
          refine ⟨0, Nat.zero_le _, rfl, by simp, rfl, rfl, ?_, rfl, rfl⟩
          have : n ≠ 0 := by omega
          simp [this])
      (by
        rintro s ⟨i, hik, hidx, hsucc, hcode, hq, hlist, hargs, hpop⟩ _ hrow hlt
        rw [hc] at hlt
        have hi : i < k := hrc i hik (by rw [← hcode]; exact hrow)
        have hn : n ≠ 0 := by omega
        have hin : i < n := by omega
        rw [if_neg hn] at hlist
        have hret : (cb s.select_query s.model_list s.model_idx).1 ≠ 0 := by
          rw [hq, hidx]; exact hok i hi _
        refine ⟨i + 1, hi, ?_, hret, ?_, ?_, ?_, ?_, ?_⟩
        · simp only [select_loop_body, hidx]; push_cast; rfl
        · simp only [select_loop_body, sqlite3_step, hq, after_steps]
        · simp only [select_loop_body, sqlite3_step, hq, after_steps]
          rw [Nat.add_assoc]
        · rw [if_neg hn]
          simp only [select_loop_body, hlist, hidx]
          rw [hfill _ _ i (by simp; omega), hq]
          rw [set_next_filled (fun i => conv (after_steps sq (i + 1))) 0 i n hin]
        · simp only [select_loop_body]
          rw [call_args_append, hargs, List.range_succ, List.map_append, hq, hidx]
          rfl
        · simp only [select_loop_body]
          rw [populated_count_append, hpop]
          simp only [select_loop_body] at hret
          rw [if_pos hret])
      (by
        rintro s ⟨i, hik, hidx, hsucc, hcode, hq, hlist, hargs, hpop⟩ _ hrow hge
        rw [hc] at hge
        have hi : i < k := hrc i hik (by rw [← hcode]; exact hrow)
        rw [hidx] at hge
        have : (n : Int) ≤ (i : Int) := hge
        omega)
  have hik2 : i = k := by
    rcases Nat.lt_or_ge i k with h | h
    · exact absurd ⟨hsucc, by rw [hcode, hrows i h]⟩ hexit
    · omega
  subst hik2
  refine ⟨_, hrun, ?_, ?_, ?_, ?_, ?_, ?_, ?_⟩
  · simp only [select_outputs, hcode, hdone]
    simp [hsucc]
  · simp only [select_outputs, hc]
  · simp only [select_outputs, hlist]
  · simp only [select_outputs, hargs]
  · simp only [select_outputs, hpop]
  · simp only [select_outputs, hq]
  · simp only [select_outputs, hc]

/-- The example callback stores the conversion of the current row in the
slot it is given. -/
theorem example_add_to_list_fills : fills_slot_with example_add_to_list example_conv := by
  intro query l idx _
  simp [example_add_to_list]

/-- The example callback writes only the slot it is given. -/
theorem example_add_to_list_writes_only : writes_only_given_slot example_add_to_list := by
  intro query l idx
  by_cases hpos : 0 ≤ idx
  · refine ⟨l.set idx.toNat (example_conv query), ?_, by simp, fun j hj => ?_⟩
    · simp [example_add_to_list, hpos]
    · rw [List.getElem?_set_ne]
      intro h
      apply hj
      rw [← h]
      exact Int.toNat_of_nonneg hpos
  · exact ⟨l, by simp [example_add_to_list, hpos], rfl, fun _ _ => rfl⟩

/-- The example callback succeeds at every index from 0 on. -/
theorem example_add_to_list_ok (query : sqlite3_stmt) (l : Option (List Nat)) (i : Nat) :
    (example_add_to_list query l (i : Int)).1 ≠ 0 := by
  simp [example_add_to_list]

/-- No more slots are populated than calls are made. -/
theorem populated_count_le (calls : List AddCall) : populated_count calls ≤ calls.length := by
  unfold populated_count
  exact List.length_filter_le _ _

/-- The function returns on every input, with the COUNT value as row count,
and it invokes the callback at most that many times. -/
theorem select_returns {μ : Type} [Zero μ] (alloc_ok : Bool)
    (select_query count_query : sqlite3_stmt) (cb : cqlite_model_add_to_list_func_t μ)
    (model_size : Nat) :
    ∃ r, cqlite_select_query_execute_prepared alloc_ok select_query count_query cb model_size =
        some r ∧
      r.model_list_cnt_out = (cqlite_count_query_execute_prepared count_query).count_out ∧
      r.count_query = (cqlite_count_query_execute_prepared count_query).count_query ∧
      r.allocations = (select_entry alloc_ok select_query
        (cqlite_count_query_execute_prepared count_query) model_size :
          SelectLocals μ × List (Nat × Nat)).2 ∧
      r.calls.length ≤ (cqlite_count_query_execute_prepared count_query).count_out.toNat := by
  obtain ⟨s1, hrun, ⟨i, hidx, hlen, hle⟩, _⟩ :=
    select_prepared_rule alloc_ok select_query count_query cb model_size
      (fun s => ∃ i : Nat, s.model_idx = (i : Int) ∧ s.calls.length = i ∧
        i ≤ (cqlite_count_query_execute_prepared count_query).count_out.toNat)
      ⟨0, rfl, rfl, Nat.zero_le _⟩
      (by
        rintro s ⟨i, hidx, hlen, hle⟩ _ _ hlt
        refine ⟨i + 1, ?_, ?_, ?_⟩
        · simp only [select_loop_body, hidx]; push_cast; rfl
        · simp [select_loop_body, hlen]
        · rw [hidx] at hlt; omega)
      (by
        rintro s ⟨i, hidx, hlen, hle⟩ _ _ _
        exact ⟨i, hidx, hlen, hle⟩)
  refine ⟨_, hrun, rfl, rfl, rfl, ?_⟩
  simp only [select_outputs, hlen]
  exact hle

/-- The callback failing at one index writes only the slot it is given. -/
theorem add_to_list_failing_at_writes_only (k : Int) :
    writes_only_given_slot (add_to_list_failing_at k) := by
  intro query l idx
  by_cases h : idx = k
  · exact ⟨l, by simp [add_to_list_failing_at, h], rfl, fun _ _ => rfl⟩
  · obtain ⟨l1, h1, h2, h3⟩ := example_add_to_list_writes_only query l idx
    exact ⟨l1, by simp only [add_to_list_failing_at, if_neg h, h1], h2, h3⟩

/-- The C string at the start of memory that holds `t` and then a terminator
is the C string of `t`: it ends at the first zero byte of `t`, if any. -/
theorem c_str_append_terminator (t : List Nat) : c_str (t ++ [0]) = c_str t := by
  unfold c_str
  induction t with
  | nil => simp
  | cons a t ih =>
    by_cases ha : a = 0
    · simp [List.takeWhile_cons, ha]
    · simp [List.takeWhile_cons, ha, ih]

/-- A byte list is its own C string exactly when it has no zero byte. -/
theorem c_str_eq_self_iff (t : List Nat) : c_str t = t ↔ ∀ b ∈ t, b ≠ 0 := by
  constructor
  · intro h b hb
    rw [← h] at hb
    exact c_str_no_zero t b hb
  · intro h
    have := c_str_append_zero t h
    rw [c_str_append_terminator] at this
    exact this

/-- A column whose type is text belongs to a current row. -/
theorem text_column_row (q : sqlite3_stmt) (col : Int)
    (h : sqlite3_column_type q col = SQLITE_TEXT) :
    ∃ r, current_row q = some r ∧ r.column_type col = SQLITE_TEXT := by
  unfold sqlite3_column_type at h
  cases hr : current_row q with
  | none =>
    rw [hr] at h
    have h2 : SQLITE_NULL = SQLITE_TEXT := h
    exact absurd h2 (by decide)
  | some r => rw [hr] at h; exact ⟨r, rfl, h⟩

/-- Entry to the row loop with `success` set: the COUNT step yielded a row,
the allocation, if one was requested, succeeded, and the select statement has
been stepped once. -/
theorem select_entry_live {μ : Type} [Zero μ] (alloc_ok : Bool) (sq cq : sqlite3_stmt)
    (size : Nat)
    (h : (select_entry alloc_ok sq (cqlite_count_query_execute_prepared cq) size :
      SelectLocals μ × List (Nat × Nat)).1.success ≠ 0) :
    (sqlite3_step cq).1 = SQLITE_ROW ∧
    (0 < (cqlite_count_query_execute_prepared cq).count_out → alloc_ok = true) ∧
    (select_entry alloc_ok sq (cqlite_count_query_execute_prepared cq) size :
      SelectLocals μ × List (Nat × Nat)).1.select_query = after_steps sq 1 ∧
    (select_entry alloc_ok sq (cqlite_count_query_execute_prepared cq) size :
      SelectLocals μ × List (Nat × Nat)).1.sqlite_rcode = (sq.script sq.steps).1 := by
  by_cases hrow : (sqlite3_step cq).1 = SQLITE_ROW
  · rw [count_prepared_row cq hrow] at h ⊢
    by_cases hN : 0 < (cq.script cq.steps).2.column_int 0
    · cases alloc_ok with
      | true =>
        rw [select_entry_counted_alloc sq _ size _ hN]
        exact ⟨hrow, fun _ => rfl, rfl, rfl⟩
      | false =>
        rw [select_entry_counted_alloc_failed sq _ size _ hN] at h
        exact absurd rfl h
    · rw [select_entry_counted_none alloc_ok sq _ size _ (by omega)]
      exact ⟨hrow, fun hp => absurd hp hN, rfl, rfl⟩
  · rw [count_prepared_no_row cq hrow, select_entry_not_counted] at h
    exact absurd rfl h

/-- On every input the function returns, and it returns `CQLITE_SUCCESS`
only if the COUNT step yielded a row, the allocation, if requested, succeeded,
and for the number k of callback invocations made: k is at most the row
count, the select cursor yielded k rows and then reported completion, and
every invocation reported success. -/
theorem select_success_only_if {μ : Type} [Zero μ] (alloc_ok : Bool)
    (sq cq : sqlite3_stmt) (cb : cqlite_model_add_to_list_func_t μ) (size : Nat) :
    ∃ r, cqlite_select_query_execute_prepared alloc_ok sq cq cb size = some r ∧
      r.model_list_cnt_out = (cqlite_count_query_execute_prepared cq).count_out ∧
      (r.rcode = CQLITE_SUCCESS →
        (sqlite3_step cq).1 = SQLITE_ROW ∧
        (0 < r.model_list_cnt_out → alloc_ok = true) ∧
        r.calls.length ≤ r.model_list_cnt_out.toNat ∧
        (∀ j, j < r.calls.length → (sq.script (sq.steps + j)).1 = SQLITE_ROW) ∧
        (sq.script (sq.steps + r.calls.length)).1 = SQLITE_DONE ∧
        populated_count r.calls = r.calls.length ∧
        r.select_query = after_steps sq (r.calls.length + 1)) := by
  obtain ⟨s1, hrun, ⟨i, hidx, hlen, hle, hlive⟩, hexit⟩ :=
    select_prepared_rule alloc_ok sq cq cb size
      (fun s => ∃ i : Nat, s.model_idx = (i : Int) ∧ s.calls.length = i ∧
        i ≤ (cqlite_count_query_execute_prepared cq).count_out.toNat ∧
        (s.success ≠ 0 →
          (sqlite3_step cq).1 = SQLITE_ROW ∧
          (0 < (cqlite_count_query_execute_prepared cq).count_out → alloc_ok = true) ∧
          s.select_query = after_steps sq (i + 1) ∧
          s.sqlite_rcode = (sq.script (sq.steps + i)).1 ∧
          populated_count s.calls = i ∧
          ∀ j, j < i → (sq.script (sq.steps + j)).1 = SQLITE_ROW))
      (by
        refine ⟨0, rfl, rfl, Nat.zero_le _, fun h => ?_⟩
        obtain ⟨h1, h2, h3, h4⟩ := select_entry_live alloc_ok sq cq size h
        exact ⟨h1, h2, h3, h4, rfl, fun j hj => absurd hj (Nat.not_lt_zero j)⟩)
      (by
        rintro s ⟨i, hidx, hlen, hle, hlive⟩ hs hrow hlt
        obtain ⟨h1, h2, hq, hrc, hpop, hrows⟩ := hlive hs
        refine ⟨i + 1, ?_, ?_, ?_, fun hs2 => ⟨h1, h2, ?_, ?_, ?_, ?_⟩⟩
        · simp only [select_loop_body, hidx]; push_cast; rfl
        · simp [select_loop_body, hlen]
        · rw [hidx] at hlt; omega
        · simp only [select_loop_body, sqlite3_step, hq, after_steps]
          rw [Nat.add_assoc]
        · simp only [select_loop_body, sqlite3_step, hq, after_steps]
        · simp only [select_loop_body] at hs2 ⊢
          rw [populated_count_append, hpop, if_pos hs2]
        · intro j hj
          rcases Nat.lt_or_ge j i with hji | hji
          · exact hrows j hji
          · have : j = i := by omega
            rw [this, ← hrc]
            exact hrow)
      (by
        rintro s ⟨i, hidx, hlen, hle, _⟩ _ _ _
        exact ⟨i, hidx, hlen, hle, fun h => absurd rfl h⟩)
  refine ⟨_, hrun, rfl, fun hsucc => ?_⟩
  have hs : s1.success ≠ 0 := by
    intro h0
    simp [select_outputs, h0] at hsucc
  have hdone : SQLITE_DONE = s1.sqlite_rcode := by
    by_contra hd
    simp [select_outputs, hs, hd] at hsucc
  obtain ⟨h1, h2, hq, hrc, hpop, hrows⟩ := hlive hs
  simp only [select_outputs, hlen]
  refine ⟨h1, h2, hle, hrows, ?_, hpop, hq⟩
  rw [← hrc, ← hdone]

/-- A callback that writes only its given slot hands back, after any number
of invocations of the row loop, a list with as many slots as it started
from. -/
theorem buffer_after_length {μ : Type} (cb : cqlite_model_add_to_list_func_t μ)
    (sq : sqlite3_stmt) (hw : writes_only_given_slot cb) (l0 : List μ) :
    ∀ m, ∃ l, buffer_after cb sq m (some l0) = some l ∧ l.length = l0.length := by
  intro m
  induction m with
  | zero => exact ⟨l0, rfl, rfl⟩
  | succ m ih =>
    obtain ⟨l, hl, hlen⟩ := ih
    obtain ⟨l1, h1, h2, _⟩ := hw (after_steps sq (m + 1)) l (m : Int)
    refine ⟨l1, ?_, by rw [h2, hlen]⟩
    simp only [buffer_after, hl, h1]

/-- The first invocations of the row loop, one more. -/
theorem nth_add_call_range_succ {μ : Type} (cb : cqlite_model_add_to_list_func_t μ)
    (sq : sqlite3_stmt) (b : Option (List μ)) (i : Nat) :
    (List.range (i + 1)).map (nth_add_call cb sq b) =
      (List.range i).map (nth_add_call cb sq b) ++ [nth_add_call cb sq b i] := by
  rw [List.range_succ, List.map_append]
  rfl

/-! ## Properties -/

/-- C1: for every N ≥ 0, if the COUNT cursor's first advance yields a row
whose first column is N, the allocation succeeds, the SELECT cursor yields
exactly N rows and then reports completion, and the conversion callback
succeeds on every row, then `cqlite_select_query_execute_prepared` returns
`CQLITE_SUCCESS` and writes row count N and a buffer of N slots (the null
buffer when N = 0) in which slot i is the callback's conversion of the i-th
row the SELECT cursor yielded: the callback is invoked once per row, in
cursor order, with indices 0..N-1. -/
theorem select_exact_rows_materialized {μ : Type} [Zero μ] (n : Nat) (alloc_ok : Bool)
    (select_query count_query : sqlite3_stmt)
    (add_to_list_func : cqlite_model_add_to_list_func_t μ) (model_size : Nat)
    (conv : sqlite3_stmt → μ)
    (hcount : (sqlite3_step count_query).1 = SQLITE_ROW)
    (hN : (count_query.script count_query.steps).2.column_int 0 = (n : Int))
    (halloc : alloc_ok = true)
    (hrows : ∀ i, i < n → (select_query.script (select_query.steps + i)).1 = SQLITE_ROW)
    (hdone : (select_query.script (select_query.steps + n)).1 = SQLITE_DONE)
    (hfill : fills_slot_with add_to_list_func conv)
    (hok : ∀ i, i < n → ∀ l,
      (add_to_list_func (after_steps select_query (i + 1)) l (i : Int)).1 ≠ 0) :
    ∃ r, cqlite_select_query_execute_prepared alloc_ok select_query count_query
        add_to_list_func model_size = some r ∧
      r.rcode = CQLITE_SUCCESS ∧ r.model_list_cnt_out = (n : Int) ∧
      r.model_list_out = (if n = 0 then none else
        some ((List.range n).map (fun i => conv (after_steps select_query (i + 1))))) ∧
      call_args r.calls =
        (List.range n).map (fun i => (after_steps select_query (i + 1), (i : Int))) ∧
      ∀ i, i < n → current_row (after_steps select_query (i + 1)) =
        some (select_query.script (select_query.steps + i)).2 := by
  subst halloc
  obtain ⟨r, h1, h2, h3, h4, h5, _⟩ := select_rows_then_done n n (le_refl n) select_query
    count_query add_to_list_func model_size conv hcount hN hrows hdone hfill hok
  refine ⟨r, h1, h2, h3, ?_, h5, fun i hi => ?_⟩
  · rw [h4]
    simp
  · have hr : (select_query.script (select_query.steps + i)).1 = 100 := hrows i hi
    simp [current_row, after_steps, ← Nat.add_assoc, hr]

/-- C1, at a concrete input: COUNT reports 2 and the SELECT cursor yields the
rows 7 and 8. -/
theorem select_exact_rows_materialized_witness :
    ∃ r, cqlite_select_query_execute_prepared true (rows_stmt [7, 8]) (count_stmt 2)
        example_add_to_list 8 = some r ∧
      r.rcode = CQLITE_SUCCESS ∧ r.model_list_cnt_out = 2 ∧ r.model_list_out = some [7, 8] := by
  obtain ⟨r, h1, h2, h3, h4, _⟩ := select_exact_rows_materialized 2 true (rows_stmt [7, 8])
    (count_stmt 2) example_add_to_list 8 example_conv rfl rfl rfl (by decide) rfl
    example_add_to_list_fills (fun i _ l => example_add_to_list_ok _ l i)
  exact ⟨r, h1, h2, h3, h4⟩

/-- C2, refuted as stated: COUNT reports 2 and the SELECT cursor yields one
row, converted successfully, and then reports completion.  The function
returns `CQLITE_SUCCESS`, not `CQLITE_ERROR`, and the row count is 2, not the
one row consumed. -/
theorem select_fewer_rows_not_error :
    ∃ r, cqlite_select_query_execute_prepared true (rows_stmt [7]) (count_stmt 2)
        example_add_to_list 8 = some r ∧
      r.rcode = CQLITE_SUCCESS ∧ r.rcode ≠ CQLITE_ERROR ∧
      r.model_list_cnt_out = 2 ∧ r.model_list_cnt_out ≠ 1 ∧
      populated_count r.calls = 1 ∧ r.model_list_out = some [7, 0] :=
  ⟨_, rfl, rfl, by decide, rfl, by decide, rfl, rfl⟩

/-- C2, amended: when the COUNT query reports N > 0 and the allocation
succeeds, the function returns with row count N, and (1) for every k < N, if
the SELECT cursor yields only k rows, each converted successfully, and then
reports completion, the result is `CQLITE_SUCCESS`, with exactly k callback
invocations (indices 0..k-1): slots 0..k-1 hold the converted rows and slots
k..N-1 are zero; (2) the result is `CQLITE_SUCCESS` only if, for the number
k ≤ N of callback invocations made, the SELECT cursor yielded k rows and then
reported completion, every invocation reported success, and the select
statement was stepped k+1 times.  So `CQLITE_SUCCESS` tells that the cursor
ended with completion after at most N rows, not that N rows were consumed. -/
theorem select_fewer_rows_success {μ : Type} [Zero μ] (n : Nat) (alloc_ok : Bool)
    (select_query count_query : sqlite3_stmt)
    (add_to_list_func : cqlite_model_add_to_list_func_t μ) (model_size : Nat)
    (hpos : 0 < n)
    (hcount : (sqlite3_step count_query).1 = SQLITE_ROW)
    (hN : (count_query.script count_query.steps).2.column_int 0 = (n : Int))
    (halloc : alloc_ok = true) :
    ∃ r, cqlite_select_query_execute_prepared alloc_ok select_query count_query
        add_to_list_func model_size = some r ∧
      r.model_list_cnt_out = (n : Int) ∧
      (∀ (k : Nat) (conv : sqlite3_stmt → μ), k < n →
        (∀ i, i < k → (select_query.script (select_query.steps + i)).1 = SQLITE_ROW) →
        (select_query.script (select_query.steps + k)).1 = SQLITE_DONE →
        fills_slot_with add_to_list_func conv →
        (∀ i, i < k → ∀ l,
          (add_to_list_func (after_steps select_query (i + 1)) l (i : Int)).1 ≠ 0) →
        r.rcode = CQLITE_SUCCESS ∧
        r.model_list_out =
          some ((List.range k).map (fun i => conv (after_steps select_query (i + 1))) ++
            List.replicate (n - k) 0) ∧
        call_args r.calls =
          (List.range k).map (fun i => (after_steps select_query (i + 1), (i : Int))) ∧
        populated_count r.calls = k) ∧
      (r.rcode = CQLITE_SUCCESS →
        ∃ k, k ≤ n ∧ r.calls.length = k ∧ populated_count r.calls = k ∧
          (∀ i, i < k → (select_query.script (select_query.steps + i)).1 = SQLITE_ROW) ∧
          (select_query.script (select_query.steps + k)).1 = SQLITE_DONE ∧
          r.select_query = after_steps select_query (k + 1)) := by
  subst halloc
  obtain ⟨r, hrun, hcnt, honly⟩ :=
    select_success_only_if true select_query count_query add_to_list_func model_size
  rw [count_prepared_row count_query hcount, hN] at hcnt
  have hcnt2 : r.model_list_cnt_out = (n : Int) := hcnt
  refine ⟨r, hrun, hcnt2, fun k conv hk hrows hdone hfill hok => ?_, fun hsucc => ?_⟩
  · obtain ⟨r2, h1, h2, _, h4, h5, h6, _⟩ := select_rows_then_done n k (le_of_lt hk)
      select_query count_query add_to_list_func model_size conv hcount hN hrows hdone hfill hok
    have hr : r2 = r := Option.some.inj (h1.symm.trans hrun)
    subst hr
    have hn : n ≠ 0 := by omega
    rw [if_neg hn] at h4
    exact ⟨h2, h4, h5, h6⟩
  · obtain ⟨_, _, hle, hrows, hdone, hpop, hq⟩ := honly hsucc
    rw [hcnt2] at hle
    exact ⟨r.calls.length, by simpa using hle, rfl, hpop, hrows, hdone, hq⟩

/-- C2 amended, at a concrete input: COUNT reports 3 and the SELECT cursor
yields the rows 7 and 8. -/
theorem select_fewer_rows_success_witness :
    ∃ r, cqlite_select_query_execute_prepared true (rows_stmt [7, 8]) (count_stmt 3)
        example_add_to_list 8 = some r ∧
      r.rcode = CQLITE_SUCCESS ∧ r.model_list_cnt_out = 3 ∧
      r.model_list_out = some [7, 8, 0] ∧ populated_count r.calls = 2 := by
  obtain ⟨r, h1, h2, h3, _⟩ := select_fewer_rows_success 3 true (rows_stmt [7, 8])
    (count_stmt 3) example_add_to_list 8 (by decide) rfl rfl rfl
  obtain ⟨h4, h5, _, h6⟩ := h3 2 example_conv (by decide) (by decide) rfl
    example_add_to_list_fills (fun i _ l => example_add_to_list_ok _ l i)
  exact ⟨r, h1, h4, h2, h5, h6⟩

/-- C3, refuted as stated: COUNT reports 2 and the SELECT cursor yields three
rows.  With a callback that fails on the first row the function returns
`CQLITE_ERROR` with row count 2 after one invocation, and with a failed
allocation after none: the callback is not invoked exactly 2 times. -/
theorem select_more_rows_fewer_invocations :
    (∃ r, cqlite_select_query_execute_prepared true (rows_stmt [7, 8, 9]) (count_stmt 2)
        (add_to_list_failing_at 0) 8 = some r ∧
      r.rcode = CQLITE_ERROR ∧ r.model_list_cnt_out = 2 ∧
      r.calls.length = 1 ∧ r.calls.length ≠ 2) ∧
    (∃ r, cqlite_select_query_execute_prepared false (rows_stmt [7, 8, 9]) (count_stmt 2)
        example_add_to_list 8 = some r ∧
      r.rcode = CQLITE_ERROR ∧ r.model_list_cnt_out = 2 ∧
      r.calls.length = 0 ∧ r.calls.length ≠ 2) :=
  ⟨⟨_, rfl, rfl, rfl, rfl, by decide⟩, ⟨_, rfl, rfl, rfl, rfl, by decide⟩⟩

/-- C3, amended: for every N ≥ 0, if the COUNT query reports N and the SELECT
cursor yields more than N rows, the function returns `CQLITE_ERROR` with row
count N, having requested one buffer of N slots when N > 0 and none when
N = 0.  The callback is invoked m ≤ N times, with indices 0..m-1 on the first
m rows in cursor order, never with an index outside 0..N-1; invocation i is
made on the allocated buffer of N zero slots as the invocations before it
left it, and the buffer written out is the one the last invocation handed
back.  When the allocation fails, m = 0 and the buffer is null.  When the
allocation succeeds, m < N only if the last invocation returned 0, and m = N
(exactly N invocations, indices 0..N-1) if the callback succeeds on the first
N rows; with a callback that writes only the slot it is given, every
invocation is made on a buffer of exactly N slots with an index inside it,
and the buffer written out has exactly N slots. -/
theorem select_more_rows_error {μ : Type} [Zero μ] (n : Nat) (alloc_ok : Bool)
    (select_query count_query : sqlite3_stmt)
    (add_to_list_func : cqlite_model_add_to_list_func_t μ) (model_size : Nat)
    (hcount : (sqlite3_step count_query).1 = SQLITE_ROW)
    (hN : (count_query.script count_query.steps).2.column_int 0 = (n : Int))
    (hrows : ∀ i, i ≤ n → (select_query.script (select_query.steps + i)).1 = SQLITE_ROW) :
    ∃ r, cqlite_select_query_execute_prepared alloc_ok select_query count_query
        add_to_list_func model_size = some r ∧
      r.rcode = CQLITE_ERROR ∧ r.model_list_cnt_out = (n : Int) ∧
      r.allocations = (if 0 < n then [(n, model_size)] else []) ∧
      ∃ m, m ≤ n ∧
        call_args r.calls =
          (List.range m).map (fun i => (after_steps select_query (i + 1), (i : Int))) ∧
        r.calls = (List.range m).map (nth_add_call add_to_list_func select_query
          (if 0 < n ∧ alloc_ok = true then some (List.replicate n 0) else none)) ∧
        r.model_list_out = buffer_after add_to_list_func select_query m
          (if 0 < n ∧ alloc_ok = true then some (List.replicate n 0) else none) ∧
        (alloc_ok = false → m = 0 ∧ r.model_list_out = none) ∧
        (m < n → alloc_ok = true → ∃ c, r.calls.getLast? = some c ∧ c.returned = 0) ∧
        (alloc_ok = true →
          (∀ i, i < n → ∀ l,
            (add_to_list_func (after_steps select_query (i + 1)) l (i : Int)).1 ≠ 0) →
          m = n) ∧
        (alloc_ok = true → 0 < n → writes_only_given_slot add_to_list_func →
          (∀ i, i < m → ∃ l, buffer_after add_to_list_func select_query i
              (if 0 < n ∧ alloc_ok = true then some (List.replicate n 0) else none) = some l ∧
            l.length = n ∧ i < l.length) ∧
          ∃ l, r.model_list_out = some l ∧ l.length = n) := by
  have hc : cqlite_count_query_execute_prepared count_query =
      { rcode := CQLITE_SUCCESS, count_out := (n : Int),
        count_query := after_steps count_query 1 } := by
    rw [count_prepared_row count_query hcount, hN]
  have hallocs : (select_entry alloc_ok select_query
      (cqlite_count_query_execute_prepared count_query) model_size :
        SelectLocals μ × List (Nat × Nat)).2 = (if 0 < n then [(n, model_size)] else []) := by
    rw [hc]
    rcases Nat.eq_zero_or_pos n with h0 | hpos
    · subst h0
      rw [select_entry_counted_none alloc_ok select_query _ model_size ((0 : Nat) : Int)
        (by simp)]
      rfl
    · rw [if_pos hpos]
      cases alloc_ok with
      | true =>
        rw [select_entry_counted_alloc select_query _ model_size _ (by exact_mod_cast hpos)]
        simp
      | false =>
        rw [select_entry_counted_alloc_failed select_query _ model_size _
          (by exact_mod_cast hpos)]
        simp
  obtain ⟨s1, hrun, ⟨i, hin, hidx, hcalls, hlist, hlive, hdead, hnoalloc, hfull⟩, hexit⟩ :=
    select_prepared_rule alloc_ok select_query count_query add_to_list_func model_size
      (fun s => ∃ i : Nat, i ≤ n ∧ s.model_idx = (i : Int) ∧
        s.calls = (List.range i).map (nth_add_call add_to_list_func select_query
          (if 0 < n ∧ alloc_ok = true then some (List.replicate n 0) else none)) ∧
        s.model_list = buffer_after add_to_list_func select_query i
          (if 0 < n ∧ alloc_ok = true then some (List.replicate n 0) else none) ∧
        (s.success ≠ 0 → s.sqlite_rcode = (select_query.script (select_query.steps + i)).1 ∧
          s.select_query = after_steps select_query (i + 1)) ∧
        (s.success = 0 → i < n → (alloc_ok = false ∧ i = 0) ∨
          ∃ c, s.calls.getLast? = some c ∧ c.returned = 0) ∧
        (alloc_ok = false → i = 0 ∧ (0 < n → s.success = 0)) ∧
        (alloc_ok = true →
          (∀ i, i < n → ∀ l,
            (add_to_list_func (after_steps select_query (i + 1)) l (i : Int)).1 ≠ 0) →
          s.success ≠ 0 ∨ i = n))
      (by
        rw [hc]
        rcases Nat.eq_zero_or_pos n with h0 | hpos
        · subst h0
          rw [select_entry_counted_none alloc_ok select_query _ model_size ((0 : Nat) : Int)
            (by simp)]
          exact ⟨0, Nat.zero_le _, rfl, rfl, by simp [buffer_after], fun _ => ⟨rfl, rfl⟩,
            fun _ h => absurd h (lt_irrefl _), fun _ => ⟨rfl, fun h => absurd h (lt_irrefl _)⟩,
            fun _ _ => Or.inr rfl⟩
        · cases alloc_ok with
          | true =>
            rw [select_entry_counted_alloc select_query _ model_size _ (by exact_mod_cast hpos)]
            exact ⟨0, Nat.zero_le _, rfl, rfl, by simp [buffer_after, hpos],
              fun _ => ⟨rfl, rfl⟩, fun h => absurd h (by simp), fun h => absurd h (by decide),
              fun _ _ => Or.inl (by simp)⟩
          | false =>
            rw [select_entry_counted_alloc_failed select_query _ model_size _
              (by exact_mod_cast hpos)]
            exact ⟨0, Nat.zero_le _, rfl, rfl, by simp [buffer_after],
              fun h => absurd rfl h, fun _ _ => Or.inl ⟨rfl, rfl⟩, fun _ => ⟨rfl, fun _ => rfl⟩,
              fun h => absurd h (by decide)⟩)
      (by
        rintro s ⟨i, hin, hidx, hcalls, hlist, hlive, hdead, hnoalloc, hfull⟩ hs _ hlt
        rw [hc, hidx] at hlt
        have hlt2 : (i : Int) < (n : Int) := hlt
        have hi : i < n := by exact_mod_cast hlt2
        obtain ⟨_, hq⟩ := hlive hs
        have hok : alloc_ok = true := by
          cases alloc_ok with
          | true => rfl
          | false => exact absurd ((hnoalloc rfl).2 (by omega)) hs
        refine ⟨i + 1, hi, ?_, ?_, ?_, fun _ => ⟨?_, ?_⟩, fun h0 _ => Or.inr ?_, fun h => ?_,
          fun _ hcb => Or.inl ?_⟩
        · simp only [select_loop_body, hidx]; push_cast; rfl
        · simp only [select_loop_body]
          rw [nth_add_call_range_succ, hcalls, hq, hidx, hlist]
          rfl
        · simp only [select_loop_body]
          rw [hq, hidx, hlist]
          rfl
        · simp only [select_loop_body, sqlite3_step, hq, after_steps]
        · simp only [select_loop_body, sqlite3_step, hq, after_steps]
          rw [Nat.add_assoc]
        · simp only [select_loop_body] at h0 ⊢
          exact ⟨_, List.getLast?_concat _, h0⟩
        · rw [hok] at h; exact absurd h (by decide)
        · simp only [select_loop_body]
          rw [hq, hidx]
          exact hcb i hi _)
      (by
        rintro s ⟨i, hin, hidx, hcalls, hlist, hlive, hdead, hnoalloc, hfull⟩ _ _ hge
        rw [hc, hidx] at hge
        have hge2 : (n : Int) ≤ (i : Int) := hge
        have hi : n ≤ i := by exact_mod_cast hge2
        exact ⟨i, hin, hidx, hcalls, hlist, fun h => absurd rfl h,
          fun _ h => absurd h (by omega), fun h => ⟨(hnoalloc h).1, fun _ => rfl⟩,
          fun _ _ => Or.inr (by omega)⟩)
  have hs0 : s1.success = 0 := by
    by_contra hs
    exact hexit ⟨hs, by rw [(hlive hs).1, hrows i hin]⟩
  refine ⟨_, hrun, ?_, ?_, ?_, i, hin, ?_, ?_, ?_, fun ha => ?_, fun hlt ha => ?_,
    fun ha hcb => ?_, fun ha hpos hw => ?_⟩
  · simp [select_outputs, hs0]
  · simp only [select_outputs, hc]
  · simp only [select_outputs, hallocs]
  · simp only [select_outputs, hcalls, call_args, List.map_map]
    rfl
  · simp only [select_outputs, hcalls]
  · simp only [select_outputs, hlist]
  · have hi0 := (hnoalloc ha).1
    subst hi0
    refine ⟨rfl, ?_⟩
    simp only [select_outputs, hlist, ha]
    simp [buffer_after]
  · rcases hdead hs0 hlt with ⟨hf, _⟩ | h
    · rw [ha] at hf; exact absurd hf (by decide)
    · exact h
  · rcases hfull ha hcb with h | h
    · exact absurd hs0 h
    · exact h
  · simp only [select_outputs, hlist]
    rw [if_pos ⟨hpos, ha⟩]
    refine ⟨fun j hj => ?_, ?_⟩
    · obtain ⟨l, h1, h2⟩ := buffer_after_length add_to_list_func select_query hw
        (List.replicate n 0) j
      have h3 : l.length = n := by rw [h2]; simp
      exact ⟨l, h1, h3, by omega⟩
    · obtain ⟨l, h1, h2⟩ := buffer_after_length add_to_list_func select_query hw
        (List.replicate n 0) i
      exact ⟨l, h1, by rw [h2]; simp⟩

/-- C3 amended, at a concrete input: COUNT reports 2 and the SELECT cursor
yields three rows. -/
theorem select_more_rows_error_witness :
    ∃ r, cqlite_select_query_execute_prepared true (rows_stmt [7, 8, 9]) (count_stmt 2)
        example_add_to_list 8 = some r ∧
      r.rcode = CQLITE_ERROR ∧ r.model_list_cnt_out = 2 ∧ r.allocations = [(2, 8)] ∧
      (r.calls.map (fun c => c.next_model_list_idx)) = [0, 1] ∧
      r.model_list_out = some [7, 8] := by
  obtain ⟨r, h1, h2, h3, h4, m, _, h5, _, h6, _, _, h7, _⟩ :=
    select_more_rows_error 2 true (rows_stmt [7, 8, 9])
      (count_stmt 2) example_add_to_list 8 rfl rfl (by decide)
  have hm : m = 2 := h7 rfl (fun i _ l => example_add_to_list_ok _ l i)
  subst hm
  refine ⟨r, h1, h2, h3, h4, ?_, ?_⟩
  · have h8 : (call_args r.calls).map (fun a => a.2) = [0, 1] := by rw [h5]; rfl
    simpa [call_args] using h8
  · rw [h6]
    rfl

/-- C4, refuted as stated: COUNT reports 3, the SELECT cursor yields three
rows and the callback fails on the row of index 1.  The function returns
`CQLITE_ERROR` with row count 3, although one slot only was successfully
populated. -/
theorem select_row_count_not_populated :
    ∃ r, cqlite_select_query_execute_prepared true (rows_stmt [7, 8, 9]) (count_stmt 3)
        (add_to_list_failing_at 1) 8 = some r ∧
      r.rcode = CQLITE_ERROR ∧ r.model_list_cnt_out = 3 ∧ populated_count r.calls = 1 ∧
      r.model_list_out = some [7, 0, 0] ∧
      r.model_list_cnt_out ≠ (populated_count r.calls : Int) :=
  ⟨_, rfl, rfl, rfl, rfl, rfl, by decide⟩

/-- C4, amended: on every return on which the allocation did not fail,
success or failure, the row-count output is the COUNT value N (the first
column of the COUNT row) and 0 when the COUNT advance yields no row; when it
is positive it is the number of slots requested for the buffer.  It is not
the number of slots the callback populated: that number is at most the
number of callback invocations, which is at most the row count, and it can
be smaller (the callback failing on row k < N leaves the row count at N). -/
theorem select_row_count_is_count_value {μ : Type} [Zero μ] (alloc_ok : Bool)
    (select_query count_query : sqlite3_stmt)
    (add_to_list_func : cqlite_model_add_to_list_func_t μ) (model_size : Nat)
    (halloc : alloc_ok = true) :
    ∃ r, cqlite_select_query_execute_prepared alloc_ok select_query count_query
        add_to_list_func model_size = some r ∧
      ((sqlite3_step count_query).1 = SQLITE_ROW →
        r.model_list_cnt_out = (count_query.script count_query.steps).2.column_int 0) ∧
      ((sqlite3_step count_query).1 ≠ SQLITE_ROW →
        r.model_list_cnt_out = 0 ∧ r.calls = []) ∧
      (0 < r.model_list_cnt_out →
        r.allocations = [(r.model_list_cnt_out.toNat, model_size)]) ∧
      populated_count r.calls ≤ r.calls.length ∧
      r.calls.length ≤ r.model_list_cnt_out.toNat := by
  subst halloc
  obtain ⟨r, h1, h2, _, h4, h5⟩ :=
    select_returns true select_query count_query add_to_list_func model_size
  refine ⟨r, h1, fun hrow => ?_, fun hno => ?_, fun hpos => ?_, populated_count_le _, ?_⟩
  · rw [h2, count_prepared_row count_query hrow]
  · rw [count_prepared_no_row count_query hno] at h2 h5
    refine ⟨h2, ?_⟩
    have : r.calls.length = 0 := by simpa using h5
    exact List.length_eq_zero.mp this
  · rw [h2] at hpos
    rw [h4, h2]
    by_cases hrow : (sqlite3_step count_query).1 = SQLITE_ROW
    · rw [count_prepared_row count_query hrow] at hpos ⊢
      rw [select_entry_counted_alloc select_query _ model_size _ hpos]
    · rw [count_prepared_no_row count_query hrow] at hpos
      exact absurd hpos (lt_irrefl _)
  · rw [h2]; exact h5

/-- C4 amended, at a concrete input: COUNT reports 3 and the callback fails
on the row of index 1. -/
theorem select_row_count_is_count_value_witness :
    ∃ r, cqlite_select_query_execute_prepared true (rows_stmt [7, 8, 9]) (count_stmt 3)
        (add_to_list_failing_at 1) 8 = some r ∧
      r.model_list_cnt_out = 3 ∧ r.allocations = [(3, 8)] := by
  obtain ⟨r, h1, h2, _, h4, _⟩ := select_row_count_is_count_value true (rows_stmt [7, 8, 9])
    (count_stmt 3) (add_to_list_failing_at 1) 8 rfl
  have h3 : r.model_list_cnt_out = 3 := h2 rfl
  refine ⟨r, h1, h3, ?_⟩
  have h5 := h4 (by rw [h3]; decide)
  rw [h3] at h5
  exact h5

/-- C5: for every run in which a buffer is allocated (N > 0), with a
callback that writes only the slot whose index it is given, whatever the
SELECT cursor reports and whatever the callback returns: at return the
buffer has exactly N slots and every slot whose index was never passed to
the callback is still zero; in particular every slot from the number of
callback invocations up to N-1 is zero. -/
theorem select_untouched_slots_zero {μ : Type} [Zero μ] (n : Nat) (alloc_ok : Bool)
    (select_query count_query : sqlite3_stmt)
    (add_to_list_func : cqlite_model_add_to_list_func_t μ) (model_size : Nat)
    (hpos : 0 < n)
    (hcount : (sqlite3_step count_query).1 = SQLITE_ROW)
    (hN : (count_query.script count_query.steps).2.column_int 0 = (n : Int))
    (halloc : alloc_ok = true)
    (hwrite : writes_only_given_slot add_to_list_func) :
    ∃ r l, cqlite_select_query_execute_prepared alloc_ok select_query count_query
        add_to_list_func model_size = some r ∧
      r.model_list_out = some l ∧ l.length = n ∧
      (∀ j, j < n → (∀ c, c ∈ r.calls → c.next_model_list_idx ≠ (j : Int)) → l[j]? = some 0) ∧
      (∀ j, r.calls.length ≤ j → j < n → l[j]? = some 0) := by
  subst halloc
  have hc : cqlite_count_query_execute_prepared count_query =
      { rcode := CQLITE_SUCCESS, count_out := (n : Int),
        count_query := after_steps count_query 1 } := by
    rw [count_prepared_row count_query hcount, hN]
  obtain ⟨s1, hrun, ⟨i, l, hidx, hlist, hlen, hcalls, hzero⟩, _⟩ :=
    select_prepared_rule true select_query count_query add_to_list_func model_size
      (fun s => ∃ (i : Nat) (l : List μ), s.model_idx = (i : Int) ∧ s.model_list = some l ∧
        l.length = n ∧
        s.calls.map (fun c => c.next_model_list_idx) = (List.range i).map (fun t : Nat => (t : Int)) ∧
        ∀ j, i ≤ j → j < n → l[j]? = some 0)
      (by
        rw [hc, select_entry_counted_alloc select_query _ model_size _ (by exact_mod_cast hpos)]
        refine ⟨0, List.replicate n 0, rfl, by simp, by simp, rfl, fun j _ hj => ?_⟩
        simp [List.getElem?_replicate, hj])
      (by
        rintro s ⟨i, l, hidx, hlist, hlen, hcalls, hzero⟩ _ _ _
        obtain ⟨l1, hl1, hlen1, hsame⟩ := hwrite s.select_query l s.model_idx
        refine ⟨i + 1, l1, ?_, ?_, by rw [hlen1, hlen], ?_, fun j hij hj => ?_⟩
        · simp only [select_loop_body, hidx]; push_cast; rfl
        · simp only [select_loop_body, hlist, hl1]
        · simp only [select_loop_body, List.map_append, hcalls, List.range_succ, hidx]
          rfl
        · rw [hsame j (by rw [hidx]; omega)]
          exact hzero j (by omega) hj)
      (by
        rintro s ⟨i, l, hidx, hlist, hlen, hcalls, hzero⟩ _ _ _
        exact ⟨i, l, hidx, hlist, hlen, hcalls, hzero⟩)
  have hcl : s1.calls.length = i := by
    have := congrArg List.length hcalls
    simpa using this
  refine ⟨_, l, hrun, hlist, hlen, fun j hj hnever => ?_, fun j hij hj => ?_⟩
  · refine hzero j ?_ hj
    by_contra hlt
    have hji : j < i := by omega
    have hmem : (j : Int) ∈ s1.calls.map (fun c => c.next_model_list_idx) := by
      rw [hcalls]
      exact List.mem_map.mpr ⟨j, List.mem_range.mpr hji, rfl⟩
    obtain ⟨c, hc1, hc2⟩ := List.mem_map.mp hmem
    exact hnever c hc1 hc2
  · exact hzero j (by rw [← hcl]; exact hij) hj

/-- C5, at a concrete input: COUNT reports 3 and the callback fails on the
row of index 1, so that the slot of index 2 is never passed to it. -/
theorem select_untouched_slots_zero_witness :
    ∃ r l, cqlite_select_query_execute_prepared true (rows_stmt [7, 8, 9]) (count_stmt 3)
        (add_to_list_failing_at 1) 8 = some r ∧
      r.model_list_out = some l ∧ l.length = 3 ∧ l[2]? = some 0 := by
  obtain ⟨r, l, h1, h2, h3, _, h5⟩ := select_untouched_slots_zero 3 true (rows_stmt [7, 8, 9])
    (count_stmt 3) (add_to_list_failing_at 1) 8 (by decide) rfl rfl rfl
    (add_to_list_failing_at_writes_only 1)
  have hlen : (cqlite_select_query_execute_prepared true (rows_stmt [7, 8, 9]) (count_stmt 3)
      (add_to_list_failing_at 1) 8).map (fun r => r.calls.length) = some 2 := rfl
  rw [h1] at hlen
  have hlen2 : r.calls.length = 2 := Option.some.inj hlen
  exact ⟨r, l, h1, h2, h3, h5 2 (by rw [hlen2]) (by decide)⟩

/-- C6: `cqlite_count_query_execute_prepared` advances the cursor exactly
once; it returns `CQLITE_SUCCESS` if and only if that advance reports a row
available, and the output integer is then that row's first column; for every
other outcome of the advance, completion with zero rows included, it returns
`CQLITE_ERROR` and the output integer is 0. -/
theorem count_prepared_success_iff_row (count_query : sqlite3_stmt) :
    (cqlite_count_query_execute_prepared count_query).count_query = after_steps count_query 1 ∧
    ((cqlite_count_query_execute_prepared count_query).rcode = CQLITE_SUCCESS ↔
      (sqlite3_step count_query).1 = SQLITE_ROW) ∧
    ((sqlite3_step count_query).1 = SQLITE_ROW →
      (cqlite_count_query_execute_prepared count_query).count_out =
        (count_query.script count_query.steps).2.column_int 0) ∧
    ((sqlite3_step count_query).1 ≠ SQLITE_ROW →
      (cqlite_count_query_execute_prepared count_query).rcode = CQLITE_ERROR ∧
      (cqlite_count_query_execute_prepared count_query).count_out = 0) := by
  by_cases h : (sqlite3_step count_query).1 = SQLITE_ROW
  · rw [count_prepared_row count_query h]
    exact ⟨rfl, ⟨fun _ => h, fun _ => rfl⟩, fun _ => rfl, fun hc => absurd h hc⟩
  · rw [count_prepared_no_row count_query h]
    exact ⟨rfl, ⟨fun hc => (by cases hc), fun hc => absurd hc h⟩, fun hc => absurd hc h,
      fun _ => ⟨rfl, rfl⟩⟩

/-- C6, at concrete inputs: a COUNT statement yielding the row 5, and a
statement that completes without a row. -/
theorem count_prepared_success_iff_row_witness :
    (cqlite_count_query_execute_prepared (count_stmt 5)).count_out = 5 ∧
    (cqlite_count_query_execute_prepared (stmt_reporting SQLITE_DONE)).rcode = CQLITE_ERROR ∧
    (cqlite_count_query_execute_prepared (stmt_reporting SQLITE_DONE)).count_out = 0 :=
  ⟨(count_prepared_success_iff_row (count_stmt 5)).2.2.1 rfl,
   (count_prepared_success_iff_row (stmt_reporting SQLITE_DONE)).2.2.2 (by decide)⟩

/-- C7: `cqlite_insert_query_execute` advances the insert statement exactly
once and returns `CQLITE_SUCCESS` if and only if that advance reports
completion (a row or any engine error gives `CQLITE_ERROR`); on success the
row-id output, when the caller supplied one, receives the connection's last
inserted row id (a null output stays null); on error it is left unchanged. -/
theorem insert_success_iff_done (db : sqlite3) (insert_query : sqlite3_stmt)
    (new_row_id_out : Option Int) :
    (cqlite_insert_query_execute db insert_query new_row_id_out).insert_query =
      after_steps insert_query 1 ∧
    ((cqlite_insert_query_execute db insert_query new_row_id_out).rcode = CQLITE_SUCCESS ↔
      (sqlite3_step insert_query).1 = SQLITE_DONE) ∧
    ((sqlite3_step insert_query).1 = SQLITE_DONE →
      (cqlite_insert_query_execute db insert_query new_row_id_out).new_row_id_out =
        new_row_id_out.map (fun _ => sqlite3_last_insert_rowid db)) ∧
    ((sqlite3_step insert_query).1 ≠ SQLITE_DONE →
      (cqlite_insert_query_execute db insert_query new_row_id_out).rcode = CQLITE_ERROR ∧
      (cqlite_insert_query_execute db insert_query new_row_id_out).new_row_id_out =
        new_row_id_out) := by
  by_cases h : (sqlite3_step insert_query).1 = SQLITE_DONE
  · rw [insert_done db insert_query new_row_id_out h]
    exact ⟨rfl, ⟨fun _ => h, fun _ => rfl⟩, fun _ => rfl, fun hc => absurd h hc⟩
  · rw [insert_not_done db insert_query new_row_id_out h]
    exact ⟨rfl, ⟨fun hc => (by cases hc), fun hc => absurd hc h⟩, fun hc => absurd hc h,
      fun _ => ⟨rfl, rfl⟩⟩

/-- C7, at concrete inputs: an insert that completes, with an output holding
-1 and with a null output, and an insert that reports a row. -/
theorem insert_success_iff_done_witness :
    (cqlite_insert_query_execute { last_insert_rowid := 42 } (stmt_reporting SQLITE_DONE)
      (some (-1))).new_row_id_out = some 42 ∧
    (cqlite_insert_query_execute { last_insert_rowid := 42 } (stmt_reporting SQLITE_DONE)
      none).new_row_id_out = none ∧
    (cqlite_insert_query_execute { last_insert_rowid := 42 } (count_stmt 1)
      (some (-1))).rcode = CQLITE_ERROR ∧
    (cqlite_insert_query_execute { last_insert_rowid := 42 } (count_stmt 1)
      (some (-1))).new_row_id_out = some (-1) :=
  ⟨(insert_success_iff_done { last_insert_rowid := 42 } (stmt_reporting SQLITE_DONE)
      (some (-1))).2.2.1 rfl,
   (insert_success_iff_done { last_insert_rowid := 42 } (stmt_reporting SQLITE_DONE)
      none).2.2.1 rfl,
   (insert_success_iff_done { last_insert_rowid := 42 } (count_stmt 1)
      (some (-1))).2.2.2 (by decide)⟩

/-- C8: `cqlite_find` advances the cursor once and sets the found flag to 1
if and only if that advance reports a row available, whatever the result
code.  When the advance reports completion the result is `CQLITE_SUCCESS`
with found = 0, the single-row callback is not invoked and the output model
is untouched; when it reports a row the callback is invoked once and the
result is `CQLITE_SUCCESS` exactly when it returns non-zero; for any other
outcome the result is `CQLITE_ERROR` with found = 0. -/
theorem find_found_iff_row {μ : Type} (query : sqlite3_stmt)
    (model_from_result_func : sqlite3_stmt → μ → Int × μ) (model_out : μ) :
    (cqlite_find query model_from_result_func model_out).query = after_steps query 1 ∧
    ((cqlite_find query model_from_result_func model_out).found_out = 1 ↔
      (sqlite3_step query).1 = SQLITE_ROW) ∧
    ((sqlite3_step query).1 = SQLITE_DONE →
      (cqlite_find query model_from_result_func model_out).rcode = CQLITE_SUCCESS ∧
      (cqlite_find query model_from_result_func model_out).found_out = 0 ∧
      (cqlite_find query model_from_result_func model_out).calls = [] ∧
      (cqlite_find query model_from_result_func model_out).model_out = model_out) ∧
    ((sqlite3_step query).1 = SQLITE_ROW →
      ((cqlite_find query model_from_result_func model_out).rcode = CQLITE_SUCCESS ↔
        (model_from_result_func (after_steps query 1) model_out).1 ≠ 0) ∧
      (cqlite_find query model_from_result_func model_out).calls = [after_steps query 1] ∧
      (cqlite_find query model_from_result_func model_out).model_out =
        (model_from_result_func (after_steps query 1) model_out).2) ∧
    ((sqlite3_step query).1 ≠ SQLITE_ROW → (sqlite3_step query).1 ≠ SQLITE_DONE →
      (cqlite_find query model_from_result_func model_out).rcode = CQLITE_ERROR ∧
      (cqlite_find query model_from_result_func model_out).found_out = 0 ∧
      (cqlite_find query model_from_result_func model_out).calls = [] ∧
      (cqlite_find query model_from_result_func model_out).model_out = model_out) := by
  by_cases hr : (sqlite3_step query).1 = SQLITE_ROW
  · have hd : (sqlite3_step query).1 ≠ SQLITE_DONE := by rw [hr]; decide
    rw [find_row query model_from_result_func model_out hr]
    refine ⟨rfl, ⟨fun _ => hr, fun _ => rfl⟩, fun hc => absurd hc hd, fun _ => ⟨?_, rfl, rfl⟩,
      fun hc => absurd hr hc⟩
    by_cases hs : (model_from_result_func (after_steps query 1) model_out).1 = 0
    · simp [hs]
    · simp [hs]
  · by_cases hd : (sqlite3_step query).1 = SQLITE_DONE
    · rw [find_done query model_from_result_func model_out hd]
      exact ⟨rfl, ⟨fun hc => (by cases hc), fun hc => absurd hc hr⟩,
        fun _ => ⟨rfl, rfl, rfl, rfl⟩, fun hc => absurd hc hr, fun _ hc => absurd hd hc⟩
    · rw [find_failed query model_from_result_func model_out hr hd]
      exact ⟨rfl, ⟨fun hc => (by cases hc), fun hc => absurd hc hr⟩,
        fun hc => absurd hc hd, fun hc => absurd hc hr, fun _ _ => ⟨rfl, rfl, rfl, rfl⟩⟩

/-- C8, at concrete inputs: a statement that completes without a row, one
that yields the row 5, and one that reports an engine error. -/
theorem find_found_iff_row_witness :
    ((cqlite_find (stmt_reporting SQLITE_DONE) example_from_row_result 9).rcode = CQLITE_SUCCESS ∧
      (cqlite_find (stmt_reporting SQLITE_DONE) example_from_row_result 9).found_out = 0 ∧
      (cqlite_find (stmt_reporting SQLITE_DONE) example_from_row_result 9).calls = [] ∧
      (cqlite_find (stmt_reporting SQLITE_DONE) example_from_row_result 9).model_out = 9) ∧
    (cqlite_find (count_stmt 5) example_from_row_result 9).found_out = 1 ∧
    (cqlite_find (count_stmt 5) example_from_row_result 9).model_out = 5 ∧
    ((cqlite_find (stmt_reporting SQLITE_ERROR) example_from_row_result 9).rcode = CQLITE_ERROR ∧
      (cqlite_find (stmt_reporting SQLITE_ERROR) example_from_row_result 9).found_out = 0 ∧
      (cqlite_find (stmt_reporting SQLITE_ERROR) example_from_row_result 9).calls = [] ∧
      (cqlite_find (stmt_reporting SQLITE_ERROR) example_from_row_result 9).model_out = 9) :=
  ⟨(find_found_iff_row (stmt_reporting SQLITE_DONE) example_from_row_result 9).2.2.1 rfl,
   (find_found_iff_row (count_stmt 5) example_from_row_result 9).2.1.mpr rfl,
   ((find_found_iff_row (count_stmt 5) example_from_row_result 9).2.2.2.1 rfl).2.2,
   (find_found_iff_row (stmt_reporting SQLITE_ERROR) example_from_row_result 9).2.2.2.2
     (by decide) (by decide)⟩

/-- C9, refuted as stated: a text column holding the three bytes 41 00 42
(hexadecimal).  The read returns `CQLITE_SUCCESS` with the string 41 00, which
is not the column text followed by a terminator: the bytes after the zero
byte are lost. -/
theorem dynamic_string_read_embedded_zero :
    sqlite3_column_type (stmt_on_row (text_row [65, 0, 66] 0)) 3 = SQLITE_TEXT ∧
    (text_row [65, 0, 66] 0).column_text 3 = [65, 0, 66] ∧
    (cqlite_dynamic_string_read true (stmt_on_row (text_row [65, 0, 66] 0)) 3).rcode =
      CQLITE_SUCCESS ∧
    (cqlite_dynamic_string_read true (stmt_on_row (text_row [65, 0, 66] 0)) 3).string_out =
      some [65, 0] ∧
    (cqlite_dynamic_string_read true (stmt_on_row (text_row [65, 0, 66] 0)) 3).string_out ≠
      some ([65, 0, 66] ++ [0]) :=
  ⟨rfl, rfl, rfl, rfl, by decide⟩

/-- C9, amended: `cqlite_dynamic_string_read`, for every column value.  If
the column type is text and the copy allocation succeeds it returns
`CQLITE_SUCCESS` with a fresh string that ends in a zero terminator and
holds, before it, the bytes of the column text up to, not including, its
first zero byte: the string is the column text followed by the terminator if
and only if the text has no zero byte.  If the column is NULL it returns
`CQLITE_SUCCESS` with a null string output.  For every other column type it
returns `CQLITE_ERROR` with the string output set to null. -/
theorem dynamic_string_read_contract (alloc_ok : Bool) (query : sqlite3_stmt) (column : Int) :
    (sqlite3_column_type query column = SQLITE_TEXT → alloc_ok = true →
      (cqlite_dynamic_string_read alloc_ok query column).rcode = CQLITE_SUCCESS ∧
      ∃ s r, (cqlite_dynamic_string_read alloc_ok query column).string_out = some s ∧
        current_row query = some r ∧
        s.getLast? = some 0 ∧
        s = c_str (r.column_text column) ++ [0] ∧
        (s = r.column_text column ++ [0] ↔ ∀ b ∈ r.column_text column, b ≠ 0) ∧
        c_str s = c_str (sqlite3_column_text query column)) ∧
    (sqlite3_column_type query column = SQLITE_NULL →
      (cqlite_dynamic_string_read alloc_ok query column).rcode = CQLITE_SUCCESS ∧
      (cqlite_dynamic_string_read alloc_ok query column).string_out = none) ∧
    (sqlite3_column_type query column ≠ SQLITE_TEXT →
      sqlite3_column_type query column ≠ SQLITE_NULL →
      (cqlite_dynamic_string_read alloc_ok query column).rcode = CQLITE_ERROR ∧
      (cqlite_dynamic_string_read alloc_ok query column).string_out = none) := by
  refine ⟨fun ht hok => ?_, fun hn => ?_, fun ht hn => ?_⟩
  · obtain ⟨r, hr, _⟩ := text_column_row query column ht
    have htext : sqlite3_column_text query column = r.column_text column ++ [0] := by
      simp only [sqlite3_column_text, hr]
    rw [dynamic_read_text alloc_ok query column ht, hok, htext, c_str_append_terminator]
    refine ⟨rfl, _, r, rfl, hr, by simp, rfl, ?_, ?_⟩
    · rw [← c_str_eq_self_iff]
      exact ⟨fun h => List.append_cancel_right h, fun h => by rw [h]⟩
    · exact c_str_append_zero _ (c_str_no_zero _)
  · have ht : sqlite3_column_type query column ≠ SQLITE_TEXT := by rw [hn]; decide
    rw [dynamic_read_other alloc_ok query column ht, if_pos hn]
    exact ⟨rfl, rfl⟩
  · rw [dynamic_read_other alloc_ok query column ht, if_neg hn]
    exact ⟨rfl, rfl⟩

/-- C9 amended, at concrete inputs: a text column "Hi", a NULL column and an
integer column. -/
theorem dynamic_string_read_contract_witness :
    (cqlite_dynamic_string_read true (stmt_on_row (text_row [72, 105] 0)) 3).rcode =
      CQLITE_SUCCESS ∧
    (cqlite_dynamic_string_read true (stmt_on_row (text_row [72, 105] 0)) 3).string_out =
      some [72, 105, 0] ∧
    ((cqlite_dynamic_string_read true (stmt_on_row null_row) 3).rcode = CQLITE_SUCCESS ∧
      (cqlite_dynamic_string_read true (stmt_on_row null_row) 3).string_out = none) ∧
    ((cqlite_dynamic_string_read true (stmt_on_row (int_row 7)) 3).rcode = CQLITE_ERROR ∧
      (cqlite_dynamic_string_read true (stmt_on_row (int_row 7)) 3).string_out = none) := by
  obtain ⟨h1, s, r, h2, hr, _, h3, _⟩ :=
    (dynamic_string_read_contract true (stmt_on_row (text_row [72, 105] 0)) 3).1 rfl rfl
  refine ⟨h1, ?_,
    (dynamic_string_read_contract true (stmt_on_row null_row) 3).2.1 rfl,
    (dynamic_string_read_contract true (stmt_on_row (int_row 7)) 3).2.2 (by decide) (by decide)⟩
  have hr2 : r = text_row [72, 105] 0 := (Option.some.inj hr).symm
  rw [h2, h3, hr2]
  rfl

/-- C10, refuted as stated: a text column holding the three bytes 41 00 42
(hexadecimal), so of length L = 3, read into a buffer of capacity 2.  The
read returns `CQLITE_SUCCESS` although L ≥ 2, and the buffer holds 41 00, not
the three text bytes. -/
theorem fixed_length_string_read_embedded_zero :
    sqlite3_column_type (stmt_on_row (text_row [65, 0, 66] 0)) 4 = SQLITE_TEXT ∧
    ((text_row [65, 0, 66] 0).column_text 4).length = 3 ∧
    (cqlite_fixed_length_string_read (stmt_on_row (text_row [65, 0, 66] 0)) 4
      [9, 9] 2).rcode = CQLITE_SUCCESS ∧
    (cqlite_fixed_length_string_read (stmt_on_row (text_row [65, 0, 66] 0)) 4
      [9, 9] 2).rcode ≠ CQLITE_ERROR ∧
    (cqlite_fixed_length_string_read (stmt_on_row (text_row [65, 0, 66] 0)) 4
      [9, 9] 2).string = [65, 0] :=
  ⟨rfl, rfl, rfl, by decide, rfl⟩

/-- C10, amended: `cqlite_fixed_length_string_read`, for every column value
and buffer capacity c.  For a text column, let L be the length of the text up
to, not including, its first zero byte (the length of the text itself if and
only if it has no zero byte); when L fits a C `int`, as every text the engine
stores does, the read returns `CQLITE_SUCCESS` if and only if L < c, and the
buffer then starts with those L bytes followed by a zero terminator; with
L ≥ c it returns `CQLITE_ERROR`.  For a NULL column it returns
`CQLITE_SUCCESS` with all c bytes of the buffer zero.  For every other column
type it returns `CQLITE_ERROR`. -/
theorem fixed_length_string_read_contract (query : sqlite3_stmt) (column : Int)
    (string : List Nat) (string_size : Nat) :
    (sqlite3_column_type query column = SQLITE_TEXT →
      ∃ r, current_row query = some r ∧
        strlen (sqlite3_column_text query column) = strlen (r.column_text column) ∧
        (strlen (r.column_text column) = (r.column_text column).length ↔
          ∀ b ∈ r.column_text column, b ≠ 0) ∧
        ((strlen (r.column_text column) : Int) ≤ INT_MAX →
          ((cqlite_fixed_length_string_read query column string string_size).rcode =
              CQLITE_SUCCESS ↔ strlen (r.column_text column) < string_size) ∧
          (strlen (r.column_text column) < string_size →
            (cqlite_fixed_length_string_read query column string string_size).string.take
                (strlen (r.column_text column) + 1) =
              c_str (r.column_text column) ++ [0]) ∧
          (string_size ≤ strlen (r.column_text column) →
            (cqlite_fixed_length_string_read query column string string_size).rcode =
              CQLITE_ERROR))) ∧
    (sqlite3_column_type query column = SQLITE_NULL →
      (cqlite_fixed_length_string_read query column string string_size).rcode = CQLITE_SUCCESS ∧
      (cqlite_fixed_length_string_read query column string string_size).string.take string_size =
        List.replicate string_size 0) ∧
    (sqlite3_column_type query column ≠ SQLITE_TEXT →
      sqlite3_column_type query column ≠ SQLITE_NULL →
      (cqlite_fixed_length_string_read query column string string_size).rcode = CQLITE_ERROR) := by
  refine ⟨fun ht => ?_, fun hn => ?_, fun ht hn => ?_⟩
  · obtain ⟨r, hr, _⟩ := text_column_row query column ht
    have htext : sqlite3_column_text query column = r.column_text column ++ [0] := by
      simp only [sqlite3_column_text, hr]
    have hlen : strlen (sqlite3_column_text query column) = strlen (r.column_text column) := by
      unfold strlen; rw [htext, c_str_append_terminator]
    have hcs : c_str (sqlite3_column_text query column) = c_str (r.column_text column) := by
      rw [htext, c_str_append_terminator]
    refine ⟨r, hr, hlen, ?_, fun hL => ?_⟩
    · rw [← c_str_eq_self_iff]
      unfold strlen c_str
      constructor
      · intro h
        exact (List.takeWhile_sublist (fun b => b != 0)).eq_of_length h
      · intro h; rw [h]
    · rw [fixed_read_text query column string string_size ht (by rw [hlen]; exact hL), hlen]
      refine ⟨?_, fun hc => ?_, fun hc => ?_⟩
      · by_cases hc : strlen (r.column_text column) < string_size
        · simp [hc]
        · simp [hc]
      · have := snprintf_s_fits string string_size (sqlite3_column_text query column)
          (by rw [hlen]; exact hc)
        rw [hlen, hcs] at this
        exact this
      · have : ¬ strlen (r.column_text column) < string_size := by omega
        simp [this]
  · have ht : sqlite3_column_type query column ≠ SQLITE_TEXT := by rw [hn]; decide
    rw [fixed_read_other query column string string_size ht]
    refine ⟨by simp [hn], ?_⟩
    simp only [if_pos hn]
    exact memset_zero_take _ _
  · rw [fixed_read_other query column string string_size ht]
    simp only [if_neg hn]

/-- C10 amended, at concrete inputs, with a 4-byte buffer: the text "ABC"
fits, the text "ABCD" does not, a NULL column zero-fills, an integer column
fails. -/
theorem fixed_length_string_read_contract_witness :
    (cqlite_fixed_length_string_read (stmt_on_row (text_row [65, 66, 67] 0)) 4
      [9, 9, 9, 9] 4).rcode = CQLITE_SUCCESS ∧
    (cqlite_fixed_length_string_read (stmt_on_row (text_row [65, 66, 67] 0)) 4
      [9, 9, 9, 9] 4).string = [65, 66, 67, 0] ∧
    (cqlite_fixed_length_string_read (stmt_on_row (text_row [65, 66, 67, 68] 0)) 4
      [9, 9, 9, 9] 4).rcode = CQLITE_ERROR ∧
    (cqlite_fixed_length_string_read (stmt_on_row null_row) 4 [9, 9, 9, 9] 4).string =
      [0, 0, 0, 0] ∧
    (cqlite_fixed_length_string_read (stmt_on_row (int_row 7)) 4 [9, 9, 9, 9] 4).rcode =
      CQLITE_ERROR := by
  obtain ⟨r, hr, _, _, h⟩ := (fixed_length_string_read_contract
    (stmt_on_row (text_row [65, 66, 67] 0)) 4 [9, 9, 9, 9] 4).1 rfl
  obtain ⟨r2, hr2, _, _, h2⟩ := (fixed_length_string_read_contract
    (stmt_on_row (text_row [65, 66, 67, 68] 0)) 4 [9, 9, 9, 9] 4).1 rfl
  have e : r = text_row [65, 66, 67] 0 := (Option.some.inj hr).symm
  have e2 : r2 = text_row [65, 66, 67, 68] 0 := (Option.some.inj hr2).symm
  subst e
  subst e2
  exact ⟨(h (by decide)).1.mpr (by decide), (h (by decide)).2.1 (by decide),
    (h2 (by decide)).2.2 (by decide),
    ((fixed_length_string_read_contract (stmt_on_row null_row) 4 [9, 9, 9, 9] 4).2.1 rfl).2,
    (fixed_length_string_read_contract (stmt_on_row (int_row 7)) 4 [9, 9, 9, 9] 4).2.2
      (by decide) (by decide)⟩

/-! ## Auxiliary lemmas for the raw-text entry points, the row loop and the
test model -/

/-- When the loop condition is false on entry, the outputs are computed from
the entry locals. -/
theorem select_no_iteration {μ : Type} [Zero μ] (alloc_ok : Bool)
    (select_query count_query : sqlite3_stmt) (cb : cqlite_model_add_to_list_func_t μ)
    (model_size : Nat)
    (h : ¬ ((select_entry alloc_ok select_query
        (cqlite_count_query_execute_prepared count_query) model_size :
          SelectLocals μ × List (Nat × Nat)).1.success ≠ 0 ∧
      SQLITE_ROW = (select_entry alloc_ok select_query
        (cqlite_count_query_execute_prepared count_query) model_size :
          SelectLocals μ × List (Nat × Nat)).1.sqlite_rcode)) :
    cqlite_select_query_execute_prepared alloc_ok select_query count_query cb model_size =
      some (select_outputs (cqlite_count_query_execute_prepared count_query).count_out
        (cqlite_count_query_execute_prepared count_query).count_query
        (select_entry alloc_ok select_query
          (cqlite_count_query_execute_prepared count_query) model_size :
            SelectLocals μ × List (Nat × Nat)).2
        (select_entry alloc_ok select_query
          (cqlite_count_query_execute_prepared count_query) model_size).1) := by
  unfold cqlite_select_query_execute_prepared
  simp only [select_loop_exit cb _ _ _ h, Option.map_some']

/-- More fuel does not change what the loop returns. -/
theorem select_loop_more_fuel {μ : Type} (cb : cqlite_model_add_to_list_func_t μ) (N : Int) :
    ∀ (fuel : Nat) (s s1 : SelectLocals μ), select_loop cb N fuel s = some s1 →
      select_loop cb N (fuel + 1) s = some s1 := by
  intro fuel
  induction fuel with
  | zero =>
    intro s s1 h
    by_cases hg : s.success ≠ 0 ∧ SQLITE_ROW = s.sqlite_rcode
    · simp [select_loop, hg] at h
    · rw [select_loop_exit cb N 0 s hg] at h
      rw [select_loop_exit cb N 1 s hg]
      exact h
  | succ k ih =>
    intro s s1 h
    by_cases hg : s.success ≠ 0 ∧ SQLITE_ROW = s.sqlite_rcode
    · by_cases hi : s.model_idx ≥ N
      · simp only [select_loop, if_pos hg, if_pos hi] at h
        have := ih _ _ h
        rw [select_loop.eq_2]
        simp only [if_pos hg, if_pos hi]
        exact this
      · simp only [select_loop, if_pos hg, if_neg hi] at h
        have := ih _ _ h
        rw [select_loop.eq_2]
        simp only [if_pos hg, if_neg hi]
        exact this
    · rw [select_loop_exit cb N (k + 1) s hg] at h
      rw [select_loop_exit cb N (k + 1 + 1) s hg]
      exact h

/-- Any fuel from a sufficient one on gives what the sufficient one gives. -/
theorem select_loop_fuel_le {μ : Type} (cb : cqlite_model_add_to_list_func_t μ) (N : Int)
    (fuel : Nat) (s s1 : SelectLocals μ) (h : select_loop cb N fuel s = some s1) :
    ∀ more : Nat, select_loop cb N (fuel + more) s = some s1 := by
  intro more
  induction more with
  | zero => exact h
  | succ m ih => exact select_loop_more_fuel cb N (fuel + m) s s1 ih

/-- The count operation steps its statement once. -/
theorem count_prepared_steps_once (q : sqlite3_stmt) :
    (cqlite_count_query_execute_prepared q).count_query = after_steps q 1 := by
  by_cases h : (sqlite3_step q).1 = SQLITE_ROW
  · rw [count_prepared_row q h]
  · rw [count_prepared_no_row q h]

/-- On entry to the row loop the select statement has been stepped at most
once, no row has been converted and the callback has not been invoked. -/
theorem select_entry_locals {μ : Type} [Zero μ] (alloc_ok : Bool) (sq : sqlite3_stmt)
    (counted : CountResult) (size : Nat) :
    ((select_entry alloc_ok sq counted size : SelectLocals μ × List (Nat × Nat)).1.select_query
        = sq ∨
      (select_entry alloc_ok sq counted size : SelectLocals μ × List (Nat × Nat)).1.select_query
        = after_steps sq 1) ∧
    (select_entry alloc_ok sq counted size : SelectLocals μ × List (Nat × Nat)).1.model_idx = 0 ∧
    (select_entry alloc_ok sq counted size : SelectLocals μ × List (Nat × Nat)).1.calls = [] := by
  refine ⟨?_, rfl, rfl⟩
  have key : ∀ (c : Prop) [Decidable c],
      (if c then sqlite3_step sq else (SQLITE_ERROR, sq)).2 = sq ∨
      (if c then sqlite3_step sq else (SQLITE_ERROR, sq)).2 = after_steps sq 1 := by
    intro c _
    by_cases hc : c
    · right; rw [if_pos hc]; rfl
    · left; rw [if_neg hc]
  exact key _

/-- Steps prepare nothing. -/
theorem prepared_stmts_step_calls (h : Option Nat) (a b : sqlite3_stmt) :
    prepared_stmts (step_calls h a b) = [] := by
  simp [prepared_stmts, step_calls, List.filterMap_replicate]

/-- Steps release nothing. -/
theorem released_stmts_step_calls (h : Option Nat) (a b : sqlite3_stmt) :
    released_stmts (step_calls h a b) = [] := by
  simp [released_stmts, step_calls, List.filterMap_replicate]

/-- The statements prepared by two traces in sequence. -/
theorem prepared_stmts_append (s t : List EngineCall) :
    prepared_stmts (s ++ t) = prepared_stmts s ++ prepared_stmts t := by
  simp [prepared_stmts, List.filterMap_append]

/-- The statements released by two traces in sequence. -/
theorem released_stmts_append (s t : List EngineCall) :
    released_stmts (s ++ t) = released_stmts s ++ released_stmts t := by
  simp [released_stmts, List.filterMap_append]

/-- Every call among the steps of a statement is a step. -/
theorem step_calls_are_steps (h : Option Nat) (a b : sqlite3_stmt) :
    ∀ c, c ∈ step_calls h a b → c = EngineCall.step h := by
  intro c hc
  exact List.eq_of_mem_replicate hc

/-- A statement name given to a prepared statement: nothing or the name. -/
theorem stmt_name_cases (p : Option sqlite3_stmt) (k : Nat) :
    p.map (fun _ => k) = none ∨ p.map (fun _ => k) = some k := by
  cases p
  · left; rfl
  · right; rfl

/-- The C string at the start of memory that holds `t`, a terminator and
anything after it is `t`, when `t` has no zero byte. -/
theorem c_str_terminated (t rest : List Nat) (h : ∀ b ∈ t, b ≠ 0) :
    c_str (t ++ [0] ++ rest) = t := by
  unfold c_str
  induction t with
  | nil => simp
  | cons a t ih =>
    have ha : a ≠ 0 := h a (by simp)
    have ht : ∀ b ∈ t, b ≠ 0 := fun b hb => h b (by simp [hb])
    have := ih ht
    simp only [List.cons_append, List.takeWhile_cons]
    simp [ha]
    simpa using this

/-- A double that is not a NaN compares equal to itself. -/
theorem double_eq_self (a : Nat) (h : double_is_nan a = false) : double_eq a a = true := by
  simp [double_eq, h]

/-- Reading the stored row of a model back into a model. -/
theorem from_row_result_stored (acc : sqlite3_wide_columns) (q : sqlite3_stmt) (r : Row)
    (m x : test_model_t) (hcur : current_row q = some r) (hst : stored_row acc r m)
    (hfix : strlen m.fixed_string_field < 4) :
    test_model_from_row_result acc true q x =
      (1, { id := m.id, real_field := m.real_field, int_field := m.int_field,
            dynamic_string_field := m.dynamic_string_field.map (fun s => c_str s ++ [0]),
            fixed_string_field := c_str m.fixed_string_field ++ [0] ++
              (List.replicate 4 0).drop (strlen m.fixed_string_field + 1) }) := by
  obtain ⟨h1, h2, h3, h4, h5, h6⟩ := hst
  have ht4 : sqlite3_column_type q 4 = SQLITE_TEXT := by
    simp only [sqlite3_column_type, hcur]; exact h5
  have htext4 : sqlite3_column_text q 4 = c_str m.fixed_string_field ++ [0] := by
    simp only [sqlite3_column_text, hcur]; rw [h6]
  have hcs : c_str (c_str m.fixed_string_field ++ [0]) = c_str m.fixed_string_field :=
    c_str_append_zero _ (c_str_no_zero _)
  have hlen4 : strlen (sqlite3_column_text q 4) = strlen m.fixed_string_field := by
    rw [htext4]; unfold strlen; rw [hcs]
  have hfixed := fixed_read_text q 4 (List.replicate 4 0) 4 ht4 (by rw [hlen4]; simp; omega)
  rw [hlen4, if_pos hfix] at hfixed
  have hsn : (snprintf_s (List.replicate 4 0) 4 (sqlite3_column_text q 4)).2 =
      c_str m.fixed_string_field ++ [0] ++
        (List.replicate 4 0).drop (strlen m.fixed_string_field + 1) := by
    have htake : (c_str m.fixed_string_field).take 3 = c_str m.fixed_string_field := by
      apply List.take_of_length_le
      unfold strlen at hfix
      omega
    simp only [snprintf_s, htext4, hcs]
    simp only [Nat.reduceSub, htake]
    simp [strlen]
  rw [hsn] at hfixed
  have hdyn : cqlite_dynamic_string_read true q 3 =
      { rcode := CQLITE_SUCCESS,
        string_out := m.dynamic_string_field.map (fun s => c_str s ++ [0]) } := by
    cases hd : m.dynamic_string_field with
    | none =>
      rw [hd] at h4
      have ht3 : sqlite3_column_type q 3 = SQLITE_NULL := by
        simp only [sqlite3_column_type, hcur]; exact h4
      rw [dynamic_read_other true q 3 (by rw [ht3]; decide), if_pos ht3]
      rfl
    | some s =>
      rw [hd] at h4
      have ht3 : sqlite3_column_type q 3 = SQLITE_TEXT := by
        simp only [sqlite3_column_type, hcur]; exact h4.1
      rw [dynamic_read_text true q 3 ht3]
      simp only [sqlite3_column_text, hcur, if_true, Option.map_some']
      rw [h4.2, c_str_append_zero _ (c_str_no_zero _)]
  simp only [test_model_from_row_result, hdyn, hfixed, test_model_init, if_true,
    sqlite3_column_int64, sqlite3_column_double, sqlite3_column_int, hcur, h1, h2, h3]

/-- A successful insert of a new model sets its id to the row id the
connection reports and leaves the other fields as they were. -/
theorem insert_new_sets_id (db : sqlite3_conn) (m : test_model_t)
    (h : (test_model_insert_new db m).success ≠ 0) :
    (test_model_insert_new db m).model =
      { m with id := sqlite3_last_insert_rowid db.tosqlite3 } := by
  unfold test_model_insert_new at h ⊢
  by_cases hp : (test_model_insert_query_prepare db m
      insert_mode_t.INSERT_MODE_NEW_RECORD).success ≠ 0
  · simp only [if_pos hp] at h ⊢
    by_cases hd : (sqlite3_step (stmt_or_null (test_model_insert_query_prepare db m
        insert_mode_t.INSERT_MODE_NEW_RECORD).query_out)).1 = SQLITE_DONE
    · rw [insert_done _ _ _ hd]
      rfl
    · rw [insert_not_done _ _ _ hd] at h
      simp at h
  · simp only [if_neg hp] at h
    exact absurd rfl h

/-- A chain of binds that is true after an operand was true before it, and
the operand's bind call was made and accepted. -/
theorem bind_when_ok_true (db : sqlite3_conn) (name : Option Nat)
    (st : Bool × Option sqlite3_stmt × List EngineCall) (index : Int) (value : BindValue)
    (h : (bind_when_ok db name st index value).1 = true) :
    st.1 = true ∧
    (bind_when_ok db name st index value).2.2 =
      st.2.2 ++ [EngineCall.bind name index value SQLITE_OK] := by
  unfold bind_when_ok at h ⊢
  by_cases hs : st.1 = true
  · simp only [if_pos hs] at h ⊢
    have hrc : SQLITE_OK = (sqlite3_bind_value db st.2.1 index value).1 := by
      simpa using h
    exact ⟨hs, by rw [← hrc]⟩
  · simp only [if_neg hs] at h
    exact absurd h hs

/-- The engine calls of a successful `test_model_insert_query_prepare` for a
new record: the preparation and the four binds, each accepted, of the
model's double, integer and two texts to the parameters 2 to 5. -/
theorem insert_query_prepare_calls (db : sqlite3_conn) (m : test_model_t)
    (h : (test_model_insert_query_prepare db m insert_mode_t.INSERT_MODE_NEW_RECORD).success
      ≠ 0) :
    ∃ name, (test_model_insert_query_prepare db m
        insert_mode_t.INSERT_MODE_NEW_RECORD).engine_calls =
      [EngineCall.prepare TEST_TABLE_INSERT SQLITE_OK name,
       EngineCall.bind name 2 (BindValue.double m.real_field) SQLITE_OK,
       EngineCall.bind name 3 (BindValue.int m.int_field) SQLITE_OK,
       EngineCall.bind name 4 (BindValue.text (m.dynamic_string_field.map c_str)) SQLITE_OK,
       EngineCall.bind name 5 (BindValue.text (some (c_str m.fixed_string_field)))
         SQLITE_OK] := by
  unfold test_model_insert_query_prepare at h ⊢
  simp only [reduceCtorEq, if_false] at h ⊢
  split_ifs at h ⊢ with h5
  · obtain ⟨h4, e4⟩ := bind_when_ok_true _ _ _ _ _ h5
    obtain ⟨h3, e3⟩ := bind_when_ok_true _ _ _ _ _ h4
    obtain ⟨h2, e2⟩ := bind_when_ok_true _ _ _ _ _ h3
    obtain ⟨h1, e1⟩ := bind_when_ok_true _ _ _ _ _ h2
    have h0 : SQLITE_OK = (sqlite3_prepare_v2 db TEST_TABLE_INSERT).1 := by simpa using h1
    refine ⟨(sqlite3_prepare_v2 db TEST_TABLE_INSERT).2.map (fun _ => 0), ?_⟩
    rw [e4, e3, e2, e1, ← h0]
    rfl
  · exact absurd rfl h

/-- The steps and the release that follow the binds leave the bound values
as they are. -/
theorem bound_value_steps_finalize (t : List EngineCall) (name rel : Option Nat)
    (a b : sqlite3_stmt) (index : Int) :
    bound_value (t ++ step_calls name a b ++ [EngineCall.finalize rel]) index =
      bound_value t index := by
  simp [bound_value, List.filterMap_append, step_calls, List.filterMap_replicate]

/-- A successful `test_model_insert_new` leaves the model's double, integer
and two texts bound to the parameters 2 to 5 of the insert statement, and the
id parameter unbound. -/
theorem insert_new_bound (db : sqlite3_conn) (m : test_model_t)
    (h : (test_model_insert_new db m).success ≠ 0) :
    bound_value (test_model_insert_new db m).engine_calls (TEST_TABLE_ID_COL + 1) = none ∧
    bound_value (test_model_insert_new db m).engine_calls (TEST_TABLE_REAL_FIELD_COL + 1) =
      some (BindValue.double m.real_field) ∧
    bound_value (test_model_insert_new db m).engine_calls (TEST_TABLE_INT_FIELD_COL + 1) =
      some (BindValue.int m.int_field) ∧
    bound_value (test_model_insert_new db m).engine_calls
        (TEST_TABLE_DYNAMIC_STRING_FIELD_COL + 1) =
      some (BindValue.text (m.dynamic_string_field.map c_str)) ∧
    bound_value (test_model_insert_new db m).engine_calls
        (TEST_TABLE_FIXED_STRING_FIELD_COL + 1) =
      some (BindValue.text (some (c_str m.fixed_string_field))) := by
  unfold test_model_insert_new at h ⊢
  by_cases hp : (test_model_insert_query_prepare db m
      insert_mode_t.INSERT_MODE_NEW_RECORD).success ≠ 0
  · obtain ⟨name, hcalls⟩ := insert_query_prepare_calls db m hp
    simp only [if_pos hp, insert_engine_calls, bound_value_steps_finalize, hcalls]
    exact ⟨rfl, rfl, rfl, rfl, rfl⟩
  · simp only [if_neg hp] at h
    exact absurd rfl h

/-- The row an insert of a new model stores, seen through what the engine
calls bound, is the stored row of the model with the generated id. -/
theorem insert_new_stored_row (acc : sqlite3_wide_columns) (db : sqlite3_conn)
    (m : test_model_t) (r : Row)
    (h : (test_model_insert_new db m).success ≠ 0)
    (hst : row_stores_bound acc r (sqlite3_last_insert_rowid db.tosqlite3)
      (test_model_insert_new db m).engine_calls) :
    stored_row acc r (test_model_insert_new db m).model := by
  obtain ⟨b1, b2, b3, b4, b5⟩ := insert_new_bound db m h
  rw [insert_new_sets_id db m h]
  unfold row_stores_bound at hst
  rw [b1, b2, b3, b4, b5] at hst
  obtain ⟨h1, h2, h3, h4, h5⟩ := hst
  refine ⟨h1, h2, h3, ?_, h5.1, h5.2⟩
  cases hd : m.dynamic_string_field with
  | none => rw [hd] at h4; exact h4
  | some s => rw [hd] at h4; exact h4


/-- The model read back from the stored row of a model whose double is not a
NaN is judged equal to it. -/
theorem read_back_model_equal (m : test_model_t) (hreal : double_is_nan m.real_field = false) :
    test_models_are_equal m
      { id := m.id, real_field := m.real_field, int_field := m.int_field,
        dynamic_string_field := m.dynamic_string_field.map (fun s => c_str s ++ [0]),
        fixed_string_field := c_str m.fixed_string_field ++ [0] ++
          (List.replicate 4 0).drop (strlen m.fixed_string_field + 1) } = 1 := by
  have hfix : c_str (c_str m.fixed_string_field ++ [0] ++
      (List.replicate 4 0).drop (strlen m.fixed_string_field + 1)) =
      c_str m.fixed_string_field := c_str_terminated _ _ (c_str_no_zero _)
  unfold test_models_are_equal
  simp only [hfix, double_eq_self _ hreal]
  cases hd : m.dynamic_string_field with
  | none => simp
  | some s =>
    simp [c_str_append_zero _ (c_str_no_zero s)]

/-! ## Properties of the raw-text entry points, of the failure paths and of
the test model -/

/-- C11: when statement preparation fails in a raw-text entry point the
failure is surfaced at once, with no partial state.  `cqlite_select_query_execute`
returns `CQLITE_ERROR` with a null buffer and row count 0 if the SELECT or
the COUNT text fails to prepare, `cqlite_count_query_execute` returns
`CQLITE_ERROR` with count 0, and `cqlite_find_by_id` returns `CQLITE_ERROR`
with found = 0 and the model untouched; in each case no statement is stepped,
nothing is allocated and no conversion callback is invoked. -/
theorem prepare_failure_surfaced {μ ν : Type} [Zero μ] (alloc_ok : Bool) (db : sqlite3_conn)
    (select_query_str count_query_str find_by_id_query : String) (id : Int)
    (add_to_list_func : cqlite_model_add_to_list_func_t μ) (model_size : Nat)
    (model_from_result_func : sqlite3_stmt → ν → Int × ν) (model_out : ν) :
    (((sqlite3_prepare_v2 db select_query_str).1 ≠ SQLITE_OK ∨
        (sqlite3_prepare_v2 db count_query_str).1 ≠ SQLITE_OK) →
      ∃ r, cqlite_select_query_execute alloc_ok db select_query_str count_query_str
          add_to_list_func model_size = some r ∧
        r.rcode = CQLITE_ERROR ∧ r.model_list_out = none ∧ r.model_list_cnt_out = 0 ∧
        r.calls = [] ∧ r.allocations = [] ∧ ∀ c, c ∈ r.engine_calls → is_step c = false) ∧
    ((sqlite3_prepare_v2 db count_query_str).1 ≠ SQLITE_OK →
      (cqlite_count_query_execute db count_query_str).rcode = CQLITE_ERROR ∧
      (cqlite_count_query_execute db count_query_str).count_out = 0 ∧
      ∀ c, c ∈ (cqlite_count_query_execute db count_query_str).engine_calls →
        is_step c = false) ∧
    ((sqlite3_prepare_v2 db find_by_id_query).1 ≠ SQLITE_OK →
      (cqlite_find_by_id db find_by_id_query id model_from_result_func model_out).rcode =
        CQLITE_ERROR ∧
      (cqlite_find_by_id db find_by_id_query id model_from_result_func model_out).found_out =
        0 ∧
      (cqlite_find_by_id db find_by_id_query id model_from_result_func model_out).calls = [] ∧
      (cqlite_find_by_id db find_by_id_query id model_from_result_func model_out).model_out =
        model_out ∧
      ∀ c, c ∈ (cqlite_find_by_id db find_by_id_query id model_from_result_func
          model_out).engine_calls → is_step c = false) := by
  refine ⟨fun h => ?_, fun h => ?_, fun h => ?_⟩
  · by_cases hs : SQLITE_OK = (sqlite3_prepare_v2 db select_query_str).1
    · have hcnt : ¬ (SQLITE_OK = (sqlite3_prepare_v2 db count_query_str).1) := by
        rcases h with h | h
        · exact absurd hs.symm h
        · exact fun e => h e.symm
      simp only [cqlite_select_query_execute, if_pos hs, if_neg hcnt]
      refine ⟨_, rfl, rfl, rfl, rfl, rfl, rfl, ?_⟩
      intro c hc
      simp only [List.mem_cons, List.mem_singleton, List.not_mem_nil, or_false] at hc
      rcases hc with rfl | rfl | rfl | rfl <;> rfl
    · simp only [cqlite_select_query_execute, if_neg hs]
      refine ⟨_, rfl, rfl, rfl, rfl, rfl, rfl, ?_⟩
      intro c hc
      simp only [List.mem_cons, List.mem_singleton, List.not_mem_nil, or_false] at hc
      rcases hc with rfl | rfl | rfl <;> rfl
  · have hs : ¬ (SQLITE_OK = (sqlite3_prepare_v2 db count_query_str).1) := fun e => h e.symm
    simp only [cqlite_count_query_execute, if_neg hs]
    refine ⟨trivial, trivial, ?_⟩
    intro c hc
    simp only [List.mem_cons, List.mem_singleton, List.not_mem_nil, or_false] at hc
    rcases hc with rfl | rfl <;> rfl
  · have hs : ¬ (SQLITE_OK = (sqlite3_prepare_v2 db find_by_id_query).1) := fun e => h e.symm
    simp only [cqlite_find_by_id, if_neg hs]
    refine ⟨trivial, trivial, trivial, trivial, ?_⟩
    intro c hc
    simp only [List.mem_cons, List.mem_singleton, List.not_mem_nil, or_false] at hc
    rcases hc with rfl | rfl <;> rfl

/-- C11, at a concrete input: on the test connection the text "x" cannot be
prepared; the select-by-id text can. -/
theorem prepare_failure_surfaced_witness :
    (∃ r, cqlite_select_query_execute true (test_db hello_model) TEST_TABLE_SELECT_BY_ID "x"
        example_add_to_list 8 = some r ∧
      r.rcode = CQLITE_ERROR ∧ r.model_list_out = none ∧ r.model_list_cnt_out = 0 ∧
      r.calls = []) ∧
    (cqlite_count_query_execute (test_db hello_model) "x").rcode = CQLITE_ERROR ∧
    (cqlite_count_query_execute (test_db hello_model) "x").count_out = 0 ∧
    (cqlite_find_by_id (test_db hello_model) "x" 1 example_from_row_result 9).rcode =
      CQLITE_ERROR ∧
    (cqlite_find_by_id (test_db hello_model) "x" 1 example_from_row_result 9).found_out = 0 := by
  have h := prepare_failure_surfaced true (test_db hello_model) TEST_TABLE_SELECT_BY_ID "x" "x" 1
    example_add_to_list 8 example_from_row_result 9
  obtain ⟨r, h1, h2, h3, h4, h5, _⟩ := h.1 (Or.inr (by decide))
  obtain ⟨h6, h7, _⟩ := h.2.1 (by decide)
  obtain ⟨h8, h9, _⟩ := h.2.2 (by decide)
  exact ⟨⟨r, h1, h2, h3, h4, h5⟩, h6, h7, h8, h9⟩

/-- C12: statement ownership, over the recorded engine calls.  On every exit
path each raw-text entry point (`cqlite_count_query_execute`,
`cqlite_select_query_execute`, `cqlite_find_by_id`) releases exactly the
statements it prepared, each once: the released statements are the prepared
ones, in order and without repetition, the prepared ones being those for
which the engine handed out a statement.  The prepared-statement entry points
(`cqlite_count_query_execute_prepared`, `cqlite_insert_query_execute`,
`cqlite_find`, `cqlite_select_query_execute_prepared`) only step the
statements they are given: they release none. -/
theorem statements_released_once {μ ν : Type} [Zero μ] (alloc_ok : Bool) (db : sqlite3_conn)
    (select_query_str count_query_str find_by_id_query : String) (id : Int)
    (add_to_list_func : cqlite_model_add_to_list_func_t μ) (model_size : Nat)
    (model_from_result_func : sqlite3_stmt → ν → Int × ν) (model_out : ν)
    (name other : Option Nat) (query other_query : sqlite3_stmt) (conn : sqlite3)
    (new_row_id_out : Option Int) (outputs : SelectResult μ) :
    (released_stmts (cqlite_count_query_execute db count_query_str).engine_calls =
        prepared_stmts (cqlite_count_query_execute db count_query_str).engine_calls ∧
      (prepared_stmts (cqlite_count_query_execute db count_query_str).engine_calls).Nodup ∧
      prepared_stmts (cqlite_count_query_execute db count_query_str).engine_calls =
        ((sqlite3_prepare_v2 db count_query_str).2.map (fun _ => 0)).toList) ∧
    (∃ r, cqlite_select_query_execute alloc_ok db select_query_str count_query_str
        add_to_list_func model_size = some r ∧
      released_stmts r.engine_calls = prepared_stmts r.engine_calls ∧
      (prepared_stmts r.engine_calls).Nodup ∧
      prepared_stmts r.engine_calls =
        ((sqlite3_prepare_v2 db select_query_str).2.map (fun _ => 0)).toList ++
          (if SQLITE_OK = (sqlite3_prepare_v2 db select_query_str).1 then
            ((sqlite3_prepare_v2 db count_query_str).2.map (fun _ => 1)).toList else [])) ∧
    (released_stmts (cqlite_find_by_id db find_by_id_query id model_from_result_func
        model_out).engine_calls =
      prepared_stmts (cqlite_find_by_id db find_by_id_query id model_from_result_func
        model_out).engine_calls ∧
      (prepared_stmts (cqlite_find_by_id db find_by_id_query id model_from_result_func
        model_out).engine_calls).Nodup ∧
      prepared_stmts (cqlite_find_by_id db find_by_id_query id model_from_result_func
        model_out).engine_calls =
        ((sqlite3_prepare_v2 db find_by_id_query).2.map (fun _ => 0)).toList) ∧
    (∀ c, c ∈ count_prepared_engine_calls name query → c = EngineCall.step name) ∧
    (∀ c, c ∈ insert_engine_calls name conn query new_row_id_out → c = EngineCall.step name) ∧
    (∀ c, c ∈ find_engine_calls name query model_from_result_func model_out →
      c = EngineCall.step name) ∧
    (∀ c, c ∈ select_prepared_engine_calls name other query other_query outputs →
      c = EngineCall.step name ∨ c = EngineCall.step other) := by
  refine ⟨?_, ?_, ?_, step_calls_are_steps _ _ _, step_calls_are_steps _ _ _,
    step_calls_are_steps _ _ _, ?_⟩
  · by_cases hs : SQLITE_OK = (sqlite3_prepare_v2 db count_query_str).1
    · simp only [cqlite_count_query_execute, if_pos hs, count_prepared_engine_calls,
        prepared_stmts_append, released_stmts_append, prepared_stmts_step_calls,
        released_stmts_step_calls]
      rcases stmt_name_cases (sqlite3_prepare_v2 db count_query_str).2 0 with h | h <;>
        rw [h] <;> simp [prepared_stmts, released_stmts]
    · simp only [cqlite_count_query_execute, if_neg hs]
      rcases stmt_name_cases (sqlite3_prepare_v2 db count_query_str).2 0 with h | h <;>
        rw [h] <;> simp [prepared_stmts, released_stmts]
  · by_cases hs : SQLITE_OK = (sqlite3_prepare_v2 db select_query_str).1
    · by_cases hcn : SQLITE_OK = (sqlite3_prepare_v2 db count_query_str).1
      · obtain ⟨r, hr, _⟩ := select_returns alloc_ok
          (stmt_or_null (sqlite3_prepare_v2 db select_query_str).2)
          (stmt_or_null (sqlite3_prepare_v2 db count_query_str).2) add_to_list_func model_size
        simp only [cqlite_select_query_execute, if_pos hs, if_pos hcn, hr, Option.map_some']
        refine ⟨_, rfl, ?_⟩
        simp only [select_prepared_engine_calls,
          prepared_stmts_append, released_stmts_append, prepared_stmts_step_calls,
          released_stmts_step_calls]
        rcases stmt_name_cases (sqlite3_prepare_v2 db select_query_str).2 0 with h | h <;>
          rcases stmt_name_cases (sqlite3_prepare_v2 db count_query_str).2 1 with h1 | h1 <;>
          rw [h, h1] <;> simp [prepared_stmts, released_stmts, hs]
      · simp only [cqlite_select_query_execute, if_pos hs, if_neg hcn]
        refine ⟨_, rfl, ?_⟩
        rcases stmt_name_cases (sqlite3_prepare_v2 db select_query_str).2 0 with h | h <;>
          rcases stmt_name_cases (sqlite3_prepare_v2 db count_query_str).2 1 with h1 | h1 <;>
          rw [h, h1] <;> simp [prepared_stmts, released_stmts, hs]
    · simp only [cqlite_select_query_execute, if_neg hs]
      refine ⟨_, rfl, ?_⟩
      rcases stmt_name_cases (sqlite3_prepare_v2 db select_query_str).2 0 with h | h <;>
        rw [h] <;> simp [prepared_stmts, released_stmts]
  · by_cases hs : SQLITE_OK = (sqlite3_prepare_v2 db find_by_id_query).1
    · by_cases hb : SQLITE_OK =
          (sqlite3_bind_int64 db (sqlite3_prepare_v2 db find_by_id_query).2 1 id).1
      · simp only [cqlite_find_by_id, if_pos hs, if_pos hb, find_engine_calls,
          prepared_stmts_append, released_stmts_append, prepared_stmts_step_calls,
          released_stmts_step_calls]
        rcases stmt_name_cases (sqlite3_prepare_v2 db find_by_id_query).2 0 with h | h <;>
          rw [h] <;> simp [prepared_stmts, released_stmts]
      · simp only [cqlite_find_by_id, if_pos hs, if_neg hb]
        rcases stmt_name_cases (sqlite3_prepare_v2 db find_by_id_query).2 0 with h | h <;>
          rw [h] <;> simp [prepared_stmts, released_stmts]
    · simp only [cqlite_find_by_id, if_neg hs]
      rcases stmt_name_cases (sqlite3_prepare_v2 db find_by_id_query).2 0 with h | h <;>
        rw [h] <;> simp [prepared_stmts, released_stmts]
  · intro c hc
    simp only [select_prepared_engine_calls, List.mem_append] at hc
    rcases hc with hc | hc
    · right; exact step_calls_are_steps _ _ _ c hc
    · left; exact step_calls_are_steps _ _ _ c hc

/-- C12, at a concrete input: on the test connection the select-by-id text is
prepared, stepped and released once; when the second text of a select cannot
be prepared the first statement is still released once. -/
theorem statements_released_once_witness :
    (cqlite_count_query_execute (test_db hello_model) TEST_TABLE_SELECT_BY_ID).engine_calls =
      [EngineCall.prepare TEST_TABLE_SELECT_BY_ID 0 (some 0), EngineCall.step (some 0),
       EngineCall.finalize (some 0)] ∧
    released_stmts
      (cqlite_count_query_execute (test_db hello_model) TEST_TABLE_SELECT_BY_ID).engine_calls =
      [0] ∧
    ∃ r, cqlite_select_query_execute true (test_db hello_model) TEST_TABLE_SELECT_BY_ID "x"
        example_add_to_list 8 = some r ∧ released_stmts r.engine_calls = [0] := by
  have h := statements_released_once true (test_db hello_model) TEST_TABLE_SELECT_BY_ID
    TEST_TABLE_SELECT_BY_ID TEST_TABLE_SELECT_BY_ID 1 example_add_to_list 8
    example_from_row_result 9 none none (count_stmt 1) (count_stmt 1) { last_insert_rowid := 0 }
    none
    { rcode := CQLITE_ERROR, model_list_out := none, model_list_cnt_out := 0,
      select_query := count_stmt 1, count_query := count_stmt 1, calls := [],
      allocations := [] }
  refine ⟨by decide, ?_, _, rfl, by decide⟩
  rw [h.1.1]
  decide

/-- C13: if the COUNT query reports N > 0 and allocating the N-slot buffer
fails, the function returns `CQLITE_ERROR` with no partial output: the
buffer output is null, the conversion callback is never invoked and the
SELECT cursor is never advanced. -/
theorem select_alloc_failure_no_output {μ : Type} [Zero μ] (n : Nat) (alloc_ok : Bool)
    (select_query count_query : sqlite3_stmt)
    (add_to_list_func : cqlite_model_add_to_list_func_t μ) (model_size : Nat)
    (hpos : 0 < n)
    (hcount : (sqlite3_step count_query).1 = SQLITE_ROW)
    (hN : (count_query.script count_query.steps).2.column_int 0 = (n : Int))
    (halloc : alloc_ok = false) :
    ∃ r, cqlite_select_query_execute_prepared alloc_ok select_query count_query
        add_to_list_func model_size = some r ∧
      r.rcode = CQLITE_ERROR ∧ r.model_list_out = none ∧ r.calls = [] ∧
      r.select_query = select_query ∧ r.allocations = [(n, model_size)] := by
  subst halloc
  have hc : cqlite_count_query_execute_prepared count_query =
      { rcode := CQLITE_SUCCESS, count_out := (n : Int),
        count_query := after_steps count_query 1 } := by
    rw [count_prepared_row count_query hcount, hN]
  have hn : (0 : Int) < (n : Int) := by exact_mod_cast hpos
  refine ⟨_, select_no_iteration false select_query count_query add_to_list_func model_size ?_,
    ?_⟩
  · rw [hc, select_entry_counted_alloc_failed select_query _ model_size _ hn]
    simp
  · rw [hc, select_entry_counted_alloc_failed select_query _ model_size _ hn]
    simp [select_outputs]

/-- C13, at a concrete input: COUNT reports 2 and the allocation fails. -/
theorem select_alloc_failure_no_output_witness :
    ∃ r, cqlite_select_query_execute_prepared false (rows_stmt [7, 8]) (count_stmt 2)
        example_add_to_list 8 = some r ∧
      r.rcode = CQLITE_ERROR ∧ r.model_list_out = none ∧ r.calls = [] ∧
      r.select_query.steps = 0 := by
  obtain ⟨r, h1, h2, h3, h4, h5, _⟩ := select_alloc_failure_no_output 2 false
    (rows_stmt [7, 8]) (count_stmt 2) example_add_to_list 8 (by decide) rfl rfl rfl
  exact ⟨r, h1, h2, h3, h4, by rw [h5]; rfl⟩

/-- C14: if the COUNT cursor's first advance does not yield a row, the
function returns `CQLITE_ERROR` with a null buffer and row count 0, without
allocating, without advancing the SELECT cursor and without invoking the
conversion callback. -/
theorem select_count_no_row_error {μ : Type} [Zero μ] (alloc_ok : Bool)
    (select_query count_query : sqlite3_stmt)
    (add_to_list_func : cqlite_model_add_to_list_func_t μ) (model_size : Nat)
    (hcount : (sqlite3_step count_query).1 ≠ SQLITE_ROW) :
    ∃ r, cqlite_select_query_execute_prepared alloc_ok select_query count_query
        add_to_list_func model_size = some r ∧
      r.rcode = CQLITE_ERROR ∧ r.model_list_out = none ∧ r.model_list_cnt_out = 0 ∧
      r.allocations = [] ∧ r.select_query = select_query ∧ r.calls = [] ∧
      r.count_query = after_steps count_query 1 := by
  have hc := count_prepared_no_row count_query hcount
  refine ⟨_, select_no_iteration alloc_ok select_query count_query add_to_list_func
    model_size ?_, ?_⟩
  · rw [hc, select_entry_not_counted alloc_ok select_query _ model_size _]
    simp
  · rw [hc, select_entry_not_counted alloc_ok select_query _ model_size _]
    simp [select_outputs]

/-- C14, at a concrete input: the COUNT statement completes without a row. -/
theorem select_count_no_row_error_witness :
    ∃ r, cqlite_select_query_execute_prepared true (rows_stmt [7, 8])
        (stmt_reporting SQLITE_DONE) example_add_to_list 8 = some r ∧
      r.rcode = CQLITE_ERROR ∧ r.model_list_out = none ∧ r.model_list_cnt_out = 0 ∧
      r.allocations = [] ∧ r.calls = [] := by
  obtain ⟨r, h1, h2, h3, h4, h5, _, h7, _⟩ := select_count_no_row_error true
    (rows_stmt [7, 8]) (stmt_reporting SQLITE_DONE) example_add_to_list 8 (by decide)
  exact ⟨r, h1, h2, h3, h4, h5, h7⟩

/-- C15, refuted as stated: the model of the insert test with a NaN as its
real field.  The insert succeeds and sets the id, the row found for that id
stores what the insert bound, the find succeeds with found = 1 and the record
read back holds exactly the bound values, yet
`test_models_are_equal` judges it different from the inserted one, as it
judges the inserted one different from itself; so it does when the engine
hands back 0.0 for the real column. -/
theorem nan_round_trip_not_equal :
    (test_model_insert_new (test_db { nan_model with id := 1 }) nan_model).success = 1 ∧
    (test_model_insert_new (test_db { nan_model with id := 1 }) nan_model).model =
      { nan_model with id := 1 } ∧
    row_stores_bound (test_columns { nan_model with id := 1 })
      (test_row { nan_model with id := 1 }) 1
      (test_model_insert_new (test_db { nan_model with id := 1 }) nan_model).engine_calls ∧
    (test_model_find_by_id (test_columns { nan_model with id := 1 }) true
      (test_db { nan_model with id := 1 }) 1).success = 1 ∧
    (test_model_find_by_id (test_columns { nan_model with id := 1 }) true
      (test_db { nan_model with id := 1 }) 1).found_out = 1 ∧
    (test_model_find_by_id (test_columns { nan_model with id := 1 }) true
      (test_db { nan_model with id := 1 }) 1).model_out = { nan_model with id := 1 } ∧
    test_models_are_equal { nan_model with id := 1 }
      (test_model_find_by_id (test_columns { nan_model with id := 1 }) true
        (test_db { nan_model with id := 1 }) 1).model_out = 0 ∧
    test_models_are_equal { nan_model with id := 1 } { nan_model with id := 1 } = 0 ∧
    test_models_are_equal { nan_model with id := 1 }
      (test_model_find_by_id (test_columns { nan_model with id := 1, real_field := 0 }) true
        (test_db { nan_model with id := 1, real_field := 0 }) 1).model_out = 0 :=
  ⟨rfl, rfl, ⟨rfl, rfl, rfl, ⟨rfl, rfl⟩, rfl, rfl⟩, rfl, rfl, rfl, rfl, rfl, rfl⟩

/-- C15, amended: insert then find-by-id round trip, for every test model
whose real field is not a NaN and whose fixed string has at most 3
characters before the terminator in its 4-byte field.  If
`test_model_insert_new` succeeds, then it has set the model's id to the
generated row id and has left the model's double, integer and two texts bound
to the parameters 2 to 5 of the insert statement, the id parameter unbound.
If moreover the engine then yields for that id the row storing, column by
column, what the engine calls of the insert bound (the generated row id in
the id column), and the string copy can be allocated, then
`test_model_find_by_id` with that id returns success and found = 1, the
record read back holds exactly the model's values, and
`test_models_are_equal` judges it equal to the inserted one. -/
theorem insert_then_find_round_trip (acc : sqlite3_wide_columns) (alloc_ok : Bool)
    (db : sqlite3_conn) (model : test_model_t) (q q2 : sqlite3_stmt) (r : Row)
    (hinsert : (test_model_insert_new db model).success ≠ 0)
    (hprepare : sqlite3_prepare_v2 db TEST_TABLE_SELECT_BY_ID = (SQLITE_OK, some q))
    (hbind : db.bind q 1 (BindValue.int64 (test_model_insert_new db model).model.id) =
      (SQLITE_OK, q2))
    (hstep : q2.script q2.steps = (SQLITE_ROW, r))
    (hstored : row_stores_bound acc r (sqlite3_last_insert_rowid db.tosqlite3)
      (test_model_insert_new db model).engine_calls)
    (hreal : double_is_nan model.real_field = false)
    (hfixed : strlen model.fixed_string_field < 4)
    (halloc : alloc_ok = true) :
    (test_model_insert_new db model).model =
      { model with id := sqlite3_last_insert_rowid db.tosqlite3 } ∧
    (bound_value (test_model_insert_new db model).engine_calls (TEST_TABLE_ID_COL + 1) = none ∧
      bound_value (test_model_insert_new db model).engine_calls
          (TEST_TABLE_REAL_FIELD_COL + 1) = some (BindValue.double model.real_field) ∧
      bound_value (test_model_insert_new db model).engine_calls
          (TEST_TABLE_INT_FIELD_COL + 1) = some (BindValue.int model.int_field) ∧
      bound_value (test_model_insert_new db model).engine_calls
          (TEST_TABLE_DYNAMIC_STRING_FIELD_COL + 1) =
        some (BindValue.text (model.dynamic_string_field.map c_str)) ∧
      bound_value (test_model_insert_new db model).engine_calls
          (TEST_TABLE_FIXED_STRING_FIELD_COL + 1) =
        some (BindValue.text (some (c_str model.fixed_string_field)))) ∧
    (test_model_find_by_id acc alloc_ok db (test_model_insert_new db model).model.id).success
      = 1 ∧
    (test_model_find_by_id acc alloc_ok db (test_model_insert_new db model).model.id).found_out
      = 1 ∧
    test_models_are_equal (test_model_insert_new db model).model
      (test_model_find_by_id acc alloc_ok db
        (test_model_insert_new db model).model.id).model_out = 1 ∧
    (test_model_find_by_id acc alloc_ok db (test_model_insert_new db model).model.id).model_out
      = { id := sqlite3_last_insert_rowid db.tosqlite3
          real_field := model.real_field
          int_field := model.int_field
          dynamic_string_field := model.dynamic_string_field.map (fun s => c_str s ++ [0])
          fixed_string_field := c_str model.fixed_string_field ++ [0] ++
            (List.replicate 4 0).drop (strlen model.fixed_string_field + 1) } := by
  subst halloc
  have hm := insert_new_sets_id db model hinsert
  have hbound := insert_new_bound db model hinsert
  have hrowst := insert_new_stored_row acc db model r hinsert hstored
  generalize test_model_insert_new db model = ins at hm hbind hrowst hinsert hbound
  have hrow : (sqlite3_step q2).1 = SQLITE_ROW := by
    simp only [sqlite3_step, hstep]
  have hcur : current_row (after_steps q2 1) = some r := by
    simp [current_row, after_steps, hstep]
  have hread := from_row_result_stored acc (after_steps q2 1) r ins.model test_model_init
    hcur hrowst (by rw [hm]; exact hfixed)
  have hf := find_row q2 (test_model_from_row_result acc true) test_model_init hrow
  have hfind : (cqlite_find_by_id db TEST_TABLE_SELECT_BY_ID ins.model.id
        (test_model_from_row_result acc true) test_model_init).rcode = CQLITE_SUCCESS ∧
      (cqlite_find_by_id db TEST_TABLE_SELECT_BY_ID ins.model.id
        (test_model_from_row_result acc true) test_model_init).found_out = 1 ∧
      (cqlite_find_by_id db TEST_TABLE_SELECT_BY_ID ins.model.id
        (test_model_from_row_result acc true) test_model_init).model_out =
        (test_model_from_row_result acc true (after_steps q2 1) test_model_init).2 := by
    simp only [cqlite_find_by_id, hprepare, sqlite3_bind_int64, hbind, stmt_or_null,
      Option.getD_some, if_true, hf, hread]
    simp
  obtain ⟨hf1, hf2, hf3⟩ := hfind
  refine ⟨hm, hbound, ?_, ?_, ?_, ?_⟩
  · simp only [test_model_find_by_id, hf1, if_true]
  · simp only [test_model_find_by_id, hf2]
  · simp only [test_model_find_by_id, hf3, hread]
    exact read_back_model_equal ins.model (by rw [hm]; exact hreal)
  · simp only [test_model_find_by_id]
    rw [hf3, hread, hm]

/-- C15 amended, at the input of the insert test: real 1.0, int 1, "Hello",
"ABC", with 1 as the generated row id. -/
theorem insert_then_find_round_trip_witness :
    (test_model_insert_new (test_db { hello_model with id := 1 }) hello_model).model.id = 1 ∧
    (test_model_find_by_id (test_columns { hello_model with id := 1 }) true
      (test_db { hello_model with id := 1 }) 1).success = 1 ∧
    (test_model_find_by_id (test_columns { hello_model with id := 1 }) true
      (test_db { hello_model with id := 1 }) 1).found_out = 1 ∧
    test_models_are_equal { hello_model with id := 1 }
      (test_model_find_by_id (test_columns { hello_model with id := 1 }) true
        (test_db { hello_model with id := 1 }) 1).model_out = 1 := by
  obtain ⟨h1, _, h2, h3, h4, _⟩ := insert_then_find_round_trip
    (test_columns { hello_model with id := 1 }) true (test_db { hello_model with id := 1 })
    hello_model
    (stmt_of_list [(SQLITE_ROW, test_row { hello_model with id := 1 })] (SQLITE_DONE, null_row))
    (stmt_of_list [(SQLITE_ROW, test_row { hello_model with id := 1 })] (SQLITE_DONE, null_row))
    (test_row { hello_model with id := 1 })
    (by decide) rfl rfl rfl ⟨rfl, rfl, rfl, ⟨rfl, rfl⟩, rfl, rfl⟩ rfl (by decide) rfl
  exact ⟨congrArg test_model_t.id h1, h2, h3, h4⟩

/-- C16: if the conversion callback returns 0 on the row at index k (k < N),
after succeeding on the rows before it, the function aborts the loop and
returns `CQLITE_ERROR`: the callback is invoked exactly k+1 times in all,
with the consecutive indices 0..k, each on the corresponding SELECT row in
cursor order, and never again, whatever the cursor still has to yield. -/
theorem select_callback_failure_aborts {μ : Type} [Zero μ] (n k : Nat) (alloc_ok : Bool)
    (select_query count_query : sqlite3_stmt)
    (add_to_list_func : cqlite_model_add_to_list_func_t μ) (model_size : Nat)
    (hk : k < n)
    (hcount : (sqlite3_step count_query).1 = SQLITE_ROW)
    (hN : (count_query.script count_query.steps).2.column_int 0 = (n : Int))
    (halloc : alloc_ok = true)
    (hrows : ∀ i, i ≤ k → (select_query.script (select_query.steps + i)).1 = SQLITE_ROW)
    (hok : ∀ i, i < k → ∀ l,
      (add_to_list_func (after_steps select_query (i + 1)) l (i : Int)).1 ≠ 0)
    (hfails : ∀ l, (add_to_list_func (after_steps select_query (k + 1)) l (k : Int)).1 = 0) :
    ∃ r, cqlite_select_query_execute_prepared alloc_ok select_query count_query
        add_to_list_func model_size = some r ∧
      r.rcode = CQLITE_ERROR ∧
      call_args r.calls =
        (List.range (k + 1)).map (fun i => (after_steps select_query (i + 1), (i : Int))) ∧
      r.calls.length = k + 1 ∧ populated_count r.calls = k ∧
      (∀ i, i ≤ k → current_row (after_steps select_query (i + 1)) =
        some (select_query.script (select_query.steps + i)).2) := by
  subst halloc
  have hc : cqlite_count_query_execute_prepared count_query =
      { rcode := CQLITE_SUCCESS, count_out := (n : Int),
        count_query := after_steps count_query 1 } := by
    rw [count_prepared_row count_query hcount, hN]
  have hn : (0 : Int) < (n : Int) := by exact_mod_cast (by omega : 0 < n)
  obtain ⟨s1, hrun, ⟨i, hik, hidx, hargs, hlive, hdead, hpop⟩, hexit⟩ :=
    select_prepared_rule true select_query count_query add_to_list_func model_size
      (fun s => ∃ i : Nat, i ≤ k + 1 ∧ s.model_idx = (i : Int) ∧
        call_args s.calls =
          (List.range i).map (fun i => (after_steps select_query (i + 1), (i : Int))) ∧
        (i ≤ k → s.success ≠ 0 ∧
          s.sqlite_rcode = (select_query.script (select_query.steps + i)).1 ∧
          s.select_query = after_steps select_query (i + 1)) ∧
        (i = k + 1 → s.success = 0) ∧
        populated_count s.calls = min i k)
      (by
        rw [hc, select_entry_counted_alloc select_query _ model_size _ hn]
        exact ⟨0, Nat.zero_le _, rfl, rfl, fun _ => ⟨by simp, rfl, rfl⟩,
          fun h => absurd h (by omega), by simp [populated_count]⟩)
      (by
        rintro s ⟨i, hik, hidx, hargs, hlive, hdead, hpop⟩ hs _ _
        have hi : i ≤ k := by
          by_contra hcon
          exact hs (hdead (by omega))
        obtain ⟨_, _, hq⟩ := hlive hi
        refine ⟨i + 1, by omega, ?_, ?_, fun hi1 => ⟨?_, ?_, ?_⟩, fun hi1 => ?_, ?_⟩
        · simp only [select_loop_body, hidx]; push_cast; rfl
        · simp only [select_loop_body]
          rw [call_args_append, hargs, List.range_succ, List.map_append, hq, hidx]
          rfl
        · simp only [select_loop_body]
          rw [hq, hidx]
          exact hok i (by omega) _
        · simp only [select_loop_body, sqlite3_step, hq, after_steps]
        · simp only [select_loop_body, sqlite3_step, hq, after_steps]
          rw [Nat.add_assoc]
        · have hik2 : i = k := by omega
          simp only [select_loop_body]
          rw [hq, hidx, hik2]
          exact hfails _
        · simp only [select_loop_body]
          rw [populated_count_append, hpop]
          simp only []
          rw [hq, hidx]
          rcases Nat.lt_or_ge i k with hlt | hge
          · rw [if_pos (hok i hlt _)]
            omega
          · have hik2 : i = k := by omega
            subst hik2
            rw [if_neg (by rw [hfails]; simp)]
            simp)
      (by
        rintro s ⟨i, hik, hidx, hargs, hlive, hdead, hpop⟩ hs _ hge
        exfalso
        have hi : i ≤ k := by
          by_contra hcon
          exact hs (hdead (by omega))
        rw [hc, hidx] at hge
        have hge2 : (n : Int) ≤ (i : Int) := hge
        omega)
  have hi : i = k + 1 := by
    by_contra hcon
    have hle : i ≤ k := by omega
    obtain ⟨h1, h2, _⟩ := hlive hle
    exact hexit ⟨h1, by rw [h2, hrows i hle]⟩
  subst hi
  have hs0 := hdead rfl
  refine ⟨_, hrun, ?_, ?_, ?_, ?_, fun j hj => ?_⟩
  · simp [select_outputs, hs0]
  · simp only [select_outputs, hargs]
  · have := congrArg List.length hargs
    simpa [call_args, select_outputs] using this
  · simp only [select_outputs, hpop]
    simp
  · have hr : (select_query.script (select_query.steps + j)).1 = 100 := hrows j hj
    simp [current_row, after_steps, ← Nat.add_assoc, hr]

/-- C16, at a concrete input: COUNT reports 3, the cursor yields three rows
and the callback fails on the row of index 1. -/
theorem select_callback_failure_aborts_witness :
    ∃ r, cqlite_select_query_execute_prepared true (rows_stmt [7, 8, 9]) (count_stmt 3)
        (add_to_list_failing_at 1) 8 = some r ∧
      r.rcode = CQLITE_ERROR ∧ r.calls.length = 2 ∧ populated_count r.calls = 1 := by
  obtain ⟨r, h1, h2, _, h4, h5, _⟩ := select_callback_failure_aborts 3 1 true
    (rows_stmt [7, 8, 9]) (count_stmt 3) (add_to_list_failing_at 1) 8 (by decide) rfl rfl rfl
    (by decide)
    (fun i hi l => by
      have hi0 : i = 0 := by omega
      subst hi0
      simp [add_to_list_failing_at, example_add_to_list])
    (fun l => by simp [add_to_list_failing_at])
  exact ⟨r, h1, h2, h4, h5⟩

/-- C17: the row-count output of `cqlite_select_query_execute_prepared`
depends only on the COUNT query.  On every return it is the first-column
value N of the COUNT row when the COUNT advance yielded a row, and 0
otherwise, whatever the SELECT cursor yields and the callback returns; in
particular when the allocation fails the outputs are a null buffer together
with a row count N > 0. -/
theorem select_row_count_from_count_only {μ : Type} [Zero μ] (alloc_ok : Bool)
    (select_query count_query : sqlite3_stmt)
    (add_to_list_func : cqlite_model_add_to_list_func_t μ) (model_size : Nat) :
    ∃ r, cqlite_select_query_execute_prepared alloc_ok select_query count_query
        add_to_list_func model_size = some r ∧
      ((sqlite3_step count_query).1 = SQLITE_ROW →
        r.model_list_cnt_out = (count_query.script count_query.steps).2.column_int 0) ∧
      ((sqlite3_step count_query).1 ≠ SQLITE_ROW → r.model_list_cnt_out = 0) ∧
      ((sqlite3_step count_query).1 = SQLITE_ROW →
        0 < (count_query.script count_query.steps).2.column_int 0 → alloc_ok = false →
        r.model_list_out = none ∧ 0 < r.model_list_cnt_out ∧ r.rcode = CQLITE_ERROR) := by
  obtain ⟨r, h1, h2, _⟩ :=
    select_returns alloc_ok select_query count_query add_to_list_func model_size
  refine ⟨r, h1, fun hrow => ?_, fun hno => ?_, fun hrow hpos ha => ?_⟩
  · rw [h2, count_prepared_row count_query hrow]
  · rw [h2, count_prepared_no_row count_query hno]
  · subst ha
    have hc := count_prepared_row count_query hrow
    have hrun := select_no_iteration false select_query count_query add_to_list_func
      model_size (by
        rw [hc, select_entry_counted_alloc_failed select_query _ model_size _ hpos]
        simp)
    rw [h1] at hrun
    have hr := Option.some.inj hrun
    rw [hc, select_entry_counted_alloc_failed select_query _ model_size _ hpos] at hr
    rw [hr]
    exact ⟨rfl, hpos, by simp [select_outputs]⟩

/-- C17, at a concrete input: COUNT reports 2 and the allocation fails. -/
theorem select_row_count_from_count_only_witness :
    ∃ r, cqlite_select_query_execute_prepared false (rows_stmt [7]) (count_stmt 2)
        example_add_to_list 8 = some r ∧
      r.model_list_cnt_out = 2 ∧ r.model_list_out = none := by
  obtain ⟨r, h1, h2, _, h4⟩ := select_row_count_from_count_only false (rows_stmt [7])
    (count_stmt 2) example_add_to_list 8
  exact ⟨r, h1, h2 rfl, (h4 rfl (by decide) rfl).1⟩

/-- C18: if the COUNT cursor's first column is a negative integer N < 0, the
function allocates nothing and never invokes the callback; it advances the
SELECT cursor once, and when that advance reports completion it returns
`CQLITE_SUCCESS` with a null buffer and the negative row count N, and when
that advance reports a row it returns `CQLITE_ERROR`. -/
theorem select_negative_count {μ : Type} [Zero μ] (N : Int) (alloc_ok : Bool)
    (select_query count_query : sqlite3_stmt)
    (add_to_list_func : cqlite_model_add_to_list_func_t μ) (model_size : Nat)
    (hcount : (sqlite3_step count_query).1 = SQLITE_ROW)
    (hN : (count_query.script count_query.steps).2.column_int 0 = N)
    (hneg : N < 0) :
    ∃ r, cqlite_select_query_execute_prepared alloc_ok select_query count_query
        add_to_list_func model_size = some r ∧
      r.allocations = [] ∧ r.calls = [] ∧ r.model_list_out = none ∧
      r.model_list_cnt_out = N ∧ r.select_query = after_steps select_query 1 ∧
      ((sqlite3_step select_query).1 = SQLITE_DONE → r.rcode = CQLITE_SUCCESS) ∧
      ((sqlite3_step select_query).1 = SQLITE_ROW → r.rcode = CQLITE_ERROR) := by
  have hc : cqlite_count_query_execute_prepared count_query =
      { rcode := CQLITE_SUCCESS, count_out := N, count_query := after_steps count_query 1 } := by
    rw [count_prepared_row count_query hcount, hN]
  obtain ⟨s1, hrun, ⟨hidx, hcalls, hlist, hcode, hq, hs⟩, hexit⟩ :=
    select_prepared_rule alloc_ok select_query count_query add_to_list_func model_size
      (fun s => s.model_idx = 0 ∧ s.calls = [] ∧ s.model_list = none ∧
        s.sqlite_rcode = (sqlite3_step select_query).1 ∧
        s.select_query = (sqlite3_step select_query).2 ∧
        (s.success = 0 → s.sqlite_rcode = SQLITE_ROW))
      (by
        rw [hc, select_entry_counted_none alloc_ok select_query _ model_size _ (le_of_lt hneg)]
        exact ⟨rfl, rfl, rfl, rfl, rfl, fun h => absurd h (by simp)⟩)
      (by
        rintro s ⟨hidx, _, _, _, _, _⟩ _ _ hlt
        rw [hc, hidx] at hlt
        have hlt2 : (0 : Int) < N := hlt
        omega)
      (by
        rintro s ⟨hidx, hcalls, hlist, hcode, hq, _⟩ _ hrow _
        exact ⟨hidx, hcalls, hlist, hcode, hq, fun _ => hrow⟩)
  refine ⟨_, hrun, ?_, ?_, ?_, ?_, ?_, fun hdone => ?_, fun hrow => ?_⟩
  · rw [hc, select_entry_counted_none alloc_ok select_query _ model_size _ (le_of_lt hneg)]
    rfl
  · simp only [select_outputs, hcalls]
  · simp only [select_outputs, hlist]
  · simp only [select_outputs, hc]
  · simp only [select_outputs, hq]
    rfl
  · have hne : s1.success ≠ 0 := by
      intro h0
      have := hs h0
      rw [hcode, hdone] at this
      exact absurd this (by decide)
    have hd : SQLITE_DONE = s1.sqlite_rcode := by rw [hcode, hdone]
    simp [select_outputs, hne, hd]
  · have h0 : s1.success = 0 := by
      by_contra hne
      exact hexit ⟨hne, by rw [hcode, hrow]⟩
    simp [select_outputs, h0]

/-- C18, at concrete inputs: COUNT reports -2, with a SELECT cursor that
completes at once and with one that yields a row. -/
theorem select_negative_count_witness :
    (∃ r, cqlite_select_query_execute_prepared true (rows_stmt []) (count_stmt (-2))
        example_add_to_list 8 = some r ∧
      r.rcode = CQLITE_SUCCESS ∧ r.model_list_out = none ∧ r.model_list_cnt_out = -2) ∧
    (∃ r, cqlite_select_query_execute_prepared true (rows_stmt [7]) (count_stmt (-2))
        example_add_to_list 8 = some r ∧ r.rcode = CQLITE_ERROR ∧ r.calls = []) := by
  obtain ⟨r, h1, _, _, h4, h5, _, h7, _⟩ := select_negative_count (-2) true (rows_stmt [])
    (count_stmt (-2)) example_add_to_list 8 rfl rfl (by decide)
  obtain ⟨s, g1, _, g3, _, _, _, _, g8⟩ := select_negative_count (-2) true (rows_stmt [7])
    (count_stmt (-2)) example_add_to_list 8 rfl rfl (by decide)
  exact ⟨⟨r, h1, h7 rfl, h4, h5⟩, ⟨s, g1, g8 rfl, g3⟩⟩

/-- C19: `cqlite_select_query_execute_prepared` terminates for every
behaviour of the SELECT cursor, one that reports a row on every advance
included.  It returns; it advances the COUNT cursor exactly once and the
SELECT cursor at most max(N, 0) + 1 times, and it invokes the callback at
most max(N, 0) times, N being the row count it reports (the COUNT value);
and the row loop ends within max(N, 0) + 1 iterations: any larger bound on
the iterations gives the same outputs. -/
theorem select_terminates_bounded {μ : Type} [Zero μ] (alloc_ok : Bool)
    (select_query count_query : sqlite3_stmt)
    (add_to_list_func : cqlite_model_add_to_list_func_t μ) (model_size : Nat) :
    ∃ r, cqlite_select_query_execute_prepared alloc_ok select_query count_query
        add_to_list_func model_size = some r ∧
      r.count_query = after_steps count_query 1 ∧
      r.select_query.script = select_query.script ∧
      select_query.steps ≤ r.select_query.steps ∧
      r.select_query.steps ≤ select_query.steps + (r.model_list_cnt_out.toNat + 1) ∧
      r.calls.length ≤ r.model_list_cnt_out.toNat ∧
      r.model_list_cnt_out = (cqlite_count_query_execute_prepared count_query).count_out ∧
      ∀ fuel, r.model_list_cnt_out.toNat + 1 ≤ fuel →
        (select_loop add_to_list_func r.model_list_cnt_out fuel
          (select_entry alloc_ok select_query
            (cqlite_count_query_execute_prepared count_query) model_size).1).map
          (select_outputs r.model_list_cnt_out
            (cqlite_count_query_execute_prepared count_query).count_query
            (select_entry alloc_ok select_query
              (cqlite_count_query_execute_prepared count_query) model_size :
                SelectLocals μ × List (Nat × Nat)).2) = some r := by
  obtain ⟨hq0, hidx0, hcalls0⟩ := @select_entry_locals μ _ alloc_ok select_query
    (cqlite_count_query_execute_prepared count_query) model_size
  obtain ⟨s1, hloop, ⟨hscript, i, hidx, hile, hlo, hhi, hlen⟩, _⟩ :=
    select_loop_invariant add_to_list_func
      (cqlite_count_query_execute_prepared count_query).count_out
      (fun s => s.select_query.script = select_query.script ∧ ∃ i : Nat,
        s.model_idx = (i : Int) ∧
        i ≤ (cqlite_count_query_execute_prepared count_query).count_out.toNat ∧
        select_query.steps ≤ s.select_query.steps ∧
        s.select_query.steps ≤ select_query.steps + 1 + i ∧ s.calls.length = i)
      (by
        rintro s ⟨hscript, i, hidx, hile, hlo, hhi, hlen⟩ _ _ hlt
        refine ⟨hscript, i + 1, ?_, ?_, ?_, ?_, ?_⟩
        · simp only [select_loop_body, hidx]; push_cast; rfl
        · rw [hidx] at hlt; omega
        · simp only [select_loop_body, sqlite3_step]; omega
        · simp only [select_loop_body, sqlite3_step]; omega
        · simp [select_loop_body, hlen])
      (by
        rintro s ⟨hscript, i, hidx, hile, hlo, hhi, hlen⟩ _ _ _
        exact ⟨hscript, i, hidx, hile, hlo, hhi, hlen⟩)
      ((cqlite_count_query_execute_prepared count_query).count_out.toNat + 1)
      (select_entry alloc_ok select_query
        (cqlite_count_query_execute_prepared count_query) model_size).1
      (by
        rcases hq0 with h | h
        · exact ⟨by rw [h], 0, hidx0, Nat.zero_le _, by rw [h], by rw [h]; omega,
            by rw [hcalls0]; rfl⟩
        · exact ⟨by rw [h]; rfl, 0, hidx0, Nat.zero_le _, by rw [h]; simp [after_steps],
            by rw [h]; simp [after_steps], by rw [hcalls0]; rfl⟩)
      (by rw [hidx0]; omega)
  refine ⟨select_outputs (cqlite_count_query_execute_prepared count_query).count_out
      (cqlite_count_query_execute_prepared count_query).count_query
      (select_entry alloc_ok select_query
        (cqlite_count_query_execute_prepared count_query) model_size :
          SelectLocals μ × List (Nat × Nat)).2 s1, ?_, ?_, hscript, hlo, ?_, ?_, rfl, ?_⟩
  · unfold cqlite_select_query_execute_prepared
    simp only [hloop, Option.map_some']
  · exact count_prepared_steps_once count_query
  · simp only [select_outputs]; omega
  · simp only [select_outputs, hlen]; exact hile
  · intro fuel hfuel
    obtain ⟨more, rfl⟩ : ∃ more, fuel =
        (cqlite_count_query_execute_prepared count_query).count_out.toNat + 1 + more :=
      ⟨fuel - ((cqlite_count_query_execute_prepared count_query).count_out.toNat + 1), by
        simp only [select_outputs] at hfuel; omega⟩
    simp only [select_outputs]
    rw [select_loop_fuel_le add_to_list_func _ _ _ s1 hloop more]
    rfl

/-- C19, at a concrete input: COUNT reports 2 and the SELECT cursor reports
a row on every advance. -/
theorem select_terminates_bounded_witness :
    ∃ r, cqlite_select_query_execute_prepared true endless_rows_stmt (count_stmt 2)
        example_add_to_list 8 = some r ∧
      r.rcode = CQLITE_ERROR ∧ r.select_query.steps ≤ 3 ∧ r.calls.length ≤ 2 := by
  obtain ⟨r, h1, _, _, _, h5, h6, h7, _⟩ := select_terminates_bounded true endless_rows_stmt
    (count_stmt 2) example_add_to_list 8
  have hcnt : r.model_list_cnt_out = 2 := h7
  rw [hcnt] at h5 h6
  have hrc : (cqlite_select_query_execute_prepared true endless_rows_stmt (count_stmt 2)
      example_add_to_list 8).map (fun r => r.rcode) = some CQLITE_ERROR := rfl
  rw [h1] at hrc
  exact ⟨r, h1, Option.some.inj hrc, h5, h6⟩

end CQLite
